import Mathlib

/-!
TerraCore backend: a shallow embedding of the REST handlers.

The development embeds `src/backend/database.js` (the `DatabaseWrapper` around
an sql.js database) and the route handlers of `src/backend/routes/*.js` as
functions on an explicit state, and proves properties of them.

* JavaScript values that can arrive in a JSON body, come out of a row or sit
  in a token payload are `JsVal`; a number is an integer (`num`) or a fraction
  or infinity (`real`), fractions being rationals, of which the doubles are a
  part; nested objects are left out.
* SQLite values are `SqlVal`; what a column keeps of a bound value follows the
  column's affinity (`applyAffinity`), and what the handlers read of a column
  is a JavaScript value (`toJs`): numbers come back as doubles, so that an
  INTEGER beyond `2 ^ 53` is read as the double nearest to it (`toDouble`).
* Library code that is not part of the repository (bcryptjs, jsonwebtoken,
  `String.prototype.toLowerCase`, `JSON`, SQLite's text/number conversions) is
  a parameter, `Lib`. What sql.js does is modelled where the wrapper calls it:
  `bindValue` for parameters, `State._saveDatabase` for `export`.
* A handler is a function from the wrapper state to a response and the next
  wrapper state; the clock reading used for `CURRENT_TIMESTAMP` is an argument
  `now`. A JavaScript exception is `Except.error`, and each handler's `catch`
  turns it into its 500 response.
* The wrapper's `ready` flag is part of the state; statements about what a
  route does with the store are made for `ready = true`, the state after
  `_ensureReady` has finished.
-/

set_option autoImplicit false

namespace TerraCore

/-! ## Values -/

/-- A number other than an integer, as a JavaScript number and an SQLite REAL
hold it: a fraction (a rational that is not an integer; the doubles are among
them) or one of the two infinities. -/
inductive NonInteger where
  | frac (q : ℚ) (proper : q.den ≠ 1)
  | inf (negative : Bool)
  deriving DecidableEq, Repr

/-- A JavaScript value as the handlers see it: `undefined` (also an absent
property), `null`, a boolean, a number that is an integer (`num`), a number
that is not (`real`), a string, or an array of strings. `NaN` does not come in
a JSON body and is not read from a column. -/
inductive JsVal where
  | undefined
  | null
  | bool (b : Bool)
  | num (n : Int)
  | str (s : String)
  | arr (xs : List String)
  | real (x : NonInteger)
  deriving DecidableEq, Repr

/-- A JavaScript number as `parseInt` and `parseFloat` return it. -/
inductive JsNumber where
  | int (n : Int)
  | real (x : NonInteger)
  | nan
  deriving DecidableEq, Repr

/-- JavaScript truthiness: what `if (v)`, `!v`, `v || w` and `v ? a : b` test. -/
def JsVal.truthy : JsVal → Bool
  | .undefined => false
  | .null => false
  | .bool b => b
  | .num n => n != 0
  | .str s => s != ""
  | .arr _ => true
  | .real _ => true

/-- The JavaScript expression `a || b`. -/
def JsVal.or (a b : JsVal) : JsVal := if a.truthy then a else b

/-- The JavaScript expression `v !== undefined ? v : w`. -/
def JsVal.orUndef (v w : JsVal) : JsVal := if v = .undefined then w else v

/-- The JavaScript expression `v ? 1 : 0`. -/
def JsVal.flag (v : JsVal) : JsVal := if v.truthy then .num 1 else .num 0

/-- A value of an SQLite column or of a bound statement parameter: NULL, a
number that is an integer (`int`, whether SQLite keeps it as INTEGER or as
REAL), a number that is not (`real`), a text or a blob. -/
inductive SqlVal where
  | null
  | int (n : Int)
  | text (s : String)
  | blob (xs : List String)
  | real (x : NonInteger)
  deriving DecidableEq, Repr

/-- The claims a token carries: the payload handed to `jwt.sign`, and what
`jwt.verify` hands back as `user`. A property that is `undefined` is absent
from the payload. -/
structure Claims where
  id : JsVal
  email : JsVal
  name : JsVal
  role : JsVal
  deriving DecidableEq, Repr

/-- The library functions the handlers call, as they behave during the request
at hand: `toLowerCase` is `String.prototype.toLowerCase`; `hashSync` is
`bcrypt.hashSync(·, 10)` and `compareSync` is `bcrypt.compareSync` on two
strings; `sign` is `jwt.sign(·, JWT_SECRET, \x7bexpiresIn\x7d)` and `verify` is
`jwt.verify(·, JWT_SECRET, cb)`, `none` being the `err` branch of the callback;
`numericText` is SQLite's reading of a text as an integer where a column's
numeric affinity applies and `realText` its reading of a text as a number that
is not an integer (`none`: the text does not read so), `numToText` and
`realToText` its rendering of a number kept in a TEXT column; `parseInt` and
`parseFloat` are the JavaScript functions; `stringify` and `parse` are
`JSON.stringify` and `JSON.parse` (`none`: a `SyntaxError`); `likeBlob` is
SQLite's `LIKE` of a pattern on the bytes of a blob. -/
structure Lib where
  toLowerCase : String → String
  hashSync : String → String
  compareSync : String → String → Bool
  sign : Claims → String
  verify : String → Option Claims
  numericText : String → Option Int
  realText : String → Option NonInteger
  numToText : Int → String
  realToText : NonInteger → String
  parseInt : String → JsNumber
  parseFloat : String → JsNumber
  stringify : JsVal → String
  parse : String → Option JsVal
  likeBlob : String → List String → Bool

/-- The value sql.js binds for a JavaScript parameter (`Statement.bindValue`):
strings as text, numbers and booleans as numbers, `null` as NULL, anything
with a `length` as a blob; `undefined` is refused with an exception. -/
def bindValue : JsVal → Except String SqlVal
  | .str s => .ok (.text s)
  | .num n => .ok (.int n)
  | .bool b => .ok (.int (if b then 1 else 0))
  | .null => .ok .null
  | .arr xs => .ok (.blob xs)
  | .real x => .ok (.real x)
  | .undefined => .error "Wrong API use : tried to bind a value of an unknown type (undefined)."

/-- The value sql.js binds for a number (`bindNumber`); SQLite keeps a `NaN`
as NULL. -/
def JsNumber.bound : JsNumber → SqlVal
  | .int n => .int n
  | .real x => .real x
  | .nan => .null

/-- How often `m` has to be halved to fall below `2 ^ 53`; `fuel` bounds the
count. -/
def excessBits : Nat → Nat → Nat
  | 0, _ => 0
  | fuel + 1, m => if m < 2 ^ 53 then 0 else excessBits fuel (m / 2) + 1

/-- The double nearest to the integer `n` (IEEE 754 binary64, ties to the even
significand), which is again an integer: `n` itself below `2 ^ 53` in
magnitude, and beyond that `n` rounded to 53 significant bits. It is what
`sqlite3_column_double` returns for an INTEGER `n`. -/
def toDouble (n : Int) : Int :=
  let e := excessBits n.natAbs n.natAbs
  if e = 0 then n
  else
    let q := n.natAbs / 2 ^ e
    let r := n.natAbs % 2 ^ e
    let up := decide (2 ^ (e - 1) < r) || (decide (r = 2 ^ (e - 1)) && decide (q % 2 = 1))
    n.sign * (((if up then q + 1 else q) * 2 ^ e : Nat) : Int)

/-- The JavaScript value `getAsObject` gives for a column value: sql.js reads
every number with `sqlite3_column_double`, so an integer comes back as the
nearest double; a blob comes back as a typed array, for which the model keeps
the elements it was bound from. -/
def toJs : SqlVal → JsVal
  | .null => .null
  | .int n => .num (toDouble n)
  | .text s => .str s
  | .blob xs => .arr xs
  | .real x => .real x

/-- Column affinities of the schema: TEXT columns, the columns declared
INTEGER together with the NUMERIC affinity of DATETIME (`numeric`), and the
columns declared REAL (`real`). -/
inductive Affinity where
  | text
  | numeric
  | real
  deriving DecidableEq, Repr

/-- What a column of the given affinity keeps of a value: a TEXT column turns a
number into its text; an INTEGER or NUMERIC column turns a text that reads as a
number into that number; a REAL column does the same and keeps the number as a
double, so that an integer read from a text is rounded to the nearest double
(a number that was bound is a double already); everything else is kept as it
is. -/
def applyAffinity (lib : Lib) : Affinity → SqlVal → SqlVal
  | .text, .int n => .text (lib.numToText n)
  | .text, .real x => .text (lib.realToText x)
  | .numeric, .text s =>
    match lib.numericText s with
    | some n => .int n
    | none =>
      match lib.realText s with
      | some x => .real x
      | none => .text s
  | .real, .text s =>
    match lib.numericText s with
    | some n => .int (toDouble n)
    | none =>
      match lib.realText s with
      | some x => .real x
      | none => .text s
  | _, v => v

/-- The comparison `column = ?` of a WHERE clause: the column's affinity is
applied to the bound parameter, and NULL equals nothing. -/
def sqlEq (lib : Lib) (a : Affinity) (column param : SqlVal) : Bool :=
  let p := applyAffinity lib a param
  p != .null && column == p

/-- The comparison `x ≤ n` of a number that is not an integer with an integer. -/
def NonInteger.leInt : NonInteger → Int → Bool
  | .frac q _, n => decide (q ≤ (n : ℚ))
  | .inf negative, _ => negative

/-- The comparison `n ≤ x` of an integer with a number that is not one. -/
def NonInteger.geInt : NonInteger → Int → Bool
  | .frac q _, n => decide ((n : ℚ) ≤ q)
  | .inf negative, _ => !negative

/-- The comparison `x ≤ y` of two numbers that are not integers. -/
def NonInteger.le : NonInteger → NonInteger → Bool
  | .frac p _, .frac q _ => decide (p ≤ q)
  | .frac _ _, .inf negative => !negative
  | .inf negative, .frac _ _ => negative
  | .inf a, .inf b => a || !b

/-- The order of SQLite values used by ORDER BY and by `<=`: NULL, then
numbers by their value, then texts, then blobs. -/
def sqlLe : SqlVal → SqlVal → Bool
  | .null, _ => true
  | .int _, .null => false
  | .int a, .int b => decide (a ≤ b)
  | .int a, .real y => y.geInt a
  | .int _, _ => true
  | .real _, .null => false
  | .real x, .int b => x.leInt b
  | .real x, .real y => x.le y
  | .real _, _ => true
  | .text _, .null => false
  | .text _, .int _ => false
  | .text _, .real _ => false
  | .text a, .text b => decide (a ≤ b)
  | .text _, .blob _ => true
  | .blob _, .blob _ => true
  | .blob _, _ => false

/-! ## Rows and tables (`_initTables`) -/

/-- A row of `users`. -/
structure UserRow where
  id : Int
  email : SqlVal
  password : SqlVal
  name : SqlVal
  role : SqlVal
  created_at : SqlVal
  updated_at : SqlVal
  deriving DecidableEq, Repr

/-- A row of `properties`. -/
structure PropertyRow where
  id : Int
  title : SqlVal
  description : SqlVal
  type : SqlVal
  price : SqlVal
  location : SqlVal
  area_sqm : SqlVal
  bedrooms : SqlVal
  bathrooms : SqlVal
  features : SqlVal
  image_url : SqlVal
  status : SqlVal
  featured : SqlVal
  created_by : SqlVal
  created_at : SqlVal
  updated_at : SqlVal
  deriving DecidableEq, Repr

/-- A row of `materials`. -/
structure MaterialRow where
  id : Int
  name : SqlVal
  description : SqlVal
  category : SqlVal
  price_min : SqlVal
  price_max : SqlVal
  image_url : SqlVal
  in_stock : SqlVal
  status : SqlVal
  created_at : SqlVal
  updated_at : SqlVal
  deriving DecidableEq, Repr

/-- A row of `contacts`; the table has no `updated_at` column. -/
structure ContactRow where
  id : Int
  name : SqlVal
  email : SqlVal
  phone : SqlVal
  subject : SqlVal
  message : SqlVal
  status : SqlVal
  created_at : SqlVal
  deriving DecidableEq, Repr

/-- A row of `newsletter`. -/
structure NewsletterRow where
  id : Int
  email : SqlVal
  subscribed : SqlVal
  created_at : SqlVal
  deriving DecidableEq, Repr

/-- A row of `testimonials`. -/
structure TestimonialRow where
  id : Int
  name : SqlVal
  role : SqlVal
  message : SqlVal
  image_url : SqlVal
  status : SqlVal
  created_at : SqlVal
  deriving DecidableEq, Repr

/-- A table with an `INTEGER PRIMARY KEY AUTOINCREMENT` id: its rows in rowid
order and the largest id handed out so far (`sqlite_sequence`). No statement
of the handlers sets an id; the ids are the counts AUTOINCREMENT hands out,
which a JavaScript number holds exactly, and a row's id is read as it is. -/
structure Table (α : Type) where
  rows : List α
  seq : Int
  deriving DecidableEq, Repr

/-- The contents of the SQLite database behind the module variable `db`. -/
structure Db where
  users : Table UserRow
  properties : Table PropertyRow
  materials : Table MaterialRow
  contacts : Table ContactRow
  newsletter : Table NewsletterRow
  testimonials : Table TestimonialRow
  deriving DecidableEq, Repr

/-- The state the handlers run against: the wrapper's `ready` flag and
`pendingOps`, the open database with its connection's count of rows changed by
the last statement (`sqlite3_changes`, read by `getRowsModified`), and the
contents of the file `terracore.db`. -/
structure State where
  ready : Bool
  pendingOps : List String
  db : Db
  changes : Nat
  file : Option Db
  deriving DecidableEq, Repr

/-! ## The wrapper (`DatabaseWrapper`) -/

/-- The method `_saveDatabase`: `db.export()` and `fs.writeFileSync`. The file
then holds the database. sql.js documents `export` as an operation that "will
close and re-open the database", so afterwards `sqlite3_changes` is that of a
fresh connection: the count of changed rows is 0. -/
def State._saveDatabase (w : State) : State :=
  { w with file := some w.db, changes := 0 }

/-- The object `prepare(sql).run` returns: `changes` is its only property. -/
structure RunResult where
  changes : Nat
  deriving DecidableEq, Repr

/-- Reading `result.lastInsertRowid`: the object has no such property. -/
def RunResult.lastInsertRowid (_r : RunResult) : JsVal := .undefined

/-- A data-changing SQL statement with its parameters bound: the database it
leaves and the number of rows it changed, or the exception it raises. -/
abbrev Stmt := Db → Except String (Db × Nat)

/-- The method `prepare(sql).run(...params)`: refuse when not ready, run the
statement (`db.run`), save, and only then read `db.getRowsModified()`. -/
def State.run (w : State) (stmt : Stmt) : Except String (RunResult × State) :=
  if !w.ready then .error "Database not ready"
  else
    match stmt w.db with
    | .error e => .error e
    | .ok (db1, n) =>
      let w1 : State := { w with db := db1, changes := n }
      let w2 := w1._saveDatabase
      .ok ({ changes := w2.changes }, w2)

/-- The method `prepare(sql).get(...params)`: the first row of the query, or
`none` for JavaScript's `undefined`. -/
def State.get {α : Type} (w : State) (q : Db → Except String (List α)) :
    Except String (Option α) :=
  if !w.ready then .error "Database not ready"
  else
    match q w.db with
    | .error e => .error e
    | .ok rows => .ok rows.head?

/-- The method `prepare(sql).all(...params)`: every row of the query. -/
def State.all {α : Type} (w : State) (q : Db → Except String (List α)) :
    Except String (List α) :=
  if !w.ready then .error "Database not ready"
  else q w.db

/-- The method `exec(sql)`: refuse when not ready, run the statement
(`db.run`), save; nothing is returned. -/
def State.exec (w : State) (stmt : Stmt) : Except String State :=
  if !w.ready then .error "Database not ready"
  else
    match stmt w.db with
    | .error e => .error e
    | .ok (db1, n) =>
      let w1 : State := { w with db := db1, changes := n }
      .ok w1._saveDatabase

/-! ## Requests and responses -/

/-- What a handler reads of an Express request: the `authorization` header,
`req.params.id`, `req.query` and `req.body` (an absent property reads as
`undefined`). -/
structure Request where
  authorization : Option String
  id : String
  query : String → Option String
  body : String → JsVal

/-- A property row as the read handlers return it: the row with `features`
replaced by the parsed list. -/
structure PropertyView where
  row : PropertyRow
  features : JsVal
  deriving DecidableEq, Repr

/-- A users row as `SELECT id, email, name, role, created_at FROM users` returns
it: the `password` and `updated_at` columns are not selected. -/
structure UserProfile where
  id : Int
  email : SqlVal
  name : SqlVal
  role : SqlVal
  created_at : SqlVal
  deriving DecidableEq, Repr

/-- The `data` member of a response body. -/
inductive Data where
  | none
  | auth (token : String) (user : Claims)
  | id (v : JsVal)
  | contacts (rows : List ContactRow)
  | contact (row : ContactRow)
  | subscribers (rows : List NewsletterRow)
  | stats (totalSubscribers : Nat)
  | properties (rows : List PropertyView)
  | property (row : PropertyView)
  | materials (rows : List MaterialRow)
  | material (row : MaterialRow)
  | categories (names : List JsVal)
  | users (rows : List UserProfile)
  | user (row : UserProfile)
  deriving DecidableEq, Repr

/-- An HTTP response: the status and the JSON body
`\x7bsuccess, error?, message?, data?\x7d`. -/
structure Response where
  status : Nat
  success : Bool
  error : Option String
  message : Option String
  data : Data
  deriving DecidableEq, Repr

/-- The response `res.status(code).json(\x7bsuccess: false, error: msg\x7d)`. -/
def fail (code : Nat) (msg : String) : Response :=
  { status := code, success := false, error := some msg, message := none, data := .none }

/-- The response `res.status(code).json(\x7bsuccess: true, message: msg, data\x7d)`. -/
def done (code : Nat) (msg : Option String) (data : Data) : Response :=
  { status := code, success := true, error := none, message := msg, data := data }

/-! ## JavaScript library calls on dynamic values -/

/-- The call `v.toLowerCase()`: a `TypeError` unless `v` is a string. -/
def toLowerCase (lib : Lib) : JsVal → Except String JsVal
  | .str s => .ok (.str (lib.toLowerCase s))
  | _ => .error "TypeError: toLowerCase is not a function"

/-- The call `bcrypt.hashSync(v, 10)`: bcryptjs throws unless `v` is a string. -/
def hashSync (lib : Lib) : JsVal → Except String JsVal
  | .str s => .ok (.str (lib.hashSync s))
  | _ => .error "Illegal arguments"

/-- The call `bcrypt.compareSync(v, hash)`: bcryptjs throws unless both are
strings. -/
def compareSync (lib : Lib) : JsVal → JsVal → Except String Bool
  | .str s, .str h => .ok (lib.compareSync s h)
  | _, _ => .error "Illegal arguments"

/-- The pieces of `s.split(' ')`, on the characters of `s`. -/
def splitOnSpace : List Char → List (List Char)
  | [] => [[]]
  | c :: cs =>
    match splitOnSpace cs with
    | [] => [[c]]
    | p :: ps => if c = ' ' then [] :: p :: ps else (c :: p) :: ps

/-- The token of `authHeader && authHeader.split(' ')[1]`, `none` when the
result is falsy (no header, no second piece, or an empty one). -/
def extractToken : Option String → Option String
  | none => none
  | some h =>
    match (splitOnSpace h.data)[1]? with
    | none => none
    | some t => if t = [] then none else some (String.mk t)

/-! ## Statements on `users` (`routes/auth.js`) -/

/-- The query `SELECT ... FROM users WHERE email = ?`. -/
def selectUsersByEmail (lib : Lib) (email : JsVal) (db : Db) : Except String (List UserRow) :=
  match bindValue email with
  | .error e => .error e
  | .ok p => .ok (db.users.rows.filter (fun u => sqlEq lib .text u.email p))

/-- The statement `INSERT INTO users (email, password, name, role) VALUES (?, ?, ?, ?)`
run at time `now`: the four values are bound and kept under TEXT affinity, the
NOT NULL and UNIQUE constraints of the table are checked, and the row gets the
next id and the current timestamp. -/
def insertUser (lib : Lib) (now : String) (email password name role : JsVal) : Stmt := fun db =>
  match bindValue email, bindValue password, bindValue name, bindValue role with
  | .ok e, .ok p, .ok n, .ok r =>
    let e1 := applyAffinity lib .text e
    let p1 := applyAffinity lib .text p
    let n1 := applyAffinity lib .text n
    let r1 := applyAffinity lib .text r
    if e1 = .null ∨ p1 = .null ∨ n1 = .null then .error "NOT NULL constraint failed"
    else if db.users.rows.any (fun u => u.email == e1) then
      .error "UNIQUE constraint failed: users.email"
    else
      let row : UserRow :=
        { id := db.users.seq + 1, email := e1, password := p1, name := n1, role := r1,
          created_at := .text now, updated_at := .text now }
      .ok ({ db with users := { rows := db.users.rows ++ [row], seq := db.users.seq + 1 } }, 1)
  | _, _, _, _ => .error "Wrong API use : tried to bind a value of an unknown type (undefined)."

/-- The handler of `POST /auth/register`, run at time `now`. -/
def register (lib : Lib) (now : String) (req : Request) (w : State) : Response × State :=
  let email := req.body "email"
  let password := req.body "password"
  let name := req.body "name"
  if !email.truthy || !password.truthy || !name.truthy then
    (fail 400 "Email, password, and name are required", w)
  else
    match toLowerCase lib email with
    | .error _ => (fail 500 "Failed to register user", w)
    | .ok lower =>
      match w.get (selectUsersByEmail lib lower) with
      | .error _ => (fail 500 "Failed to register user", w)
      | .ok (some _) => (fail 400 "Email already registered", w)
      | .ok none =>
        match hashSync lib password with
        | .error _ => (fail 500 "Failed to register user", w)
        | .ok hashedPassword =>
          match w.run (insertUser lib now lower hashedPassword name (.str "user")) with
          | .error _ => (fail 500 "Failed to register user", w)
          | .ok (result, w1) =>
            let user : Claims :=
              { id := result.lastInsertRowid, email := lower, name := name, role := .str "user" }
            (done 201 (some "User registered successfully") (.auth (lib.sign user) user), w1)

/-- The handler of `POST /auth/login`. -/
def login (lib : Lib) (req : Request) (w : State) : Response × State :=
  let email := req.body "email"
  let password := req.body "password"
  if !email.truthy || !password.truthy then
    (fail 400 "Email and password are required", w)
  else
    match toLowerCase lib email with
    | .error _ => (fail 500 "Failed to log in", w)
    | .ok lower =>
      match w.get (selectUsersByEmail lib lower) with
      | .error _ => (fail 500 "Failed to log in", w)
      | .ok none => (fail 401 "Invalid email or password", w)
      | .ok (some user) =>
        match compareSync lib password (toJs user.password) with
        | .error _ => (fail 500 "Failed to log in", w)
        | .ok false => (fail 401 "Invalid email or password", w)
        | .ok true =>
          let claims : Claims :=
            { id := .num user.id, email := toJs user.email, name := toJs user.name,
              role := toJs user.role }
          (done 200 (some "Login successful") (.auth (lib.sign claims) claims), w)

/-! ## Shared pieces of the route files -/

/-- The middleware `authenticateToken` of `routes/properties.js` and
`routes/materials.js`: `next user` is the route handler run with `req.user`
set to the decoded claims. -/
def authenticateToken (lib : Lib) (req : Request)
    (next : Claims → State → Response × State) (w : State) : Response × State :=
  match extractToken req.authorization with
  | none => (fail 401 "Access token required", w)
  | some token =>
    match lib.verify token with
    | none => (fail 403 "Invalid token", w)
    | some user => next user w

/-- A query parameter that passes `if (param)`: present and not empty. -/
def given : Option String → Option String
  | some s => if s = "" then none else some s
  | none => none

/-- Binding every parameter of a statement; one `undefined` makes it throw. -/
def bindAll : List JsVal → Except String (List SqlVal)
  | [] => .ok []
  | v :: vs =>
    match bindValue v, bindAll vs with
    | .ok p, .ok ps => .ok (p :: ps)
    | .error e, _ => .error e
    | _, .error e => .error e

/-- Mapping a function that may throw over a list, as `rows.map` does. -/
def mapExcept {α β : Type} (f : α → Except String β) : List α → Except String (List β)
  | [] => .ok []
  | a :: as =>
    match f a with
    | .error e => .error e
    | .ok b =>
      match mapExcept f as with
      | .error e => .error e
      | .ok bs => .ok (b :: bs)

/-- The clause `ORDER BY created_at DESC`, rows with equal timestamps staying
in rowid order. -/
def orderByCreatedDesc {α : Type} (created_at : α → SqlVal) (rows : List α) : List α :=
  rows.insertionSort (fun a b => sqlLe (created_at b) (created_at a) = true)

/-- The clause `LIMIT n` on the rows that are left: a negative `n` is no limit. -/
def sqlLimit {α : Type} (n : Int) (rows : List α) : List α :=
  if n < 0 then rows else rows.take n.toNat

/-- The integer that `LIMIT ?` and `OFFSET ?` make of the bound value of
`parseInt(s)` (`OP_MustBeInt`): an integer of 32 bits is bound as such, a
larger one as a double, which SQLite takes for an integer when it lies
strictly between `-2 ^ 63` and `2 ^ 63`; any other double, and the NULL that a
`NaN` is bound as, is refused. -/
def mustBeInt (lib : Lib) (s : String) : Except String Int :=
  match lib.parseInt s with
  | .int n => if -2 ^ 63 < n ∧ n < 2 ^ 63 then .ok n else .error "datatype mismatch"
  | .real _ => .error "datatype mismatch"
  | .nan => .error "datatype mismatch"

/-- The tail `[LIMIT ?] [OFFSET ?]` of the list queries with `parseInt(limit)`
and `parseInt(offset)` bound: `OFFSET` without `LIMIT` is not SQL and the
statement fails to prepare; a value that `LIMIT` or `OFFSET` cannot take for an
integer makes the statement fail. -/
def paginate {α : Type} (lib : Lib) (limit offset : Option String) (rows : List α) :
    Except String (List α) :=
  match given limit, given offset with
  | none, none => .ok rows
  | none, some _ => .error "SQL error near OFFSET"
  | some l, none =>
    match mustBeInt lib l with
    | .ok n => .ok (sqlLimit n rows)
    | .error e => .error e
  | some l, some o =>
    match mustBeInt lib l, mustBeInt lib o with
    | .ok n, .ok k => .ok (sqlLimit n (rows.drop k.toNat))
    | .error e, _ => .error e
    | _, .error e => .error e

/-- The call `JSON.parse(v)`: the argument is turned into a string first. -/
def jsonParse (lib : Lib) : JsVal → Except String JsVal
  | .str s =>
    match lib.parse s with
    | some v => .ok v
    | none => .error "SyntaxError"
  | .num n => .ok (.num n)
  | .bool b => .ok (.bool b)
  | .null => .ok .null
  | .arr xs =>
    match lib.parse (String.intercalate "," xs) with
    | some v => .ok v
    | none => .error "SyntaxError"
  | .real (.frac q h) => .ok (.real (.frac q h))
  | .real (.inf _) => .error "SyntaxError"
  | .undefined => .error "SyntaxError"

/-! ## `routes/properties.js` -/

/-- The expression `p.features ? JSON.parse(p.features) : []` together with the
copy `\x7b...p, features\x7d`. -/
def parseFeatures (lib : Lib) (p : PropertyRow) : Except String PropertyView :=
  if (toJs p.features).truthy then
    match jsonParse lib (toJs p.features) with
    | .ok v => .ok { row := p, features := v }
    | .error e => .error e
  else .ok { row := p, features := .arr [] }

/-- The query that `GET /properties` builds:
`SELECT * FROM properties WHERE 1=1 [AND type = ?] AND status = ? [AND featured = ?]
ORDER BY created_at DESC [LIMIT ?] [OFFSET ?]`. -/
def selectProperties (lib : Lib) (type status featured limit offset : Option String)
    (db : Db) : Except String (List PropertyRow) :=
  let rows := db.properties.rows.filter (fun p =>
    (match given type with
      | some t => sqlEq lib .text p.type (.text t)
      | none => true) &&
    (match given status with
      | some st => sqlEq lib .text p.status (.text st)
      | none => sqlEq lib .text p.status (.text "active")) &&
    (match given featured with
      | some f => sqlEq lib .numeric p.featured (.int (if f = "true" then 1 else 0))
      | none => true))
  paginate lib limit offset (orderByCreatedDesc PropertyRow.created_at rows)

/-- The handler of `GET /properties`. -/
def getProperties (lib : Lib) (req : Request) (w : State) : Response × State :=
  match w.all (selectProperties lib (req.query "type") (req.query "status")
      (req.query "featured") (req.query "limit") (req.query "offset")) with
  | .error _ => (fail 500 "Failed to fetch properties", w)
  | .ok properties =>
    match mapExcept (parseFeatures lib) properties with
    | .error _ => (fail 500 "Failed to fetch properties", w)
    | .ok parsedProperties => (done 200 none (.properties parsedProperties), w)

/-- The query `SELECT * FROM properties WHERE id = ?`. -/
def selectPropertyById (lib : Lib) (id : JsVal) (db : Db) : Except String (List PropertyRow) :=
  match bindValue id with
  | .error e => .error e
  | .ok p => .ok (db.properties.rows.filter (fun r => sqlEq lib .numeric (.int r.id) p))

/-- The handler of `GET /properties/:id`. -/
def getProperty (lib : Lib) (req : Request) (w : State) : Response × State :=
  match w.get (selectPropertyById lib (.str req.id)) with
  | .error _ => (fail 500 "Failed to fetch property", w)
  | .ok none => (fail 404 "Property not found", w)
  | .ok (some property) =>
    match parseFeatures lib property with
    | .error _ => (fail 500 "Failed to fetch property", w)
    | .ok v => (done 200 none (.property v), w)

/-- The statement `INSERT INTO properties (title, ..., created_by) VALUES (?, ..., ?)`
with its thirteen parameters, run at time `now`. -/
def insertProperty (lib : Lib) (now : String) (params : List JsVal) : Stmt := fun db =>
  match bindAll params with
  | .ok [title, description, type, price, location, area_sqm, bedrooms, bathrooms,
      features, image_url, status, featured, created_by] =>
    let row : PropertyRow :=
      { id := db.properties.seq + 1
        title := applyAffinity lib .text title
        description := applyAffinity lib .text description
        type := applyAffinity lib .text type
        price := applyAffinity lib .real price
        location := applyAffinity lib .text location
        area_sqm := applyAffinity lib .real area_sqm
        bedrooms := applyAffinity lib .numeric bedrooms
        bathrooms := applyAffinity lib .numeric bathrooms
        features := applyAffinity lib .text features
        image_url := applyAffinity lib .text image_url
        status := applyAffinity lib .text status
        featured := applyAffinity lib .numeric featured
        created_by := applyAffinity lib .numeric created_by
        created_at := .text now
        updated_at := .text now }
    if row.title = .null ∨ row.type = .null ∨ row.price = .null ∨ row.location = .null then
      .error "NOT NULL constraint failed"
    else
      .ok ({ db with properties :=
        { rows := db.properties.rows ++ [row], seq := db.properties.seq + 1 } }, 1)
  | .ok _ => .error "column index out of range"
  | .error e => .error e

/-- The handler of `POST /properties` behind `authenticateToken`, `user` being
`req.user`. -/
def createProperty (lib : Lib) (now : String) (req : Request) (user : Claims) (w : State) :
    Response × State :=
  let title := req.body "title"
  let type := req.body "type"
  let price := req.body "price"
  let location := req.body "location"
  let features := req.body "features"
  if !title.truthy || !type.truthy || !price.truthy || !location.truthy then
    (fail 400 "Title, type, price, and location are required", w)
  else
    match w.run (insertProperty lib now
      [ title,
        (req.body "description").or .null,
        type,
        price,
        location,
        (req.body "area_sqm").or .null,
        (req.body "bedrooms").or .null,
        (req.body "bathrooms").or .null,
        if features.truthy then .str (lib.stringify features) else .null,
        (req.body "image_url").or .null,
        (req.body "status").or (.str "active"),
        (req.body "featured").flag,
        user.id ]) with
    | .error _ => (fail 500 "Failed to create property", w)
    | .ok (result, w1) =>
      (done 201 (some "Property created successfully") (.id result.lastInsertRowid), w1)

/-- The row an `UPDATE properties SET title = ?, ..., featured = ?,
updated_at = CURRENT_TIMESTAMP` leaves in place of `r`. -/
def PropertyRow.set (lib : Lib) (now : String) (r : PropertyRow)
    (title description type price location area_sqm bedrooms bathrooms features image_url
      status featured : SqlVal) : PropertyRow :=
  { r with
    title := applyAffinity lib .text title
    description := applyAffinity lib .text description
    type := applyAffinity lib .text type
    price := applyAffinity lib .real price
    location := applyAffinity lib .text location
    area_sqm := applyAffinity lib .real area_sqm
    bedrooms := applyAffinity lib .numeric bedrooms
    bathrooms := applyAffinity lib .numeric bathrooms
    features := applyAffinity lib .text features
    image_url := applyAffinity lib .text image_url
    status := applyAffinity lib .text status
    featured := applyAffinity lib .numeric featured
    updated_at := .text now }

/-- The statement `UPDATE properties SET ... WHERE id = ?` with its thirteen
parameters (the last one is the id), run at time `now`. -/
def updateProperty (lib : Lib) (now : String) (params : List JsVal) : Stmt := fun db =>
  match bindAll params with
  | .ok [title, description, type, price, location, area_sqm, bedrooms, bathrooms,
      features, image_url, status, featured, id] =>
    let hit := fun (r : PropertyRow) => sqlEq lib .numeric (.int r.id) id
    let set := fun (r : PropertyRow) =>
      r.set lib now title description type price location area_sqm bedrooms bathrooms
        features image_url status featured
    if db.properties.rows.any (fun r => hit r &&
        decide ((set r).title = .null ∨ (set r).type = .null ∨ (set r).price = .null ∨
          (set r).location = .null)) then
      .error "NOT NULL constraint failed"
    else
      .ok ({ db with properties :=
        { db.properties with rows := db.properties.rows.map (fun r => if hit r then set r else r) } },
        (db.properties.rows.filter hit).length)
  | .ok _ => .error "column index out of range"
  | .error e => .error e

/-- The handler of `PUT /properties/:id` behind `authenticateToken`. -/
def putProperty (lib : Lib) (now : String) (req : Request) (_user : Claims) (w : State) :
    Response × State :=
  let features := req.body "features"
  let featured := req.body "featured"
  match w.get (selectPropertyById lib (.str req.id)) with
  | .error _ => (fail 500 "Failed to update property", w)
  | .ok none => (fail 404 "Property not found", w)
  | .ok (some existing) =>
    match w.run (updateProperty lib now
      [ (req.body "title").or (toJs existing.title),
        (req.body "description").orUndef (toJs existing.description),
        (req.body "type").or (toJs existing.type),
        (req.body "price").or (toJs existing.price),
        (req.body "location").or (toJs existing.location),
        (req.body "area_sqm").orUndef (toJs existing.area_sqm),
        (req.body "bedrooms").orUndef (toJs existing.bedrooms),
        (req.body "bathrooms").orUndef (toJs existing.bathrooms),
        if features.truthy then .str (lib.stringify features) else toJs existing.features,
        (req.body "image_url").orUndef (toJs existing.image_url),
        (req.body "status").or (toJs existing.status),
        if featured = .undefined then toJs existing.featured else featured.flag,
        .str req.id ]) with
    | .error _ => (fail 500 "Failed to update property", w)
    | .ok (_, w1) => (done 200 (some "Property updated successfully") .none, w1)

/-- The statement `DELETE FROM properties WHERE id = ?`. -/
def deletePropertyStmt (lib : Lib) (id : JsVal) : Stmt := fun db =>
  match bindValue id with
  | .error e => .error e
  | .ok p =>
    let hit := fun (r : PropertyRow) => sqlEq lib .numeric (.int r.id) p
    .ok ({ db with properties :=
      { db.properties with rows := db.properties.rows.filter (fun r => !hit r) } },
      (db.properties.rows.filter hit).length)

/-- The handler of `DELETE /properties/:id` behind `authenticateToken`. -/
def deleteProperty (lib : Lib) (req : Request) (_user : Claims) (w : State) :
    Response × State :=
  match w.run (deletePropertyStmt lib (.str req.id)) with
  | .error _ => (fail 500 "Failed to delete property", w)
  | .ok (result, w1) =>
    if result.changes = 0 then (fail 404 "Property not found", w1)
    else (done 200 (some "Property deleted successfully") .none, w1)

/-! ## `routes/materials.js` -/

/-- The query that `GET /materials` builds:
`SELECT * FROM materials WHERE 1=1 [AND category = ?] AND status = ? [AND in_stock = ?]
ORDER BY created_at DESC [LIMIT ?] [OFFSET ?]`; the `in_stock` clause is added
whenever `inStock` is present (`inStock !== undefined`). -/
def selectMaterials (lib : Lib) (category status inStock limit offset : Option String)
    (db : Db) : Except String (List MaterialRow) :=
  let rows := db.materials.rows.filter (fun m =>
    (match given category with
      | some c => sqlEq lib .text m.category (.text c)
      | none => true) &&
    (match given status with
      | some st => sqlEq lib .text m.status (.text st)
      | none => sqlEq lib .text m.status (.text "active")) &&
    (match inStock with
      | some f => sqlEq lib .numeric m.in_stock (.int (if f = "true" then 1 else 0))
      | none => true))
  paginate lib limit offset (orderByCreatedDesc MaterialRow.created_at rows)

/-- The handler of `GET /materials`. -/
def getMaterials (lib : Lib) (req : Request) (w : State) : Response × State :=
  match w.all (selectMaterials lib (req.query "category") (req.query "status")
      (req.query "inStock") (req.query "limit") (req.query "offset")) with
  | .error _ => (fail 500 "Failed to fetch materials", w)
  | .ok materials => (done 200 none (.materials materials), w)

/-- The query `SELECT * FROM materials WHERE id = ?`. -/
def selectMaterialById (lib : Lib) (id : JsVal) (db : Db) : Except String (List MaterialRow) :=
  match bindValue id with
  | .error e => .error e
  | .ok p => .ok (db.materials.rows.filter (fun r => sqlEq lib .numeric (.int r.id) p))

/-- The handler of `GET /materials/:id`. -/
def getMaterial (lib : Lib) (req : Request) (w : State) : Response × State :=
  match w.get (selectMaterialById lib (.str req.id)) with
  | .error _ => (fail 500 "Failed to fetch material", w)
  | .ok none => (fail 404 "Material not found", w)
  | .ok (some material) => (done 200 none (.material material), w)

/-- The statement `INSERT INTO materials (name, ..., status) VALUES (?, ..., ?)`
with its eight parameters, run at time `now`. -/
def insertMaterial (lib : Lib) (now : String) (params : List JsVal) : Stmt := fun db =>
  match bindAll params with
  | .ok [name, description, category, price_min, price_max, image_url, in_stock, status] =>
    let row : MaterialRow :=
      { id := db.materials.seq + 1
        name := applyAffinity lib .text name
        description := applyAffinity lib .text description
        category := applyAffinity lib .text category
        price_min := applyAffinity lib .real price_min
        price_max := applyAffinity lib .real price_max
        image_url := applyAffinity lib .text image_url
        in_stock := applyAffinity lib .numeric in_stock
        status := applyAffinity lib .text status
        created_at := .text now
        updated_at := .text now }
    if row.name = .null ∨ row.category = .null then .error "NOT NULL constraint failed"
    else
      .ok ({ db with materials :=
        { rows := db.materials.rows ++ [row], seq := db.materials.seq + 1 } }, 1)
  | .ok _ => .error "column index out of range"
  | .error e => .error e

/-- The handler of `POST /materials` behind `authenticateToken`. -/
def createMaterial (lib : Lib) (now : String) (req : Request) (_user : Claims) (w : State) :
    Response × State :=
  let name := req.body "name"
  let category := req.body "category"
  let in_stock := req.body "in_stock"
  if !name.truthy || !category.truthy then
    (fail 400 "Name and category are required", w)
  else
    match w.run (insertMaterial lib now
      [ name,
        (req.body "description").or .null,
        category,
        (req.body "price_min").or .null,
        (req.body "price_max").or .null,
        (req.body "image_url").or .null,
        if in_stock = .undefined then .num 1 else in_stock.flag,
        (req.body "status").or (.str "active") ]) with
    | .error _ => (fail 500 "Failed to create material", w)
    | .ok (result, w1) =>
      (done 201 (some "Material created successfully") (.id result.lastInsertRowid), w1)

/-- The row an `UPDATE materials SET name = ?, ..., status = ?,
updated_at = CURRENT_TIMESTAMP` leaves in place of `r`. -/
def MaterialRow.set (lib : Lib) (now : String) (r : MaterialRow)
    (name description category price_min price_max image_url in_stock status : SqlVal) :
    MaterialRow :=
  { r with
    name := applyAffinity lib .text name
    description := applyAffinity lib .text description
    category := applyAffinity lib .text category
    price_min := applyAffinity lib .real price_min
    price_max := applyAffinity lib .real price_max
    image_url := applyAffinity lib .text image_url
    in_stock := applyAffinity lib .numeric in_stock
    status := applyAffinity lib .text status
    updated_at := .text now }

/-- The statement `UPDATE materials SET ... WHERE id = ?` with its nine
parameters (the last one is the id), run at time `now`. -/
def updateMaterial (lib : Lib) (now : String) (params : List JsVal) : Stmt := fun db =>
  match bindAll params with
  | .ok [name, description, category, price_min, price_max, image_url, in_stock, status, id] =>
    let hit := fun (r : MaterialRow) => sqlEq lib .numeric (.int r.id) id
    let set := fun (r : MaterialRow) =>
      r.set lib now name description category price_min price_max image_url in_stock status
    if db.materials.rows.any (fun r => hit r &&
        decide ((set r).name = .null ∨ (set r).category = .null)) then
      .error "NOT NULL constraint failed"
    else
      .ok ({ db with materials :=
        { db.materials with rows := db.materials.rows.map (fun r => if hit r then set r else r) } },
        (db.materials.rows.filter hit).length)
  | .ok _ => .error "column index out of range"
  | .error e => .error e

/-- The handler of `PUT /materials/:id` behind `authenticateToken`. -/
def putMaterial (lib : Lib) (now : String) (req : Request) (_user : Claims) (w : State) :
    Response × State :=
  let in_stock := req.body "in_stock"
  match w.get (selectMaterialById lib (.str req.id)) with
  | .error _ => (fail 500 "Failed to update material", w)
  | .ok none => (fail 404 "Material not found", w)
  | .ok (some existing) =>
    match w.run (updateMaterial lib now
      [ (req.body "name").or (toJs existing.name),
        (req.body "description").orUndef (toJs existing.description),
        (req.body "category").or (toJs existing.category),
        (req.body "price_min").orUndef (toJs existing.price_min),
        (req.body "price_max").orUndef (toJs existing.price_max),
        (req.body "image_url").orUndef (toJs existing.image_url),
        if in_stock = .undefined then toJs existing.in_stock else in_stock.flag,
        (req.body "status").or (toJs existing.status),
        .str req.id ]) with
    | .error _ => (fail 500 "Failed to update material", w)
    | .ok (_, w1) => (done 200 (some "Material updated successfully") .none, w1)

/-- The statement `DELETE FROM materials WHERE id = ?`. -/
def deleteMaterialStmt (lib : Lib) (id : JsVal) : Stmt := fun db =>
  match bindValue id with
  | .error e => .error e
  | .ok p =>
    let hit := fun (r : MaterialRow) => sqlEq lib .numeric (.int r.id) p
    .ok ({ db with materials :=
      { db.materials with rows := db.materials.rows.filter (fun r => !hit r) } },
      (db.materials.rows.filter hit).length)

/-- The handler of `DELETE /materials/:id` behind `authenticateToken`. -/
def deleteMaterial (lib : Lib) (req : Request) (_user : Claims) (w : State) :
    Response × State :=
  match w.run (deleteMaterialStmt lib (.str req.id)) with
  | .error _ => (fail 500 "Failed to delete material", w)
  | .ok (result, w1) =>
    if result.changes = 0 then (fail 404 "Material not found", w1)
    else (done 200 (some "Material deleted successfully") .none, w1)

/-! ## `routes/contact.js` -/

/-- The mail side of `POST /contact`: whether `process.env.SMTP_HOST` is set,
and what `transporter.sendMail` does with the message built from the five
fields, in the state it is called in (`Except.error`: it throws). -/
structure Mailer where
  smtpHost : Bool
  sendMail : State → List JsVal → Except String Unit

/-- The handler of `GET /contact`: `SELECT * FROM contacts ORDER BY created_at DESC`. -/
def getContacts (_req : Request) (w : State) : Response × State :=
  match w.all (fun db => .ok (orderByCreatedDesc ContactRow.created_at db.contacts.rows)) with
  | .error _ => (fail 500 "Failed to fetch contacts", w)
  | .ok contacts => (done 200 none (.contacts contacts), w)

/-- The query `SELECT * FROM contacts WHERE id = ?`. -/
def selectContactById (lib : Lib) (id : JsVal) (db : Db) : Except String (List ContactRow) :=
  match bindValue id with
  | .error e => .error e
  | .ok p => .ok (db.contacts.rows.filter (fun r => sqlEq lib .numeric (.int r.id) p))

/-- The handler of `GET /contact/:id`. -/
def getContact (lib : Lib) (req : Request) (w : State) : Response × State :=
  match w.get (selectContactById lib (.str req.id)) with
  | .error _ => (fail 500 "Failed to fetch contact", w)
  | .ok none => (fail 404 "Contact not found", w)
  | .ok (some contact) => (done 200 none (.contact contact), w)

/-- The statement `INSERT INTO contacts (name, email, phone, subject, message)
VALUES (?, ?, ?, ?, ?)`, run at time `now`; `status` takes its default. -/
def insertContact (lib : Lib) (now : String) (params : List JsVal) : Stmt := fun db =>
  match bindAll params with
  | .ok [name, email, phone, subject, message] =>
    let row : ContactRow :=
      { id := db.contacts.seq + 1
        name := applyAffinity lib .text name
        email := applyAffinity lib .text email
        phone := applyAffinity lib .text phone
        subject := applyAffinity lib .text subject
        message := applyAffinity lib .text message
        status := .text "unread"
        created_at := .text now }
    if row.name = .null ∨ row.email = .null ∨ row.message = .null then
      .error "NOT NULL constraint failed"
    else
      .ok ({ db with contacts :=
        { rows := db.contacts.rows ++ [row], seq := db.contacts.seq + 1 } }, 1)
  | .ok _ => .error "column index out of range"
  | .error e => .error e

/-- The handler of `POST /contact`, run at time `now`: the row is inserted,
then the notification is attempted inside its own `try`, whose `catch` only
logs. -/
def createContact (lib : Lib) (mail : Mailer) (now : String) (req : Request) (w : State) :
    Response × State :=
  let name := req.body "name"
  let email := req.body "email"
  let phone := req.body "phone"
  let subject := req.body "subject"
  let message := req.body "message"
  if !name.truthy || !email.truthy || !message.truthy then
    (fail 400 "Name, email, and message are required", w)
  else
    match w.run (insertContact lib now [name, email, phone.or .null, subject.or .null, message]) with
    | .error _ => (fail 500 "Failed to submit message", w)
    | .ok (result, w1) =>
      let contactId := result.lastInsertRowid
      let _emailed : Bool :=
        if mail.smtpHost then
          match mail.sendMail w1 [name, email, phone, subject, message] with
          | .ok _ => true
          | .error _ => false
        else false
      (done 201 (some "Message sent successfully!") (.id contactId), w1)

/-- The notification step of `POST /contact` seen from outside: the state in
which `transporter.sendMail` is called and the five fields its message is
built from; `none` when the handler does not reach the call (a required field
is missing, the insert throws, or `process.env.SMTP_HOST` is not set). -/
def createContactMail (lib : Lib) (mail : Mailer) (now : String) (req : Request) (w : State) :
    Option (State × List JsVal) :=
  let name := req.body "name"
  let email := req.body "email"
  let phone := req.body "phone"
  let subject := req.body "subject"
  let message := req.body "message"
  if !name.truthy || !email.truthy || !message.truthy then none
  else
    match w.run (insertContact lib now [name, email, phone.or .null, subject.or .null, message]) with
    | .error _ => none
    | .ok (_, w1) =>
      if mail.smtpHost then some (w1, [name, email, phone, subject, message]) else none

/-- The statement `UPDATE contacts SET status = ?, updated_at = CURRENT_TIMESTAMP
WHERE id = ?`: `contacts` has no column `updated_at`, so SQLite refuses the
statement. -/
def updateContactStatus (_lib : Lib) (_status _id : JsVal) : Stmt := fun _db =>
  .error "no such column: updated_at"

/-- The handler of `PATCH /contact/:id`. -/
def patchContact (lib : Lib) (req : Request) (w : State) : Response × State :=
  let status := req.body "status"
  if !status.truthy then (fail 400 "Status is required", w)
  else
    match w.run (updateContactStatus lib status (.str req.id)) with
    | .error _ => (fail 500 "Failed to update contact", w)
    | .ok (result, w1) =>
      if result.changes = 0 then (fail 404 "Contact not found", w1)
      else (done 200 (some "Contact status updated") .none, w1)

/-- The statement `DELETE FROM contacts WHERE id = ?`. -/
def deleteContactStmt (lib : Lib) (id : JsVal) : Stmt := fun db =>
  match bindValue id with
  | .error e => .error e
  | .ok p =>
    let hit := fun (r : ContactRow) => sqlEq lib .numeric (.int r.id) p
    .ok ({ db with contacts :=
      { db.contacts with rows := db.contacts.rows.filter (fun r => !hit r) } },
      (db.contacts.rows.filter hit).length)

/-- The handler of `DELETE /contact/:id`. -/
def deleteContact (lib : Lib) (req : Request) (w : State) : Response × State :=
  match w.run (deleteContactStmt lib (.str req.id)) with
  | .error _ => (fail 500 "Failed to delete contact", w)
  | .ok (result, w1) =>
    if result.changes = 0 then (fail 404 "Contact not found", w1)
    else (done 200 (some "Contact deleted successfully") .none, w1)

/-! ## `routes/newsletter.js` (the read routes) -/

/-- The handler of `GET /newsletter`: `SELECT * FROM newsletter ORDER BY created_at DESC`. -/
def getSubscribers (_req : Request) (w : State) : Response × State :=
  match w.all (fun db => .ok (orderByCreatedDesc NewsletterRow.created_at db.newsletter.rows)) with
  | .error _ => (fail 500 "Failed to fetch subscribers", w)
  | .ok subscribers => (done 200 none (.subscribers subscribers), w)

/-- The handler of `GET /newsletter/stats`:
`SELECT COUNT(*) as count FROM newsletter WHERE subscribed = 1`. -/
def getStats (_req : Request) (w : State) : Response × State :=
  match w.get (fun db =>
      .ok [(db.newsletter.rows.filter (fun r => r.subscribed == .int 1)).length]) with
  | .error _ => (fail 500 "Failed to fetch stats", w)
  | .ok none => (fail 500 "Failed to fetch stats", w)
  | .ok (some count) => (done 200 none (.stats count), w)

/-! ## The search routes (`router.get('/search')`) -/

/-- The suffixes of a text, the text itself first and the empty one last. -/
def suffixes : List Char → List (List Char)
  | [] => [[]]
  | c :: cs => (c :: cs) :: suffixes cs

/-- SQLite's `LIKE` on characters: `%` in the pattern stands for any run of
characters, `_` for exactly one, and any other character for itself, upper and
lower case of the ASCII letters taken as equal. -/
def likeMatch : List Char → List Char → Bool
  | [], t => t.isEmpty
  | p :: ps, t =>
    if p = '%' then (suffixes t).any (likeMatch ps)
    else
      match t with
      | [] => false
      | c :: cs => (p = '_' || p.toLower = c.toLower) && likeMatch ps cs

/-- The condition `column LIKE ?` with the text `pattern` bound: NULL matches
nothing and a number is matched as its text. -/
def sqlLike (lib : Lib) (column : SqlVal) (pattern : String) : Bool :=
  match column with
  | .null => false
  | .text s => likeMatch pattern.data s.data
  | .int n => likeMatch pattern.data (lib.numToText n).data
  | .real x => likeMatch pattern.data (lib.realToText x).data
  | .blob xs => lib.likeBlob pattern xs

/-- The parameter of `price >= ?` and `price <= ?`: `parseFloat` of the query
value as it is bound, a `NaN` as NULL. -/
def floatParam (lib : Lib) (s : String) : SqlVal := (lib.parseFloat s).bound

/-- The comparison `column >= ?`: NULL on either side compares to nothing. -/
def sqlGe (column param : SqlVal) : Bool :=
  column != .null && param != .null && sqlLe param column

/-- The comparison `column <= ?`. -/
def sqlLeq (column param : SqlVal) : Bool :=
  column != .null && param != .null && sqlLe column param

/-- The template literal that wraps a search term in two percent signs. -/
def searchTerm (q : String) : String := "%" ++ q ++ "%"

/-- The query that the properties search handler builds:
`SELECT * FROM properties WHERE status = ? [AND (title LIKE ? OR description LIKE ?
OR location LIKE ?)] [AND price >= ?] [AND price <= ?] [AND location LIKE ?]
[AND type = ?] ORDER BY created_at DESC`. -/
def selectPropertiesSearch (lib : Lib) (q minPrice maxPrice location type : Option String)
    (db : Db) : Except String (List PropertyRow) :=
  .ok (orderByCreatedDesc PropertyRow.created_at (db.properties.rows.filter (fun p =>
    sqlEq lib .text p.status (.text "active") &&
    (match given q with
      | some t =>
        sqlLike lib p.title (searchTerm t) || sqlLike lib p.description (searchTerm t) ||
          sqlLike lib p.location (searchTerm t)
      | none => true) &&
    (match given minPrice with
      | some m => sqlGe p.price (floatParam lib m)
      | none => true) &&
    (match given maxPrice with
      | some m => sqlLeq p.price (floatParam lib m)
      | none => true) &&
    (match given location with
      | some l => sqlLike lib p.location (searchTerm l)
      | none => true) &&
    (match given type with
      | some t => sqlEq lib .text p.type (.text t)
      | none => true))))

/-- The handler registered as `GET /search` in `routes/properties.js`. -/
def searchProperties (lib : Lib) (req : Request) (w : State) : Response × State :=
  match w.all (selectPropertiesSearch lib (req.query "q") (req.query "minPrice")
      (req.query "maxPrice") (req.query "location") (req.query "type")) with
  | .error _ => (fail 500 "Failed to search properties", w)
  | .ok properties =>
    match mapExcept (parseFeatures lib) properties with
    | .error _ => (fail 500 "Failed to search properties", w)
    | .ok parsedProperties => (done 200 none (.properties parsedProperties), w)

/-- The query that the materials search handler builds:
`SELECT * FROM materials WHERE status = ? [AND (name LIKE ? OR description LIKE ?)]
[AND category = ?] [AND price_min >= ?] [AND price_max <= ?] ORDER BY created_at DESC`. -/
def selectMaterialsSearch (lib : Lib) (q category minPrice maxPrice : Option String)
    (db : Db) : Except String (List MaterialRow) :=
  .ok (orderByCreatedDesc MaterialRow.created_at (db.materials.rows.filter (fun m =>
    sqlEq lib .text m.status (.text "active") &&
    (match given q with
      | some t => sqlLike lib m.name (searchTerm t) || sqlLike lib m.description (searchTerm t)
      | none => true) &&
    (match given category with
      | some c => sqlEq lib .text m.category (.text c)
      | none => true) &&
    (match given minPrice with
      | some p => sqlGe m.price_min (floatParam lib p)
      | none => true) &&
    (match given maxPrice with
      | some p => sqlLeq m.price_max (floatParam lib p)
      | none => true))))

/-- The handler registered as `GET /search` in `routes/materials.js`. -/
def searchMaterials (lib : Lib) (req : Request) (w : State) : Response × State :=
  match w.all (selectMaterialsSearch lib (req.query "q") (req.query "category")
      (req.query "minPrice") (req.query "maxPrice")) with
  | .error _ => (fail 500 "Failed to search materials", w)
  | .ok materials => (done 200 none (.materials materials), w)

/-- The handler of `GET /materials/categories/list`:
`SELECT DISTINCT category FROM materials ORDER BY category`. -/
def getCategories (_req : Request) (w : State) : Response × State :=
  match w.all (fun db => .ok
      (((db.materials.rows.map MaterialRow.category).insertionSort
        (fun a b => sqlLe a b = true)).dedup)) with
  | .error _ => (fail 500 "Failed to fetch categories", w)
  | .ok categories => (done 200 none (.categories (categories.map toJs)), w)

/-! ## `routes/newsletter.js` (the write routes) -/

/-- The characters the class `\s` of a JavaScript regular expression matches. -/
def isSpace (c : Char) : Bool :=
  c.toNat ∈ [0x09, 0x0A, 0x0B, 0x0C, 0x0D, 0x20, 0xA0, 0x1680, 0x2028, 0x2029, 0x202F, 0x205F,
    0x3000, 0xFEFF] || (0x2000 ≤ c.toNat && c.toNat ≤ 0x200A)

/-- The characters the class `[^\s@]` matches. -/
def plainChar (c : Char) : Bool := !isSpace c && c != '@'

/-- Whether a text matches `[^\s@]+\.[^\s@]+$` from its start: plain characters
only, with a dot that is neither the first nor the last of them. -/
def domainMatch (d : List Char) : Bool :=
  d.all plainChar && (d.drop 1).dropLast.contains '.'

/-- Whether a text matches `/^[^\s@]+@[^\s@]+\.[^\s@]+$/`: a non-empty run of
plain characters, an `@`, and a domain. -/
def emailMatch (s : List Char) : Bool :=
  match s.dropWhile plainChar with
  | '@' :: d => !(s.takeWhile plainChar).isEmpty && domainMatch d
  | _ => false

/-- The call `emailRegex.test(email)`: the argument is turned into a string
first; the string of a number, a boolean, `null` or `undefined` has no `@`. -/
def emailRegexTest : JsVal → Bool
  | .str s => emailMatch s.data
  | .arr xs => emailMatch (String.intercalate "," xs).data
  | _ => false

/-- The query `SELECT * FROM newsletter WHERE email = ?`. -/
def selectNewsletterByEmail (lib : Lib) (email : JsVal) (db : Db) :
    Except String (List NewsletterRow) :=
  match bindValue email with
  | .error e => .error e
  | .ok p => .ok (db.newsletter.rows.filter (fun r => sqlEq lib .text r.email p))

/-- The statement `UPDATE newsletter SET subscribed = <flag> WHERE email = ?`,
with the literal 1 or 0 as `flag`. -/
def updateSubscribed (lib : Lib) (flag : Int) (email : JsVal) : Stmt := fun db =>
  match bindValue email with
  | .error e => .error e
  | .ok p =>
    let hit := fun (r : NewsletterRow) => sqlEq lib .text r.email p
    .ok ({ db with newsletter :=
      { db.newsletter with
        rows := db.newsletter.rows.map (fun r => if hit r then { r with subscribed := .int flag } else r) } },
      (db.newsletter.rows.filter hit).length)

/-- The statement `INSERT INTO newsletter (email, subscribed) VALUES (?, 1)`, run
at time `now`, with the NOT NULL and UNIQUE constraints on `email`. -/
def insertSubscriber (lib : Lib) (now : String) (email : JsVal) : Stmt := fun db =>
  match bindValue email with
  | .error e => .error e
  | .ok p =>
    let e1 := applyAffinity lib .text p
    if e1 = .null then .error "NOT NULL constraint failed"
    else if db.newsletter.rows.any (fun r => r.email == e1) then
      .error "UNIQUE constraint failed: newsletter.email"
    else
      let row : NewsletterRow :=
        { id := db.newsletter.seq + 1, email := e1, subscribed := .int 1, created_at := .text now }
      .ok ({ db with newsletter :=
        { rows := db.newsletter.rows ++ [row], seq := db.newsletter.seq + 1 } }, 1)

/-- The handler of `POST /newsletter/subscribe`, run at time `now`. -/
def subscribe (lib : Lib) (now : String) (req : Request) (w : State) : Response × State :=
  let email := req.body "email"
  if !email.truthy then (fail 400 "Email is required", w)
  else if !emailRegexTest email then (fail 400 "Invalid email format", w)
  else
    match toLowerCase lib email with
    | .error _ => (fail 500 "Failed to subscribe", w)
    | .ok lower =>
      match w.get (selectNewsletterByEmail lib lower) with
      | .error _ => (fail 500 "Failed to subscribe", w)
      | .ok (some existing) =>
        if (toJs existing.subscribed).truthy then (fail 400 "Email already subscribed", w)
        else
          match w.run (updateSubscribed lib 1 lower) with
          | .error _ => (fail 500 "Failed to subscribe", w)
          | .ok (_, w1) => (done 200 (some "Newsletter subscription reactivated!") .none, w1)
      | .ok none =>
        match w.run (insertSubscriber lib now lower) with
        | .error _ => (fail 500 "Failed to subscribe", w)
        | .ok (_, w1) => (done 201 (some "Successfully subscribed to newsletter!") .none, w1)

/-- The handler of `POST /newsletter/unsubscribe`. -/
def unsubscribe (lib : Lib) (req : Request) (w : State) : Response × State :=
  let email := req.body "email"
  if !email.truthy then (fail 400 "Email is required", w)
  else
    match toLowerCase lib email with
    | .error _ => (fail 500 "Failed to unsubscribe", w)
    | .ok lower =>
      match w.run (updateSubscribed lib 0 lower) with
      | .error _ => (fail 500 "Failed to unsubscribe", w)
      | .ok (result, w1) =>
        if result.changes = 0 then (fail 404 "Email not found", w1)
        else (done 200 (some "Successfully unsubscribed from newsletter") .none, w1)

/-! ## `routes/auth.js` (the routes behind a token) -/

/-- The columns `SELECT id, email, name, role, created_at` keeps of a users row. -/
def UserRow.profile (u : UserRow) : UserProfile :=
  { id := u.id, email := u.email, name := u.name, role := u.role, created_at := u.created_at }

/-- The handler of `GET /auth/users`. -/
def getUsers (lib : Lib) (req : Request) (w : State) : Response × State :=
  match extractToken req.authorization with
  | none => (fail 401 "Access token required", w)
  | some token =>
    match lib.verify token with
    | none => (fail 403 "Invalid token", w)
    | some user =>
      if user.role ≠ .str "admin" then (fail 403 "Admin access required", w)
      else
        match w.all (fun db => .ok
            ((orderByCreatedDesc UserRow.created_at db.users.rows).map UserRow.profile)) with
        | .error _ => (fail 500 "Failed to get users", w)
        | .ok users => (done 200 none (.users users), w)

/-- The query `SELECT id, email, name, role, created_at FROM users WHERE id = ?`. -/
def selectProfileById (lib : Lib) (id : JsVal) (db : Db) : Except String (List UserProfile) :=
  match bindValue id with
  | .error e => .error e
  | .ok p =>
    .ok ((db.users.rows.filter (fun u => sqlEq lib .numeric (.int u.id) p)).map UserRow.profile)

/-- The handler of `GET /auth/me`. -/
def getMe (lib : Lib) (req : Request) (w : State) : Response × State :=
  match extractToken req.authorization with
  | none => (fail 401 "Access token required", w)
  | some token =>
    match lib.verify token with
    | none => (fail 403 "Invalid token", w)
    | some user =>
      match w.get (selectProfileById lib user.id) with
      | .error _ => (fail 500 "Failed to get user", w)
      | .ok none => (fail 404 "User not found", w)
      | .ok (some dbUser) => (done 200 none (.user dbUser), w)

/-- The query `SELECT * FROM users WHERE id = ?`. -/
def selectUserById (lib : Lib) (id : JsVal) (db : Db) : Except String (List UserRow) :=
  match bindValue id with
  | .error e => .error e
  | .ok p => .ok (db.users.rows.filter (fun u => sqlEq lib .numeric (.int u.id) p))

/-- The statement `UPDATE users SET password = ?, updated_at = CURRENT_TIMESTAMP
WHERE id = ?`, run at time `now`. -/
def updatePassword (lib : Lib) (now : String) (password id : JsVal) : Stmt := fun db =>
  match bindValue password, bindValue id with
  | .ok p, .ok i =>
    let hit := fun (u : UserRow) => sqlEq lib .numeric (.int u.id) i
    if applyAffinity lib .text p = .null ∧ db.users.rows.any hit then
      .error "NOT NULL constraint failed"
    else
      .ok ({ db with users :=
        { db.users with
          rows := db.users.rows.map (fun u =>
            if hit u then { u with password := applyAffinity lib .text p, updated_at := .text now }
            else u) } },
        (db.users.rows.filter hit).length)
  | .error e, _ => .error e
  | _, .error e => .error e

/-- The handler of `POST /auth/change-password`, run at time `now`. -/
def changePassword (lib : Lib) (now : String) (req : Request) (w : State) : Response × State :=
  match extractToken req.authorization with
  | none => (fail 401 "Access token required", w)
  | some token =>
    let currentPassword := req.body "currentPassword"
    let newPassword := req.body "newPassword"
    if !currentPassword.truthy || !newPassword.truthy then
      (fail 400 "Current password and new password are required", w)
    else
      match lib.verify token with
      | none => (fail 403 "Invalid token", w)
      | some user =>
        match w.get (selectUserById lib user.id) with
        | .error _ => (fail 500 "Failed to change password", w)
        | .ok none => (fail 404 "User not found", w)
        | .ok (some dbUser) =>
          match compareSync lib currentPassword (toJs dbUser.password) with
          | .error _ => (fail 500 "Failed to change password", w)
          | .ok false => (fail 401 "Current password is incorrect", w)
          | .ok true =>
            match hashSync lib newPassword with
            | .error _ => (fail 500 "Failed to change password", w)
            | .ok hashedPassword =>
              match w.run (updatePassword lib now hashedPassword user.id) with
              | .error _ => (fail 500 "Failed to change password", w)
              | .ok (_, w1) => (done 200 (some "Password changed successfully") .none, w1)

/-! ## The write routes, and what a stored row looks like -/

/-- The six routes of `routes/properties.js` and `routes/materials.js` that are
registered with `authenticateToken` in front of the handler. -/
inductive WriteRoute where
  | createProperty
  | putProperty
  | deleteProperty
  | createMaterial
  | putMaterial
  | deleteMaterial
  deriving DecidableEq, Repr

/-- The handler registered behind `authenticateToken` on a write route. -/
def WriteRoute.handler (lib : Lib) (now : String) (req : Request) :
    WriteRoute → Claims → State → Response × State
  | .createProperty => TerraCore.createProperty lib now req
  | .putProperty => TerraCore.putProperty lib now req
  | .deleteProperty => TerraCore.deleteProperty lib req
  | .createMaterial => TerraCore.createMaterial lib now req
  | .putMaterial => TerraCore.putMaterial lib now req
  | .deleteMaterial => TerraCore.deleteMaterial lib req

/-- A write route as Express runs it: the middleware, then the handler. -/
def WriteRoute.serve (lib : Lib) (now : String) (r : WriteRoute) (req : Request) (w : State) :
    Response × State :=
  authenticateToken lib req (r.handler lib now req) w

/-! ## Seeding (`_initTables`) and sequences of requests -/

/-- The database `new SQL.Database()` gives once the six `CREATE TABLE IF NOT
EXISTS` statements have run: every table is there and empty. -/
def emptyDb : Db :=
  { users := { rows := [], seq := 0 }
    properties := { rows := [], seq := 0 }
    materials := { rows := [], seq := 0 }
    contacts := { rows := [], seq := 0 }
    newsletter := { rows := [], seq := 0 }
    testimonials := { rows := [], seq := 0 } }

/-- The statement `INSERT INTO testimonials (name, role, message, status)
VALUES (?, ?, ?, ?)`, run at time `now`. -/
def insertTestimonial (lib : Lib) (now : String) (params : List JsVal) : Stmt := fun db =>
  match bindAll params with
  | .ok [name, role, message, status] =>
    let row : TestimonialRow :=
      { id := db.testimonials.seq + 1
        name := applyAffinity lib .text name
        role := applyAffinity lib .text role
        message := applyAffinity lib .text message
        image_url := .null
        status := applyAffinity lib .text status
        created_at := .text now }
    if row.name = .null ∨ row.message = .null then .error "NOT NULL constraint failed"
    else
      .ok ({ db with testimonials :=
        { rows := db.testimonials.rows ++ [row], seq := db.testimonials.seq + 1 } }, 1)
  | .ok _ => .error "column index out of range"
  | .error e => .error e

/-- Running the statements of a list one after the other, as consecutive
`db.run` calls do; the first exception ends the run. -/
def runAll : List Stmt → Db → Except String Db
  | [], db => .ok db
  | st :: sts, db =>
    match st db with
    | .error e => .error e
    | .ok (db1, _) => runAll sts db1

/-- The seed rows of `properties`: the parameters of the three INSERT
statements, `created_by` being left to its default NULL. -/
def seedProperties (lib : Lib) : List (List JsVal) :=
  [ [ .str "Transekulu Apartment",
      .str "The Building contains 20 large rooms suitable for AIR BNB or Large Families",
      .str "apartment", .num 100000000, .str "Transekulu, Enugu", .num 600, .num 20, .num 10,
      .str (lib.stringify (.arr ["Airbnb Ready", "Large Families", "Spacious"])),
      .str "/img/property3.png", .str "active", .num 1, .null ],
    [ .str "Lagos Victoria Island Flat",
      .str "Luxury 3-bedroom flat in the heart of Victoria Island",
      .str "flat", .num 75000000, .str "Victoria Island, Lagos", .num 250, .num 3, .num 3,
      .str (lib.stringify (.arr ["Modern Finishing", "Security", "Parking"])),
      .str "/img/house1.png", .str "active", .num 1, .null ],
    [ .str "Enugu Residential House",
      .str "Beautiful 4-bedroom bungalow in a quiet neighborhood",
      .str "house", .num 45000000, .str "New Haven, Enugu", .num 400, .num 4, .num 3,
      .str (lib.stringify (.arr ["Garden", "Garage", "Security"])),
      .str "/img/house2.png", .str "active", .num 0, .null ] ]

/-- The seed rows of `materials`: the parameters of the three INSERT
statements, `status` being left to its default `'active'`. -/
def seedMaterials : List (List JsVal) :=
  [ [ .str "Luxury Foreign Doors",
      .str "For your luxury finishing with our Quality Foreign Doors",
      .str "doors", .num 110000, .num 700000, .str "/img/cream double door.jpeg", .num 1,
      .str "active" ],
    [ .str "Luxury Foreign Lights",
      .str "For your High Quality standard Luxurious Lightings",
      .str "lighting", .num 800, .num 200000, .str "/img/Black single door.jpeg", .num 1,
      .str "active" ],
    [ .str "High Quality Plumbings",
      .str "For your Top-notch Quality Plumbing materials",
      .str "plumbing", .num 4000, .num 20000, .str "/img/wood door.jpeg", .num 1,
      .str "active" ] ]

/-- The seed rows of `testimonials`. -/
def seedTestimonials : List (List JsVal) :=
  [ [ .str "Mr. Romanus", .str "Client",
      .str "I had a seamless and professional experience with TerraCore and their team. They efficiently leased out my unit, and their communication throughout the process was excellent. I highly recommend them to anyone looking for reliable and expert service.",
      .str "approved" ],
    [ .str "Mr. Emmanuel", .str "Property Investor",
      .str "Finding the right home in Lagos can be overwhelming, but TerraCore made it so easy. They listened to my preferences and found me a property that exceeded my expectations. Their professionalism and attention to detail were top-notch.",
      .str "approved" ],
    [ .str "Mr. Martins", .str "Road Constructor",
      .str "TerraCore Solutions provided an accurate and detailed valuation for my property, giving me the confidence I needed to make informed decisions. Their expertise and professionalism were evident from start to finish.",
      .str "approved" ] ]

/-- The seeding part of `_initTables`, run at time `now` on a database whose
tables exist: the administrator unless a row with his address is there, then
the sample properties, materials and testimonials, each where its table is
empty. -/
def _initTables (lib : Lib) (now : String) (db : Db) : Except String Db :=
  match
    (if (db.users.rows.filter
        (fun u => sqlEq lib .text u.email (.text "admin@terracore.com"))).isEmpty then
      runAll [insertUser lib now (.str "admin@terracore.com") (.str (lib.hashSync "admin123"))
        (.str "Administrator") (.str "admin")] db
    else .ok db) with
  | .error e => .error e
  | .ok db1 =>
    match
      (if db1.properties.rows.length = 0 then
        runAll ((seedProperties lib).map (insertProperty lib now)) db1
      else .ok db1) with
    | .error e => .error e
    | .ok db2 =>
      match
        (if db2.materials.rows.length = 0 then
          runAll (seedMaterials.map (insertMaterial lib now)) db2
        else .ok db2) with
      | .error e => .error e
      | .ok db3 =>
        if db3.testimonials.rows.length = 0 then
          runAll (seedTestimonials.map (insertTestimonial lib now)) db3
        else .ok db3

/-- The store after the first start at time `now`: `_initTables` on the new
database, the wrapper ready and the file written. -/
def seededState (lib : Lib) (now : String) : State :=
  match _initTables lib now emptyDb with
  | .ok db => { ready := true, pendingOps := [], db := db, changes := 0, file := some db }
  | .error _ => { ready := true, pendingOps := [], db := emptyDb, changes := 0, file := none }

/-- A request to one of the two routes that store an email address, with the
time it is handled at. -/
inductive EmailRequest where
  | register (now : String) (req : Request)
  | subscribe (now : String) (req : Request)

/-- The state after one such request. -/
def EmailRequest.apply (lib : Lib) (w : State) : EmailRequest → State
  | .register now req => (TerraCore.register lib now req w).2
  | .subscribe now req => (TerraCore.subscribe lib now req w).2

/-- The state after a sequence of such requests, handled one after the other. -/
def applyAll (lib : Lib) (w : State) (reqs : List EmailRequest) : State :=
  reqs.foldl (EmailRequest.apply lib) w

/-- The emails of a table are in lower case and no two of them are equal when
compared without regard to case. -/
def EmailsNormal (lib : Lib) (emails : List SqlVal) : Prop :=
  (∀ v ∈ emails, ∃ s, v = .text s ∧ lib.toLowerCase s = s) ∧
  emails.Pairwise (fun a b => ∀ s t, a = .text s → b = .text t →
    lib.toLowerCase s ≠ lib.toLowerCase t)

/-! ## Route tables (`router.get`, `router.post`, ... in registration order) -/

/-- The HTTP methods the routers register. -/
inductive Method where
  | GET
  | POST
  | PUT
  | PATCH
  | DELETE
  deriving DecidableEq, Repr

/-- A segment of a route path: a literal, or the parameter `:id`. -/
inductive Seg where
  | lit (s : String)
  | id
  deriving DecidableEq, Repr

/-- Matching a route path against the segments of a request path (the part
after the router's mount point, split at `/`): `some` of the captured `:id`
when it matches. -/
def matchPath : List Seg → List String → Option (Option String)
  | [], [] => some none
  | .lit s :: ps, x :: xs => if s = x then matchPath ps xs else none
  | .id :: ps, x :: xs =>
    if x = "" then none
    else
      match matchPath ps xs with
      | some _ => some (some x)
      | none => none
  | _, _ => none

/-- A registered route: method, path and the name of its handler. -/
structure Route (ρ : Type) where
  method : Method
  path : List Seg
  handler : ρ

/-- Express's dispatch inside a router: the first registered route whose method
and path match gets the request, with `req.params.id` as captured. Every
handler here answers the request itself, so no later route is tried. -/
def dispatch {ρ : Type} (routes : List (Route ρ)) (m : Method) (path : List String) :
    Option (ρ × Option String) :=
  match routes with
  | [] => none
  | r :: rs =>
    if r.method = m then
      match matchPath r.path path with
      | some cap => some (r.handler, cap)
      | none => dispatch rs m path
    else dispatch rs m path

/-- The handlers of `routes/properties.js`. -/
inductive PropertiesHandler where
  | list
  | getById
  | create
  | update
  | delete
  | search
  deriving DecidableEq, Repr

/-- The routes of `routes/properties.js`, in the order the file registers them. -/
def propertiesRouter : List (Route PropertiesHandler) :=
  [ { method := .GET, path := [], handler := .list },
    { method := .GET, path := [.id], handler := .getById },
    { method := .POST, path := [], handler := .create },
    { method := .PUT, path := [.id], handler := .update },
    { method := .DELETE, path := [.id], handler := .delete },
    { method := .GET, path := [.lit "search"], handler := .search } ]

/-- The handlers of `routes/materials.js`. -/
inductive MaterialsHandler where
  | list
  | getById
  | categories
  | create
  | update
  | delete
  | search
  deriving DecidableEq, Repr

/-- The routes of `routes/materials.js`, in the order the file registers them. -/
def materialsRouter : List (Route MaterialsHandler) :=
  [ { method := .GET, path := [], handler := .list },
    { method := .GET, path := [.id], handler := .getById },
    { method := .GET, path := [.lit "categories", .lit "list"], handler := .categories },
    { method := .POST, path := [], handler := .create },
    { method := .PUT, path := [.id], handler := .update },
    { method := .DELETE, path := [.id], handler := .delete },
    { method := .GET, path := [.lit "search"], handler := .search } ]

/-- The request a handler sees once the router has set `req.params.id`. -/
def Request.withId (req : Request) (cap : Option String) : Request :=
  match cap with
  | some x => { req with id := x }
  | none => req

/-- What the properties router answers to a request, `none` when no route of
the router matches and the request goes on to the rest of the application. -/
def serveProperties (lib : Lib) (now : String) (m : Method) (path : List String)
    (req : Request) (w : State) : Option (Response × State) :=
  match dispatch propertiesRouter m path with
  | none => none
  | some (.list, cap) => some (getProperties lib (req.withId cap) w)
  | some (.getById, cap) => some (getProperty lib (req.withId cap) w)
  | some (.create, cap) => some (WriteRoute.serve lib now .createProperty (req.withId cap) w)
  | some (.update, cap) => some (WriteRoute.serve lib now .putProperty (req.withId cap) w)
  | some (.delete, cap) => some (WriteRoute.serve lib now .deleteProperty (req.withId cap) w)
  | some (.search, cap) => some (searchProperties lib (req.withId cap) w)

/-- What the materials router answers to a request. -/
def serveMaterials (lib : Lib) (now : String) (m : Method) (path : List String)
    (req : Request) (w : State) : Option (Response × State) :=
  match dispatch materialsRouter m path with
  | none => none
  | some (.list, cap) => some (getMaterials lib (req.withId cap) w)
  | some (.getById, cap) => some (getMaterial lib (req.withId cap) w)
  | some (.categories, cap) => some (getCategories (req.withId cap) w)
  | some (.create, cap) => some (WriteRoute.serve lib now .createMaterial (req.withId cap) w)
  | some (.update, cap) => some (WriteRoute.serve lib now .putMaterial (req.withId cap) w)
  | some (.delete, cap) => some (WriteRoute.serve lib now .deleteMaterial (req.withId cap) w)
  | some (.search, cap) => some (searchMaterials lib (req.withId cap) w)

/-- The body properties `PUT /properties/:id` reads. -/
def propertyFields : List String :=
  ["title", "description", "type", "price", "location", "area_sqm", "bedrooms", "bathrooms",
    "features", "image_url", "status", "featured"]

/-- The body properties `PUT /materials/:id` reads. -/
def materialFields : List String :=
  ["name", "description", "category", "price_min", "price_max", "image_url", "in_stock", "status"]

/-- The SQLite value of a JavaScript value that is not `undefined`. -/
def bound : JsVal → SqlVal
  | .str s => .text s
  | .num n => .int n
  | .bool b => .int (if b then 1 else 0)
  | .arr xs => .blob xs
  | .real x => .real x
  | .null => .null
  | .undefined => .null

/-- The value a column holds again when the handler has read it
(`getAsObject`) and binds what it read: the same value, except that an integer
no double holds comes back as the nearest double. -/
def SqlVal.asRead (v : SqlVal) : SqlVal := bound (toJs v)

/-- A column value that a JavaScript number holds exactly: every value but an
integer that differs from the double nearest to it (such integers lie beyond
`2 ^ 53` in magnitude). -/
def SqlVal.Exact (v : SqlVal) : Prop := ∀ n, v = .int n → toDouble n = n

/-- What a column of affinity `a` holds once the JavaScript value `v` has been
written to it. -/
def stored (lib : Lib) (a : Affinity) (v : JsVal) : SqlVal := applyAffinity lib a (bound v)

/-- A `properties` row as SQLite keeps it: every column holds a value its
affinity leaves alone, and the NOT NULL columns are not NULL. -/
def PropertyRow.Stored (lib : Lib) (r : PropertyRow) : Prop :=
  (applyAffinity lib .text r.title = r.title ∧ applyAffinity lib .text r.description = r.description ∧
    applyAffinity lib .text r.type = r.type ∧ applyAffinity lib .real r.price = r.price ∧
    applyAffinity lib .text r.location = r.location ∧
    applyAffinity lib .real r.area_sqm = r.area_sqm ∧
    applyAffinity lib .numeric r.bedrooms = r.bedrooms ∧
    applyAffinity lib .numeric r.bathrooms = r.bathrooms ∧
    applyAffinity lib .text r.features = r.features ∧
    applyAffinity lib .text r.image_url = r.image_url ∧
    applyAffinity lib .text r.status = r.status ∧
    applyAffinity lib .numeric r.featured = r.featured) ∧
  (r.title ≠ .null ∧ r.type ≠ .null ∧ r.price ≠ .null ∧ r.location ≠ .null)

/-- A `materials` row as SQLite keeps it. -/
def MaterialRow.Stored (lib : Lib) (r : MaterialRow) : Prop :=
  (applyAffinity lib .text r.name = r.name ∧ applyAffinity lib .text r.description = r.description ∧
    applyAffinity lib .text r.category = r.category ∧
    applyAffinity lib .real r.price_min = r.price_min ∧
    applyAffinity lib .real r.price_max = r.price_max ∧
    applyAffinity lib .text r.image_url = r.image_url ∧
    applyAffinity lib .numeric r.in_stock = r.in_stock ∧
    applyAffinity lib .text r.status = r.status) ∧
  (r.name ≠ .null ∧ r.category ≠ .null)

/-- A `properties` row with each numeric column that `PUT /properties/:id`
writes as the handler reads it and binds it again. -/
def PropertyRow.asRead (r : PropertyRow) : PropertyRow :=
  { r with
    price := r.price.asRead
    area_sqm := r.area_sqm.asRead
    bedrooms := r.bedrooms.asRead
    bathrooms := r.bathrooms.asRead
    featured := r.featured.asRead }

/-- A `materials` row with each numeric column that `PUT /materials/:id` writes
as the handler reads it and binds it again. -/
def MaterialRow.asRead (r : MaterialRow) : MaterialRow :=
  { r with
    price_min := r.price_min.asRead
    price_max := r.price_max.asRead
    in_stock := r.in_stock.asRead }

/-- Every numeric column that `PUT /properties/:id` writes holds a value that
a JavaScript number holds exactly. -/
def PropertyRow.Exact (r : PropertyRow) : Prop :=
  r.price.Exact ∧ r.area_sqm.Exact ∧ r.bedrooms.Exact ∧ r.bathrooms.Exact ∧ r.featured.Exact

/-- Every numeric column that `PUT /materials/:id` writes holds a value that a
JavaScript number holds exactly. -/
def MaterialRow.Exact (r : MaterialRow) : Prop :=
  r.price_min.Exact ∧ r.price_max.Exact ∧ r.in_stock.Exact

/-- The merge rule of `PUT /properties/:id`, field by field: `title`, `type`,
`price`, `location` and `status` take the body's value when it is truthy,
`features` its JSON text when it is truthy, `featured` 1 or 0 when it is
present, the other five the body's value when it is present; a field that does
not pass its test keeps the value of `r` as the handler reads it and binds it
again (`asRead`, which changes a numeric column only), and `updated_at` is
the time of the update. -/
def PropertyRow.merged (lib : Lib) (now : String) (body : String → JsVal) (r : PropertyRow) :
    PropertyRow :=
  { r with
    title := if (body "title").truthy then stored lib .text (body "title") else r.title
    description :=
      if body "description" = .undefined then r.description
      else stored lib .text (body "description")
    type := if (body "type").truthy then stored lib .text (body "type") else r.type
    price := if (body "price").truthy then stored lib .real (body "price") else r.price.asRead
    location := if (body "location").truthy then stored lib .text (body "location") else r.location
    area_sqm :=
      if body "area_sqm" = .undefined then r.area_sqm.asRead
      else stored lib .real (body "area_sqm")
    bedrooms :=
      if body "bedrooms" = .undefined then r.bedrooms.asRead
      else stored lib .numeric (body "bedrooms")
    bathrooms :=
      if body "bathrooms" = .undefined then r.bathrooms.asRead
      else stored lib .numeric (body "bathrooms")
    features :=
      if (body "features").truthy then .text (lib.stringify (body "features")) else r.features
    image_url :=
      if body "image_url" = .undefined then r.image_url else stored lib .text (body "image_url")
    status := if (body "status").truthy then stored lib .text (body "status") else r.status
    featured :=
      if body "featured" = .undefined then r.featured.asRead
      else .int (if (body "featured").truthy then 1 else 0)
    updated_at := .text now }

/-- The merge rule of `PUT /materials/:id`, field by field: `name`, `category`
and `status` take the body's value when it is truthy, `in_stock` 1 or 0 when it
is present, the other four the body's value when it is present. -/
def MaterialRow.merged (lib : Lib) (now : String) (body : String → JsVal) (r : MaterialRow) :
    MaterialRow :=
  { r with
    name := if (body "name").truthy then stored lib .text (body "name") else r.name
    description :=
      if body "description" = .undefined then r.description
      else stored lib .text (body "description")
    category := if (body "category").truthy then stored lib .text (body "category") else r.category
    price_min :=
      if body "price_min" = .undefined then r.price_min.asRead
      else stored lib .real (body "price_min")
    price_max :=
      if body "price_max" = .undefined then r.price_max.asRead
      else stored lib .real (body "price_max")
    image_url :=
      if body "image_url" = .undefined then r.image_url else stored lib .text (body "image_url")
    in_stock :=
      if body "in_stock" = .undefined then r.in_stock.asRead
      else .int (if (body "in_stock").truthy then 1 else 0)
    status := if (body "status").truthy then stored lib .text (body "status") else r.status
    updated_at := .text now }

/-! ## The SQL text and the `params` array of the list and search handlers -/

/-- The variables `query` and `params` of a list or search handler; each
element of `params` is written as sql.js binds it (a string as TEXT, a number
as a number, `NaN` as NULL). -/
structure Built where
  query : String
  params : List SqlVal
  deriving DecidableEq, Repr

/-- The two statements `query += clause; params.push(...values)`. -/
def Built.add (b : Built) (clause : String) (values : List SqlVal) : Built :=
  { query := b.query ++ clause, params := b.params ++ values }

/-- The value `parseInt(s)` as it is bound: `NaN` is bound as NULL. -/
def intParam (lib : Lib) (s : String) : SqlVal := (lib.parseInt s).bound

/-- The `query` and `params` that the handler of `GET /properties` builds. -/
def propertiesListQuery (lib : Lib) (type status featured limit offset : Option String) : Built :=
  let b : Built := { query := "SELECT * FROM properties WHERE 1=1", params := [] }
  let b :=
    match given type with
    | some t => b.add " AND type = ?" [.text t]
    | none => b
  let b :=
    match given status with
    | some st => b.add " AND status = ?" [.text st]
    | none => b.add " AND status = ?" [.text "active"]
  let b :=
    match given featured with
    | some f => b.add " AND featured = ?" [.int (if f = "true" then 1 else 0)]
    | none => b
  let b := b.add " ORDER BY created_at DESC" []
  let b :=
    match given limit with
    | some l => b.add " LIMIT ?" [intParam lib l]
    | none => b
  match given offset with
  | some o => b.add " OFFSET ?" [intParam lib o]
  | none => b

/-- The `query` and `params` that the handler of `GET /materials` builds;
`inStock` is tested with `!== undefined`. -/
def materialsListQuery (lib : Lib) (category status inStock limit offset : Option String) :
    Built :=
  let b : Built := { query := "SELECT * FROM materials WHERE 1=1", params := [] }
  let b :=
    match given category with
    | some c => b.add " AND category = ?" [.text c]
    | none => b
  let b :=
    match given status with
    | some st => b.add " AND status = ?" [.text st]
    | none => b.add " AND status = ?" [.text "active"]
  let b :=
    match inStock with
    | some f => b.add " AND in_stock = ?" [.int (if f = "true" then 1 else 0)]
    | none => b
  let b := b.add " ORDER BY created_at DESC" []
  let b :=
    match given limit with
    | some l => b.add " LIMIT ?" [intParam lib l]
    | none => b
  match given offset with
  | some o => b.add " OFFSET ?" [intParam lib o]
  | none => b

/-- The `query` and `params` that the search handler of `routes/properties.js`
builds. -/
def propertiesSearchQuery (lib : Lib) (q minPrice maxPrice location type : Option String) :
    Built :=
  let b : Built :=
    { query := "SELECT * FROM properties WHERE status = ?", params := [.text "active"] }
  let b :=
    match given q with
    | some t =>
      b.add " AND (title LIKE ? OR description LIKE ? OR location LIKE ?)"
        [.text (searchTerm t), .text (searchTerm t), .text (searchTerm t)]
    | none => b
  let b :=
    match given minPrice with
    | some m => b.add " AND price >= ?" [floatParam lib m]
    | none => b
  let b :=
    match given maxPrice with
    | some m => b.add " AND price <= ?" [floatParam lib m]
    | none => b
  let b :=
    match given location with
    | some l => b.add " AND location LIKE ?" [.text (searchTerm l)]
    | none => b
  let b :=
    match given type with
    | some t => b.add " AND type = ?" [.text t]
    | none => b
  b.add " ORDER BY created_at DESC" []

/-- The `query` and `params` that the search handler of `routes/materials.js`
builds. -/
def materialsSearchQuery (lib : Lib) (q category minPrice maxPrice : Option String) : Built :=
  let b : Built :=
    { query := "SELECT * FROM materials WHERE status = ?", params := [.text "active"] }
  let b :=
    match given q with
    | some t =>
      b.add " AND (name LIKE ? OR description LIKE ?)"
        [.text (searchTerm t), .text (searchTerm t)]
    | none => b
  let b :=
    match given category with
    | some c => b.add " AND category = ?" [.text c]
    | none => b
  let b :=
    match given minPrice with
    | some p => b.add " AND price_min >= ?" [floatParam lib p]
    | none => b
  let b :=
    match given maxPrice with
    | some p => b.add " AND price_max <= ?" [floatParam lib p]
    | none => b
  b.add " ORDER BY created_at DESC" []

/-- The number of `?` placeholders of an SQL text. -/
def placeholders (sql : String) : Nat := sql.data.count '?'

/-- The `query` and `params` that a list of steps leaves when each step that
is taken appends its clause to the text and pushes its values, in the order of
the list; `none` is a step that is skipped. -/
def lockstep (base : Built) (steps : List (Option (String × List SqlVal))) : Built :=
  steps.foldl (fun b st =>
    match st with
    | some (clause, values) => b.add clause values
    | none => b) base

/-- The steps of `GET /properties` in the order of the source: the filters,
the ordering, then LIMIT, then OFFSET, each clause with the values pushed for
it. -/
def propertiesListSteps (lib : Lib) (type status featured limit offset : Option String) :
    List (Option (String × List SqlVal)) :=
  [ (given type).map (fun t => (" AND type = ?", [SqlVal.text t])),
    some (" AND status = ?", [SqlVal.text ((given status).getD "active")]),
    (given featured).map
      (fun f => (" AND featured = ?", [SqlVal.int (if f = "true" then 1 else 0)])),
    some (" ORDER BY created_at DESC", []),
    (given limit).map (fun l => (" LIMIT ?", [intParam lib l])),
    (given offset).map (fun o => (" OFFSET ?", [intParam lib o])) ]

/-- The steps of `GET /materials` in the order of the source. -/
def materialsListSteps (lib : Lib) (category status inStock limit offset : Option String) :
    List (Option (String × List SqlVal)) :=
  [ (given category).map (fun c => (" AND category = ?", [SqlVal.text c])),
    some (" AND status = ?", [SqlVal.text ((given status).getD "active")]),
    inStock.map (fun f => (" AND in_stock = ?", [SqlVal.int (if f = "true" then 1 else 0)])),
    some (" ORDER BY created_at DESC", []),
    (given limit).map (fun l => (" LIMIT ?", [intParam lib l])),
    (given offset).map (fun o => (" OFFSET ?", [intParam lib o])) ]

/-- The steps of the properties search handler in the order of the source. -/
def propertiesSearchSteps (lib : Lib) (q minPrice maxPrice location type : Option String) :
    List (Option (String × List SqlVal)) :=
  [ (given q).map (fun t =>
      (" AND (title LIKE ? OR description LIKE ? OR location LIKE ?)",
        [SqlVal.text (searchTerm t), SqlVal.text (searchTerm t), SqlVal.text (searchTerm t)])),
    (given minPrice).map (fun m => (" AND price >= ?", [floatParam lib m])),
    (given maxPrice).map (fun m => (" AND price <= ?", [floatParam lib m])),
    (given location).map (fun l => (" AND location LIKE ?", [SqlVal.text (searchTerm l)])),
    (given type).map (fun t => (" AND type = ?", [SqlVal.text t])),
    some (" ORDER BY created_at DESC", []) ]

/-- The steps of the materials search handler in the order of the source. -/
def materialsSearchSteps (lib : Lib) (q category minPrice maxPrice : Option String) :
    List (Option (String × List SqlVal)) :=
  [ (given q).map (fun t =>
      (" AND (name LIKE ? OR description LIKE ?)",
        [SqlVal.text (searchTerm t), SqlVal.text (searchTerm t)])),
    (given category).map (fun c => (" AND category = ?", [SqlVal.text c])),
    (given minPrice).map (fun p => (" AND price_min >= ?", [floatParam lib p])),
    (given maxPrice).map (fun p => (" AND price_max <= ?", [floatParam lib p])),
    some (" ORDER BY created_at DESC", []) ]

/-- The shape the specification gives for an address that passes the format
check: no whitespace character, exactly one `@`, at least one character before
it, and after it a dot with at least one character on each side. -/
def emailShape (s : List Char) : Prop :=
  (∀ c ∈ s, isSpace c = false) ∧ s.count '@' = 1 ∧
  ∃ a d, s = a ++ '@' :: d ∧ a ≠ [] ∧ ∃ b c, d = b ++ '.' :: c ∧ b ≠ [] ∧ c ≠ []

/-- As many placeholders in the text as values in the array. -/
def Built.Balanced (b : Built) : Prop := placeholders b.query = b.params.length

/-- The row `POST /properties` adds for the body `b` and the id claim
`createdBy` of the token, when the statement runs at time `now` and the table
gives the row the id `id`. -/
def PropertyRow.created (lib : Lib) (now : String) (b : String → JsVal) (createdBy : JsVal)
    (id : Int) : PropertyRow :=
  { id := id
    title := stored lib .text (b "title")
    description := stored lib .text ((b "description").or .null)
    type := stored lib .text (b "type")
    price := stored lib .real (b "price")
    location := stored lib .text (b "location")
    area_sqm := stored lib .real ((b "area_sqm").or .null)
    bedrooms := stored lib .numeric ((b "bedrooms").or .null)
    bathrooms := stored lib .numeric ((b "bathrooms").or .null)
    features :=
      stored lib .text
        (if (b "features").truthy then .str (lib.stringify (b "features")) else .null)
    image_url := stored lib .text ((b "image_url").or .null)
    status := stored lib .text ((b "status").or (.str "active"))
    featured := stored lib .numeric (b "featured").flag
    created_by := stored lib .numeric createdBy
    created_at := .text now
    updated_at := .text now }

/-- The row `POST /contact` adds for the body `b`, when the statement runs at
time `now` and the table gives the row the id `id`. -/
def ContactRow.created (lib : Lib) (now : String) (b : String → JsVal) (id : Int) : ContactRow :=
  { id := id
    name := stored lib .text (b "name")
    email := stored lib .text (b "email")
    phone := stored lib .text ((b "phone").or .null)
    subject := stored lib .text ((b "subject").or .null)
    message := stored lib .text (b "message")
    status := .text "unread"
    created_at := .text now }

/-- The wrapper after a statement that ran and left the database `db1`: the
database is `db1`, the file holds it, and the count of changed rows is that
of the connection `export` re-opened. -/
def State.saved (w : State) (db1 : Db) : State :=
  { w with db := db1, changes := 0, file := some db1 }

/-! ## A concrete library and concrete states, for evaluating the handlers -/

/-- The decimal number a list of digit characters spells, `none` when a
character is not a digit. -/
def readDigits : List Char → Option Nat
  | [] => some 0
  | c :: cs =>
    if c.isDigit then
      match readDigits cs with
      | some n => some ((c.toNat - 48) * 10 ^ cs.length + n)
      | none => none
    else none

/-- A plain decimal text as a number. -/
def readDecimal (s : String) : Option Int :=
  if s.data = [] then none else (readDigits s.data).map Int.ofNat

/-- The claims of the administrator seeded by `_initTables`. -/
def adminClaims : Claims :=
  { id := .num 1, email := .str "admin@terracore.com", name := .str "Administrator",
    role := .str "admin" }

/-- The claims of an ordinary user. -/
def userClaims : Claims :=
  { id := .num 2, email := .str "user@example.com", name := .str "User", role := .str "user" }

/-- The number 12.5. -/
def twelveAndHalf : NonInteger := .frac ⟨25, 2, by decide, by decide⟩ (by decide)

/-- A text as a JavaScript number: a plain decimal, `12.5` or `Infinity`;
anything else reads as `NaN`. -/
def readNumber (s : String) : JsNumber :=
  if s = "12.5" then .real twelveAndHalf
  else if s = "Infinity" then .real (.inf false)
  else
    match readDecimal s with
    | some n => .int n
    | none => .nan

/-- A small instance of the library: ASCII lower-casing, a transparent
"hash", two tokens that verify, plain decimals and 12.5 as numbers. -/
def testLib : Lib where
  toLowerCase s := String.mk (s.data.map Char.toLower)
  hashSync s := "hash:" ++ s
  compareSync s h := h == "hash:" ++ s
  sign c := if c.role = .str "admin" then "admin-token" else "user-token"
  verify t :=
    if t = "admin-token" then some adminClaims
    else if t = "user-token" then some userClaims
    else none
  numericText := readDecimal
  realText s := if s = "12.5" then some twelveAndHalf else none
  numToText n := if n = 0 then "0" else if n = 1 then "1" else "n"
  realToText x := if x = twelveAndHalf then "12.5" else "x"
  parseInt s :=
    match readDecimal s with
    | some n => .int n
    | none => .nan
  parseFloat := readNumber
  stringify v :=
    match v with
    | .arr [] => "[]"
    | _ => "json"
  parse s := if s = "[]" then some (.arr []) else none
  likeBlob _ _ := false

/-- The administrator's row. -/
def adminRow : UserRow :=
  { id := 1, email := .text "admin@terracore.com", password := .text "hash:admin123",
    name := .text "Administrator", role := .text "admin",
    created_at := .text "2024-01-01 00:00:00", updated_at := .text "2024-01-01 00:00:00" }

/-- A property row. -/
def houseRow : PropertyRow :=
  { id := 1, title := .text "Enugu Residential House",
    description := .text "Beautiful 4-bedroom bungalow in a quiet neighborhood",
    type := .text "house", price := .int 45000000, location := .text "New Haven, Enugu",
    area_sqm := .int 400, bedrooms := .int 4, bathrooms := .int 3, features := .text "[]",
    image_url := .text "/img/house2.png", status := .text "active", featured := .int 0,
    created_by := .null,
    created_at := .text "2024-01-01 00:00:00", updated_at := .text "2024-01-01 00:00:00" }

/-- A material row. -/
def doorsRow : MaterialRow :=
  { id := 1, name := .text "Luxury Foreign Doors",
    description := .text "For your luxury finishing with our Quality Foreign Doors",
    category := .text "doors", price_min := .int 110000, price_max := .int 700000,
    image_url := .text "/img/cream double door.jpeg", in_stock := .int 1,
    status := .text "active",
    created_at := .text "2024-01-01 00:00:00", updated_at := .text "2024-01-01 00:00:00" }

/-- A contact row. -/
def contactRow : ContactRow :=
  { id := 1, name := .text "Ada", email := .text "ada@example.com", phone := .null,
    subject := .null, message := .text "Hello", status := .text "unread",
    created_at := .text "2024-01-02 00:00:00" }

/-- A database with one row in `users`, `properties`, `materials` and `contacts`. -/
def testDb : Db :=
  { users := { rows := [adminRow], seq := 1 }
    properties := { rows := [houseRow], seq := 1 }
    materials := { rows := [doorsRow], seq := 1 }
    contacts := { rows := [contactRow], seq := 1 }
    newsletter := { rows := [], seq := 0 }
    testimonials := { rows := [], seq := 0 } }

/-- An initialised wrapper over `testDb`. -/
def testState : State :=
  { ready := true, pendingOps := [], db := testDb, changes := 0, file := some testDb }

/-- A second property row, not active. -/
def flatRow : PropertyRow :=
  { houseRow with
    id := 2, title := .text "Lagos Victoria Island Flat", type := .text "flat",
    status := .text "inactive", created_at := .text "2024-01-03 00:00:00" }

/-- A second material row, not active. -/
def lightsRow : MaterialRow :=
  { doorsRow with
    id := 2, name := .text "Luxury Foreign Lights", category := .text "lighting",
    status := .text "inactive", created_at := .text "2024-01-03 00:00:00" }

/-- A database with an active and an inactive row in `properties` and in
`materials`. -/
def mixedDb : Db :=
  { testDb with
    properties := { rows := [houseRow, flatRow], seq := 2 }
    materials := { rows := [doorsRow, lightsRow], seq := 2 } }

/-- An initialised wrapper over `mixedDb`. -/
def mixedState : State :=
  { ready := true, pendingOps := [], db := mixedDb, changes := 0, file := some mixedDb }

/-- A newsletter row that has unsubscribed. -/
def lapsedRow : NewsletterRow :=
  { id := 1, email := .text "old@example.com", subscribed := .int 0,
    created_at := .text "2024-01-04 00:00:00" }

/-- A newsletter row that is subscribed. -/
def activeRow : NewsletterRow :=
  { id := 2, email := .text "news@example.com", subscribed := .int 1,
    created_at := .text "2024-01-05 00:00:00" }

/-- A database with the two newsletter rows. -/
def newsDb : Db :=
  { testDb with newsletter := { rows := [lapsedRow, activeRow], seq := 2 } }

/-- An initialised wrapper over `newsDb`. -/
def newsState : State :=
  { ready := true, pendingOps := [], db := newsDb, changes := 0, file := some newsDb }

/-- A JSON body with the listed properties. -/
def fields (kvs : List (String × JsVal)) : String → JsVal := fun k =>
  match kvs.lookup k with
  | some v => v
  | none => .undefined

/-- The body of a `POST /properties` whose `bedrooms` is the decimal text of
`2 ^ 53 + 1`. -/
def towerBody : String → JsVal :=
  fields [("title", .str "Tower"), ("type", .str "flat"), ("price", .num 5),
    ("location", .str "Lagos"), ("bedrooms", .str "9007199254740993")]

/-- A query string with the listed parameters. -/
def params (kvs : List (String × String)) : String → Option String := fun k => kvs.lookup k

/-- The mail settings of a server with no `SMTP_HOST`. -/
def noMail : Mailer := { smtpHost := false, sendMail := fun _ _ => .ok () }

/-- A request with no header, an empty id, no query parameter and an empty body. -/
def emptyRequest : Request :=
  { authorization := none, id := "", query := fun _ => none, body := fun _ => .undefined }

/-- A property row whose title has a letter outside ASCII. -/
def cafeRow : PropertyRow := { houseRow with title := .text "Café Enugu" }

/-- A database whose one property is `cafeRow`. -/
def cafeDb : Db := { testDb with properties := { rows := [cafeRow], seq := 1 } }

/-- An initialised wrapper over `cafeDb`. -/
def cafeState : State :=
  { ready := true, pendingOps := [], db := cafeDb, changes := 0, file := some cafeDb }

/-- The capital of a letter, for the ASCII letters and for the letter e with
an acute accent (U+00E9, whose capital is U+00C9). -/
def capital (c : Char) : Char :=
  if c = Char.ofNat 0xE9 then Char.ofNat 0xC9 else c.toUpper

/-- Two property rows that differ in id and price: 12 and 13. -/
def cheapRow : PropertyRow := { houseRow with price := .int 12 }

/-- The second of the two. -/
def dearRow : PropertyRow := { houseRow with id := 2, price := .int 13 }

/-- A database with the two rows. -/
def priceDb : Db := { testDb with properties := { rows := [cheapRow, dearRow], seq := 2 } }

/-- An initialised wrapper over `priceDb`. -/
def priceState : State :=
  { ready := true, pendingOps := [], db := priceDb, changes := 0, file := some priceDb }

/-- The store `testState` after the administrator has posted `towerBody`. -/
def towerState : State :=
  (createProperty testLib "2024-01-05 00:00:00" { emptyRequest with body := towerBody }
    adminClaims testState).2


/-- A wrapper over `testDb` whose `_ensureReady` has not finished. -/
def coldState : State :=
  { ready := false, pendingOps := [], db := testDb, changes := 0, file := none }

/-- The mail settings of a server whose SMTP host refuses every message. -/
def brokenMail : Mailer :=
  { smtpHost := true, sendMail := fun _ _ => .error "connect ECONNREFUSED" }

/-- The mail settings of a server whose SMTP host takes every message. -/
def goodMail : Mailer := { smtpHost := true, sendMail := fun _ _ => .ok () }

/-- The library `testLib` with a JSON codec that knows one more list. -/
def jsonLib : Lib :=
  { testLib with
    stringify := fun v =>
      match v with
      | .arr [] => "[]"
      | .arr ["Garden", "Garage"] => "[Garden,Garage]"
      | _ => "json"
    parse := fun s =>
      if s = "[]" then some (.arr [])
      else if s = "[Garden,Garage]" then some (.arr ["Garden", "Garage"])
      else none }

/-! ## Lemmas on the wrapper, on binding and on comparisons -/

theorem get_ready {α : Type} (w : State) (h : w.ready = true) (q : Db → Except String (List α)) :
    w.get q = match q w.db with | .error e => .error e | .ok rows => .ok rows.head? := by
  simp only [State.get, h]; rfl

theorem run_ready (w : State) (h : w.ready = true) (stmt : Stmt) :
    w.run stmt = match stmt w.db with
      | .error e => .error e
      | .ok (db1, _) => .ok ({ changes := 0 }, { w with db := db1, changes := 0, file := some db1 }) := by
  simp only [State.run, h, State._saveDatabase]; rfl

theorem sqlEq_id (lib : Lib) (i : Int) (s : String) :
    sqlEq lib .numeric (.int i) (.text s) = true ↔ lib.numericText s = some i := by
  unfold sqlEq
  cases h : lib.numericText s with
  | none =>
    have e : applyAffinity lib .numeric (.text s) =
        (match lib.realText s with | some x => SqlVal.real x | none => SqlVal.text s) := by
      simp only [applyAffinity, h]
    rw [e]
    cases lib.realText s <;> simp
  | some n =>
    have e : applyAffinity lib .numeric (.text s) = .int n := by
      simp only [applyAffinity, h]
    rw [e]
    simp only [Option.some.injEq]
    constructor
    · intro hh; simp at hh; exact hh.symm
    · intro hh; simp [hh]

theorem truthy_str (s : String) : (JsVal.str s).truthy = true ↔ s ≠ "" := by
  simp [JsVal.truthy]

theorem sqlEq_text (lib : Lib) (c : SqlVal) (s : String) :
    sqlEq lib .text c (.text s) = true ↔ c = .text s := by
  simp [sqlEq, applyAffinity]

theorem all_ready {α : Type} (w : State) (h : w.ready = true) (q : Db → Except String (List α)) :
    w.all q = q w.db := by
  simp only [State.all, h]; rfl

theorem bindValue_toJs (v : SqlVal) : bindValue (toJs v) = .ok v.asRead := by
  cases v <;> rfl

theorem asRead_int (n : Int) : (SqlVal.int n).asRead = .int (toDouble n) := rfl

theorem asRead_text (lib : Lib) (e : SqlVal) (he : applyAffinity lib .text e = e) :
    e.asRead = e := by
  cases e <;> first | rfl | simp [applyAffinity] at he

theorem asRead_kept (lib : Lib) (a : Affinity) (e : SqlVal) (he : applyAffinity lib a e = e) :
    applyAffinity lib a e.asRead = e.asRead := by
  cases e with
  | int n =>
    cases a with
    | text => simp [applyAffinity] at he
    | numeric => rfl
    | real => rfl
  | null => exact he
  | text s => exact he
  | blob xs => exact he
  | real x => exact he

theorem asRead_ne_null {e : SqlVal} (he : e ≠ .null) : e.asRead ≠ .null := by
  cases e <;> first | exact he | (intro h; cases h)

theorem excessBits_small (fuel m : Nat) (h : m < 2 ^ 53) : excessBits fuel m = 0 := by
  cases fuel with
  | zero => rfl
  | succ k => simp only [excessBits, h, if_true]

theorem toDouble_small (n : Int) (h : n.natAbs < 2 ^ 53) : toDouble n = n := by
  simp only [toDouble, excessBits_small _ _ h, if_true]

theorem toDouble_zero : toDouble 0 = 0 := by decide

theorem toDouble_one : toDouble 1 = 1 := by decide

theorem exact_iff (v : SqlVal) : v.Exact ↔ v.asRead = v := by
  cases v with
  | int n =>
    rw [asRead_int]
    constructor
    · intro h; rw [h n rfl]
    · intro h m hm
      cases hm
      exact SqlVal.int.inj h
  | null => exact ⟨fun _ => rfl, fun _ n hn => by cases hn⟩
  | text s => exact ⟨fun _ => rfl, fun _ n hn => by cases hn⟩
  | blob xs => exact ⟨fun _ => rfl, fun _ n hn => by cases hn⟩
  | real x => exact ⟨fun _ => rfl, fun _ n hn => by cases hn⟩

theorem bindValue_of_ne {v : JsVal} (h : v ≠ .undefined) : bindValue v = .ok (bound v) := by
  cases v <;> first | rfl | exact absurd rfl h

theorem truthy_ne_undefined {v : JsVal} (h : v.truthy = true) : v ≠ .undefined := by
  rintro rfl; simp [JsVal.truthy] at h

theorem bindValue_or (a : JsVal) (e : SqlVal) :
    bindValue (a.or (toJs e)) = .ok (if a.truthy then bound a else e.asRead) := by
  unfold JsVal.or
  split
  · next h => exact bindValue_of_ne (truthy_ne_undefined h)
  · exact bindValue_toJs e

theorem bindValue_orUndef (a : JsVal) (e : SqlVal) :
    bindValue (a.orUndef (toJs e)) = .ok (if a = .undefined then e.asRead else bound a) := by
  unfold JsVal.orUndef
  split
  · exact bindValue_toJs e
  · next h => exact bindValue_of_ne h

theorem bindValue_flag (a : JsVal) :
    bindValue a.flag = .ok (.int (if a.truthy then 1 else 0)) := by
  unfold JsVal.flag; split <;> simp [bindValue]

theorem bound_ne_null {v : JsVal} (h : v.truthy = true) : bound v ≠ .null := by
  cases v <;> simp_all [JsVal.truthy, bound]

theorem applyAffinity_ne_null (lib : Lib) (a : Affinity) {v : SqlVal} (h : v ≠ .null) :
    applyAffinity lib a v ≠ .null := by
  cases a <;> cases v <;> simp_all [applyAffinity] <;>
    (split <;> first | simp | (split <;> simp))

theorem filter_id_eq {α : Type} (id : α → Int) (rows : List α) (r : α)
    (hnd : (rows.map id).Nodup) (hmem : r ∈ rows) :
    rows.filter (fun x => decide (id x = id r)) = [r] := by
  induction rows with
  | nil => cases hmem
  | cons a as ih =>
    rw [List.map_cons, List.nodup_cons] at hnd
    rcases List.mem_cons.1 hmem with rfl | h
    · have : as.filter (fun x => decide (id x = id r)) = [] := by
        rw [List.filter_eq_nil_iff]
        intro x hx hxe
        exact hnd.1 (by rw [← of_decide_eq_true hxe]; exact List.mem_map_of_mem id hx)
      simp [List.filter_cons, this]
    · have hne : id a ≠ id r := fun he => hnd.1 (by rw [he]; exact List.mem_map_of_mem id h)
      simp [List.filter_cons, hne, ih hnd.2 h]


/-! ### `PUT /properties/:id` -/

theorem bindValue_str (s : String) : bindValue (.str s) = .ok (.text s) := rfl

theorem bindValue_ite_str (c : Prop) [Decidable c] (s : String) (e : SqlVal) :
    bindValue (if c then .str s else toJs e) = .ok (if c then .text s else e.asRead) := by
  split
  · rfl
  · exact bindValue_toJs e

theorem bindValue_ite_flag (v : JsVal) (e : SqlVal) :
    bindValue (if v = .undefined then toJs e else v.flag) =
      .ok (if v = .undefined then e.asRead else .int (if v.truthy then 1 else 0)) := by
  split
  · exact bindValue_toJs e
  · exact bindValue_flag v

theorem stored_kept (lib : Lib) (a : Affinity) (c : Prop) [Decidable c] (v : JsVal) (e : SqlVal)
    (he : applyAffinity lib a e = e) :
    applyAffinity lib a (if c then bound v else e) = if c then stored lib a v else e := by
  split <;> simp [stored, he]

theorem stored_kept_not (lib : Lib) (a : Affinity) (c : Prop) [Decidable c] (v : JsVal) (e : SqlVal)
    (he : applyAffinity lib a e = e) :
    applyAffinity lib a (if c then e else bound v) = if c then e else stored lib a v := by
  split <;> simp [stored, he]

theorem text_kept (lib : Lib) (c : Prop) [Decidable c] (s : String) (e : SqlVal)
    (he : applyAffinity lib .text e = e) :
    applyAffinity lib .text (if c then .text s else e) = if c then .text s else e := by
  split
  · rfl
  · exact he

theorem flag_kept (lib : Lib) (c : Prop) [Decidable c] (n : Int) (e : SqlVal)
    (he : applyAffinity lib .numeric e = e) :
    applyAffinity lib .numeric (if c then e else .int n) = if c then e else .int n := by
  split
  · exact he
  · rfl

theorem stored_ne_null (lib : Lib) (a : Affinity) (v : JsVal) (e : SqlVal) (he : e ≠ .null) :
    (if v.truthy then stored lib a v else e) ≠ .null := by
  split
  · next h => exact applyAffinity_ne_null lib a (bound_ne_null h)
  · exact he

theorem property_set_eq_merged (lib : Lib) (now : String) (b : String → JsVal)
    (r : PropertyRow) (hst : r.Stored lib) :
    r.set lib now
      (if (b "title").truthy then bound (b "title") else r.title.asRead)
      (if b "description" = .undefined then r.description.asRead else bound (b "description"))
      (if (b "type").truthy then bound (b "type") else r.type.asRead)
      (if (b "price").truthy then bound (b "price") else r.price.asRead)
      (if (b "location").truthy then bound (b "location") else r.location.asRead)
      (if b "area_sqm" = .undefined then r.area_sqm.asRead else bound (b "area_sqm"))
      (if b "bedrooms" = .undefined then r.bedrooms.asRead else bound (b "bedrooms"))
      (if b "bathrooms" = .undefined then r.bathrooms.asRead else bound (b "bathrooms"))
      (if (b "features").truthy then .text (lib.stringify (b "features"))
        else r.features.asRead)
      (if b "image_url" = .undefined then r.image_url.asRead else bound (b "image_url"))
      (if (b "status").truthy then bound (b "status") else r.status.asRead)
      (if b "featured" = .undefined then r.featured.asRead
        else .int (if (b "featured").truthy then 1 else 0))
    = r.merged lib now b := by
  obtain ⟨⟨h1, h2, h3, h4, h5, h6, h7, h8, h9, h10, h11, h12⟩, -⟩ := hst
  simp only [asRead_text lib _ h1, asRead_text lib _ h2, asRead_text lib _ h3,
    asRead_text lib _ h5, asRead_text lib _ h9, asRead_text lib _ h10, asRead_text lib _ h11]
  simp only [PropertyRow.set, PropertyRow.merged, stored_kept, stored_kept_not, text_kept,
    flag_kept, h1, h2, h3, h5, h9, h10, h11, asRead_kept lib _ _ h4, asRead_kept lib _ _ h6,
    asRead_kept lib _ _ h7, asRead_kept lib _ _ h8, asRead_kept lib _ _ h12]

theorem property_merged_notnull (lib : Lib) (now : String) (b : String → JsVal)
    (r : PropertyRow) (hst : r.Stored lib) :
    ¬ ((r.merged lib now b).title = .null ∨ (r.merged lib now b).type = .null ∨
      (r.merged lib now b).price = .null ∨ (r.merged lib now b).location = .null) := by
  obtain ⟨-, n1, n2, n3, n4⟩ := hst
  simp only [PropertyRow.merged, not_or]
  exact ⟨stored_ne_null lib _ _ _ n1, stored_ne_null lib _ _ _ n2,
    stored_ne_null lib _ _ _ (asRead_ne_null n3), stored_ne_null lib _ _ _ n4⟩

theorem updateProperty_ok (lib : Lib) (now : String) (b : String → JsVal) (id : String) (db : Db)
    (r : PropertyRow)
    (hnd : (db.properties.rows.map PropertyRow.id).Nodup)
    (hmem : r ∈ db.properties.rows)
    (hid : sqlEq lib .numeric (.int r.id) (.text id) = true)
    (hst : r.Stored lib) :
    updateProperty lib now
      [ (b "title").or (toJs r.title),
        (b "description").orUndef (toJs r.description),
        (b "type").or (toJs r.type),
        (b "price").or (toJs r.price),
        (b "location").or (toJs r.location),
        (b "area_sqm").orUndef (toJs r.area_sqm),
        (b "bedrooms").orUndef (toJs r.bedrooms),
        (b "bathrooms").orUndef (toJs r.bathrooms),
        if (b "features").truthy then .str (lib.stringify (b "features")) else toJs r.features,
        (b "image_url").orUndef (toJs r.image_url),
        (b "status").or (toJs r.status),
        if b "featured" = .undefined then toJs r.featured else (b "featured").flag,
        .str id ] db =
      .ok ({ db with properties := { db.properties with
        rows := db.properties.rows.map
          (fun x => if x.id = r.id then r.merged lib now b else x) } }, 1) := by
  have hn := (sqlEq_id lib r.id id).1 hid
  have hhit : ∀ x : PropertyRow, sqlEq lib .numeric (.int x.id) (.text id) = decide (x.id = r.id) := by
    intro x
    rw [Bool.eq_iff_iff, sqlEq_id, hn]; simp [eq_comm]
  have hfil : db.properties.rows.filter (fun x => decide (x.id = r.id)) = [r] :=
    filter_id_eq PropertyRow.id _ r hnd hmem
  have huniq : ∀ x ∈ db.properties.rows, x.id = r.id → x = r :=
    fun x hx he => List.inj_on_of_nodup_map hnd hx hmem he
  simp only [updateProperty, bindAll, bindValue_or, bindValue_orUndef, bindValue_ite_str,
    bindValue_ite_flag, bindValue_str, hhit, hfil]
  rw [if_neg]
  · congr 2
    congr 2
    apply List.map_congr_left
    intro x hx
    by_cases he : x.id = r.id
    · rw [if_pos (by simpa using he), if_pos he, huniq x hx he]
      exact property_set_eq_merged lib now b r hst
    · rw [if_neg (by simpa using he), if_neg he]
  · rw [Bool.not_eq_true, List.any_eq_false]
    intro x hx
    by_cases he : x.id = r.id
    · rw [huniq x hx he]
      simp only [property_set_eq_merged lib now b r hst]
      simpa using property_merged_notnull lib now b r hst
    · simp [he]

theorem filter_hit_eq {α : Type} (lib : Lib) (id : α → Int) (rows : List α) (r : α) (s : String)
    (hnd : (rows.map id).Nodup) (hmem : r ∈ rows)
    (hid : sqlEq lib .numeric (.int (id r)) (.text s) = true) :
    rows.filter (fun x => sqlEq lib .numeric (.int (id x)) (.text s)) = [r] := by
  have hn := (sqlEq_id lib (id r) s).1 hid
  have hhit : ∀ x : α, sqlEq lib .numeric (.int (id x)) (.text s) = decide (id x = id r) := by
    intro x
    rw [Bool.eq_iff_iff, sqlEq_id, hn]; simp [eq_comm]
  simp only [hhit]
  exact filter_id_eq id rows r hnd hmem

theorem putProperty_eq (lib : Lib) (now : String) (req : Request) (user : Claims) (w : State)
    (r : PropertyRow)
    (hready : w.ready = true)
    (hnd : (w.db.properties.rows.map PropertyRow.id).Nodup)
    (hmem : r ∈ w.db.properties.rows)
    (hid : sqlEq lib .numeric (.int r.id) (.text req.id) = true)
    (hst : r.Stored lib) :
    putProperty lib now req user w =
      (done 200 (some "Property updated successfully") .none,
        { w with
          db := { w.db with properties := { w.db.properties with
            rows := w.db.properties.rows.map
              (fun x => if x.id = r.id then r.merged lib now req.body else x) } }
          changes := 0
          file := some { w.db with properties := { w.db.properties with
            rows := w.db.properties.rows.map
              (fun x => if x.id = r.id then r.merged lib now req.body else x) } } }) := by
  simp only [putProperty, get_ready _ hready, selectPropertyById, bindValue_str,
    filter_hit_eq lib PropertyRow.id _ r req.id hnd hmem hid, List.head?_cons,
    run_ready _ hready, updateProperty_ok lib now req.body req.id w.db r hnd hmem hid hst]


/-! ### `PUT /materials/:id` -/

theorem material_set_eq_merged (lib : Lib) (now : String) (b : String → JsVal)
    (r : MaterialRow) (hst : r.Stored lib) :
    r.set lib now
      (if (b "name").truthy then bound (b "name") else r.name.asRead)
      (if b "description" = .undefined then r.description.asRead else bound (b "description"))
      (if (b "category").truthy then bound (b "category") else r.category.asRead)
      (if b "price_min" = .undefined then r.price_min.asRead else bound (b "price_min"))
      (if b "price_max" = .undefined then r.price_max.asRead else bound (b "price_max"))
      (if b "image_url" = .undefined then r.image_url.asRead else bound (b "image_url"))
      (if b "in_stock" = .undefined then r.in_stock.asRead
        else .int (if (b "in_stock").truthy then 1 else 0))
      (if (b "status").truthy then bound (b "status") else r.status.asRead)
    = r.merged lib now b := by
  obtain ⟨⟨h1, h2, h3, h4, h5, h6, h7, h8⟩, -⟩ := hst
  simp only [asRead_text lib _ h1, asRead_text lib _ h2, asRead_text lib _ h3,
    asRead_text lib _ h6, asRead_text lib _ h8]
  simp only [MaterialRow.set, MaterialRow.merged, stored_kept, stored_kept_not, flag_kept,
    h1, h2, h3, h6, h8, asRead_kept lib _ _ h4, asRead_kept lib _ _ h5, asRead_kept lib _ _ h7]

theorem material_merged_notnull (lib : Lib) (now : String) (b : String → JsVal)
    (r : MaterialRow) (hst : r.Stored lib) :
    ¬ ((r.merged lib now b).name = .null ∨ (r.merged lib now b).category = .null) := by
  obtain ⟨-, n1, n2⟩ := hst
  simp only [MaterialRow.merged, not_or]
  exact ⟨stored_ne_null lib _ _ _ n1, stored_ne_null lib _ _ _ n2⟩

theorem updateMaterial_ok (lib : Lib) (now : String) (b : String → JsVal) (id : String) (db : Db)
    (r : MaterialRow)
    (hnd : (db.materials.rows.map MaterialRow.id).Nodup)
    (hmem : r ∈ db.materials.rows)
    (hid : sqlEq lib .numeric (.int r.id) (.text id) = true)
    (hst : r.Stored lib) :
    updateMaterial lib now
      [ (b "name").or (toJs r.name),
        (b "description").orUndef (toJs r.description),
        (b "category").or (toJs r.category),
        (b "price_min").orUndef (toJs r.price_min),
        (b "price_max").orUndef (toJs r.price_max),
        (b "image_url").orUndef (toJs r.image_url),
        if b "in_stock" = .undefined then toJs r.in_stock else (b "in_stock").flag,
        (b "status").or (toJs r.status),
        .str id ] db =
      .ok ({ db with materials := { db.materials with
        rows := db.materials.rows.map
          (fun x => if x.id = r.id then r.merged lib now b else x) } }, 1) := by
  have hn := (sqlEq_id lib r.id id).1 hid
  have hhit : ∀ x : MaterialRow, sqlEq lib .numeric (.int x.id) (.text id) = decide (x.id = r.id) := by
    intro x
    rw [Bool.eq_iff_iff, sqlEq_id, hn]; simp [eq_comm]
  have hfil : db.materials.rows.filter (fun x => decide (x.id = r.id)) = [r] :=
    filter_id_eq MaterialRow.id _ r hnd hmem
  have huniq : ∀ x ∈ db.materials.rows, x.id = r.id → x = r :=
    fun x hx he => List.inj_on_of_nodup_map hnd hx hmem he
  simp only [updateMaterial, bindAll, bindValue_or, bindValue_orUndef,
    bindValue_ite_flag, bindValue_str, hhit, hfil]
  rw [if_neg]
  · congr 2
    congr 2
    apply List.map_congr_left
    intro x hx
    by_cases he : x.id = r.id
    · rw [if_pos (by simpa using he), if_pos he, huniq x hx he]
      exact material_set_eq_merged lib now b r hst
    · rw [if_neg (by simpa using he), if_neg he]
  · rw [Bool.not_eq_true, List.any_eq_false]
    intro x hx
    by_cases he : x.id = r.id
    · rw [huniq x hx he]
      simp only [material_set_eq_merged lib now b r hst]
      simpa using material_merged_notnull lib now b r hst
    · simp [he]

theorem putMaterial_eq (lib : Lib) (now : String) (req : Request) (user : Claims) (w : State)
    (r : MaterialRow)
    (hready : w.ready = true)
    (hnd : (w.db.materials.rows.map MaterialRow.id).Nodup)
    (hmem : r ∈ w.db.materials.rows)
    (hid : sqlEq lib .numeric (.int r.id) (.text req.id) = true)
    (hst : r.Stored lib) :
    putMaterial lib now req user w =
      (done 200 (some "Material updated successfully") .none,
        { w with
          db := { w.db with materials := { w.db.materials with
            rows := w.db.materials.rows.map
              (fun x => if x.id = r.id then r.merged lib now req.body else x) } }
          changes := 0
          file := some { w.db with materials := { w.db.materials with
            rows := w.db.materials.rows.map
              (fun x => if x.id = r.id then r.merged lib now req.body else x) } } }) := by
  simp only [putMaterial, get_ready _ hready, selectMaterialById, bindValue_str,
    filter_hit_eq lib MaterialRow.id _ r req.id hnd hmem hid, List.head?_cons,
    run_ready _ hready, updateMaterial_ok lib now req.body req.id w.db r hnd hmem hid hst]

/-! ## The claims -/

/-- C1, as stated, fails: a register request whose email is the administrator's
but which carries no password is answered 400 'Email, password, and name are
required', not 'Email already registered'. -/
theorem register_duplicate_without_password :
    (∃ u ∈ testState.db.users.rows, u.email = .text (testLib.toLowerCase "admin@terracore.com")) ∧
    register testLib "2024-02-01 00:00:00"
      { emptyRequest with body := fields [("email", .str "admin@terracore.com"), ("name", .str "A")] }
      testState =
      (fail 400 "Email, password, and name are required", testState) ∧
    fail 400 "Email, password, and name are required" ≠ fail 400 "Email already registered" := by
  refine ⟨⟨adminRow, by decide, by decide⟩, by rfl, by decide⟩

/-- C1, amended: on an initialised store, a register request with a non-empty
email, password and name whose email, lower-cased, equals the email of an
existing users row is answered 400 'Email already registered', and the state
(the users table with it) is left as it was. -/
theorem register_duplicate_email (lib : Lib) (now : String) (req : Request) (w : State)
    (e : String) (u : UserRow)
    (hready : w.ready = true)
    (hemail : req.body "email" = .str e) (hne : e ≠ "")
    (hpassword : (req.body "password").truthy = true)
    (hname : (req.body "name").truthy = true)
    (hmem : u ∈ w.db.users.rows)
    (hu : u.email = .text (lib.toLowerCase e)) :
    register lib now req w = (fail 400 "Email already registered", w) := by
  have hf : (w.db.users.rows.filter
      (fun u => sqlEq lib .text u.email (.text (lib.toLowerCase e)))).head? ≠ none := by
    intro h
    rw [List.head?_eq_none_iff, List.filter_eq_nil_iff] at h
    exact h u hmem ((sqlEq_text lib _ _).2 hu)
  have ht : (JsVal.str e).truthy = true := (truthy_str e).2 hne
  simp only [register, hemail, hpassword, hname, ht, toLowerCase, get_ready _ hready,
    selectUsersByEmail, bindValue]
  cases hh : (w.db.users.rows.filter
      (fun u => sqlEq lib .text u.email (.text (lib.toLowerCase e)))).head? with
  | none => exact absurd hh hf
  | some v => simp

/-- Witness of C1 amended: the administrator's address in another case. -/
theorem register_duplicate_email_witness :
    register testLib "2024-02-01 00:00:00"
      { emptyRequest with
        body := fields [("email", .str "Admin@TerraCore.com"), ("password", .str "pw123456"),
          ("name", .str "A")] }
      testState = (fail 400 "Email already registered", testState) :=
  register_duplicate_email testLib _ _ testState "Admin@TerraCore.com" adminRow
    (by decide) (by rfl) (by decide) (by decide) (by decide) (by decide) (by decide)

theorem filter_email_eq (lib : Lib) (rows : List UserRow) (u : UserRow) (s : String)
    (huniq : rows.Pairwise (fun a b => a.email ≠ b.email)) (hmem : u ∈ rows)
    (hu : u.email = .text s) :
    rows.filter (fun x => sqlEq lib .text x.email (.text s)) = [u] := by
  induction rows with
  | nil => cases hmem
  | cons a as ih =>
    rw [List.pairwise_cons] at huniq
    rcases List.mem_cons.1 hmem with rfl | h
    · have : as.filter (fun x => sqlEq lib .text x.email (.text s)) = [] := by
        rw [List.filter_eq_nil_iff]
        intro x hx hxe
        exact huniq.1 x hx (hu.trans ((sqlEq_text lib _ _).1 hxe).symm)
      simp [List.filter_cons, this, (sqlEq_text lib _ _).2 hu]
    · have hne : ¬ (sqlEq lib .text a.email (.text s) = true) := by
        intro hxe
        exact huniq.1 u h (((sqlEq_text lib _ _).1 hxe).trans hu.symm)
      simp [List.filter_cons, hne, ih huniq.2 h]

/-- C2: on an initialised store whose users have pairwise different emails (the
UNIQUE constraint), a login request with a non-empty email whose lower-cased
form is the email of the row `u`, and a non-empty password that verifies
against `u.password`, is answered 200 with a token signed over exactly
`id = u.id, email = u.email, name = u.name, role = u.role` and a user object
with the same four values; the state is left as it was. -/
theorem login_returns_stored_claims (lib : Lib) (req : Request) (w : State)
    (e p : String) (u : UserRow)
    (hready : w.ready = true)
    (huniq : w.db.users.rows.Pairwise (fun a b => a.email ≠ b.email))
    (hemail : req.body "email" = .str e) (hne : e ≠ "")
    (hpassword : req.body "password" = .str p) (hnp : p ≠ "")
    (hmem : u ∈ w.db.users.rows)
    (hu : u.email = .text (lib.toLowerCase e))
    (hverify : compareSync lib (.str p) (toJs u.password) = .ok true) :
    login lib req w =
      (done 200 (some "Login successful")
        (.auth
          (lib.sign { id := .num u.id, email := toJs u.email, name := toJs u.name,
                      role := toJs u.role })
          { id := .num u.id, email := toJs u.email, name := toJs u.name, role := toJs u.role }),
        w) := by
  have ht : (JsVal.str e).truthy = true := (truthy_str e).2 hne
  have hp : (JsVal.str p).truthy = true := (truthy_str p).2 hnp
  simp only [login, hemail, hpassword, ht, hp, toLowerCase, get_ready _ hready,
    selectUsersByEmail, bindValue, filter_email_eq lib _ u _ huniq hmem hu, List.head?_cons,
    hverify]
  simp

/-- Witness of C2: the seeded administrator logs in. -/
theorem login_returns_stored_claims_witness :
    login testLib
      { emptyRequest with
        body := fields [("email", .str "Admin@TerraCore.com"), ("password", .str "admin123")] }
      testState =
      (done 200 (some "Login successful") (.auth "admin-token" adminClaims), testState) :=
  login_returns_stored_claims testLib _ testState "Admin@TerraCore.com" "admin123" adminRow
    (by decide) (by decide) (by rfl) (by decide) (by rfl) (by decide) (by decide) (by decide)
    (by rfl)

/-- When both passwords are strings: on an initialised store, a login request
with a non-empty email and password whose email matches no users row, and one
whose email matches a row but whose password verifies against no row it
matches, get the same response, 401 with body
`success: false, error: 'Invalid email or password'`, and both leave the state
as it was. -/
theorem login_failures_indistinguishable (lib : Lib) (w : State) (req₁ req₂ : Request)
    (e₁ p₁ e₂ p₂ : String)
    (hready : w.ready = true)
    (hemail₁ : req₁.body "email" = .str e₁) (hne₁ : e₁ ≠ "")
    (hpassword₁ : req₁.body "password" = .str p₁) (hnp₁ : p₁ ≠ "")
    (hemail₂ : req₂.body "email" = .str e₂) (hne₂ : e₂ ≠ "")
    (hpassword₂ : req₂.body "password" = .str p₂) (hnp₂ : p₂ ≠ "")
    (hunknown : ∀ u ∈ w.db.users.rows, u.email ≠ .text (lib.toLowerCase e₁))
    (hknown : ∃ u ∈ w.db.users.rows, u.email = .text (lib.toLowerCase e₂))
    (hwrong : ∀ u ∈ w.db.users.rows, u.email = .text (lib.toLowerCase e₂) →
      compareSync lib (.str p₂) (toJs u.password) = .ok false) :
    login lib req₁ w = (fail 401 "Invalid email or password", w) ∧
    login lib req₂ w = (fail 401 "Invalid email or password", w) ∧
    (login lib req₁ w).1 = (login lib req₂ w).1 := by
  have h₁ : login lib req₁ w = (fail 401 "Invalid email or password", w) := by
    have hfil : w.db.users.rows.filter
        (fun u => sqlEq lib .text u.email (.text (lib.toLowerCase e₁))) = [] := by
      rw [List.filter_eq_nil_iff]
      intro u hu hxe
      exact hunknown u hu ((sqlEq_text lib _ _).1 hxe)
    simp only [login, hemail₁, hpassword₁, (truthy_str e₁).2 hne₁, (truthy_str p₁).2 hnp₁,
      toLowerCase, get_ready _ hready, selectUsersByEmail, bindValue, hfil]
    simp
  have h₂ : login lib req₂ w = (fail 401 "Invalid email or password", w) := by
    obtain ⟨u, hu, hue⟩ := hknown
    cases hh : (w.db.users.rows.filter
        (fun u => sqlEq lib .text u.email (.text (lib.toLowerCase e₂)))).head? with
    | none =>
      rw [List.head?_eq_none_iff, List.filter_eq_nil_iff] at hh
      exact absurd ((sqlEq_text lib _ _).2 hue) (hh u hu)
    | some v =>
      have hv := List.mem_of_mem_head? hh
      rw [List.mem_filter, sqlEq_text] at hv
      simp only [login, hemail₂, hpassword₂, (truthy_str e₂).2 hne₂, (truthy_str p₂).2 hnp₂,
        toLowerCase, get_ready _ hready, selectUsersByEmail, bindValue, hh, hwrong v hv.1 hv.2]
      simp
  exact ⟨h₁, h₂, by rw [h₁, h₂]⟩

/-- An instance with string passwords: an unknown address, and the
administrator's address with a wrong password. -/
theorem login_failures_indistinguishable_witness :
    (login testLib
      { emptyRequest with
        body := fields [("email", .str "nobody@example.com"), ("password", .str "admin123")] }
      testState).1 =
    (login testLib
      { emptyRequest with
        body := fields [("email", .str "admin@terracore.com"), ("password", .str "wrong")] }
      testState).1 :=
  (login_failures_indistinguishable testLib testState _ _ "nobody@example.com" "admin123"
    "admin@terracore.com" "wrong" (by decide) (by rfl) (by decide) (by rfl) (by decide)
    (by rfl) (by decide) (by rfl) (by decide) (by decide) (by decide)
    (by
      intro u hu _
      have hu1 : u = adminRow := by simpa [testState, testDb] using hu
      subst hu1
      rfl)).2.2

theorem login_password_not_string (lib : Lib) (w : State) (req : Request) (e : String)
    (hready : w.ready = true)
    (hemail : req.body "email" = .str e) (hne : e ≠ "")
    (htruthy : (req.body "password").truthy = true)
    (hns : ∀ s, req.body "password" ≠ .str s) :
    ((∀ u ∈ w.db.users.rows, u.email ≠ .text (lib.toLowerCase e)) →
      login lib req w = (fail 401 "Invalid email or password", w)) ∧
    ((∃ u ∈ w.db.users.rows, u.email = .text (lib.toLowerCase e)) →
      login lib req w = (fail 500 "Failed to log in", w)) := by
  have hcmp : ∀ h : JsVal, compareSync lib (req.body "password") h = .error "Illegal arguments" := by
    intro h
    cases hp : req.body "password" with
    | str s => exact absurd hp (hns s)
    | undefined => rfl
    | null => rfl
    | bool b => rfl
    | num n => rfl
    | arr xs => rfl
    | real x => rfl
  constructor
  · intro hunknown
    have hfil : w.db.users.rows.filter
        (fun u => sqlEq lib .text u.email (.text (lib.toLowerCase e))) = [] := by
      rw [List.filter_eq_nil_iff]
      intro u hu hxe
      exact hunknown u hu ((sqlEq_text lib _ _).1 hxe)
    simp only [login, hemail, htruthy, (truthy_str e).2 hne,
      toLowerCase, get_ready _ hready, selectUsersByEmail, bindValue, hfil]
    simp
  · rintro ⟨u, hu, hue⟩
    cases hh : (w.db.users.rows.filter
        (fun u => sqlEq lib .text u.email (.text (lib.toLowerCase e)))).head? with
    | none =>
      rw [List.head?_eq_none_iff, List.filter_eq_nil_iff] at hh
      exact absurd ((sqlEq_text lib _ _).2 hue) (hh u hu)
    | some v =>
      simp only [login, hemail, htruthy, (truthy_str e).2 hne,
        toLowerCase, get_ready _ hready, selectUsersByEmail, bindValue, hh, hcmp]
      simp

/-- C3 (the code departs from the claim): a login whose password is not empty
but is not a string (a number, or an array) is answered 401 'Invalid email or
password' when the address matches no users row and 500 'Failed to log in'
when it matches one: `bcrypt.compareSync` throws on such a password and the
handler's `catch` answers. The two failing logins of the claim are told apart,
which tells whether the address is registered; the store is unchanged by
both. -/
theorem login_non_string_password_tells_address :
    adminRow ∈ testState.db.users.rows ∧
    adminRow.email = .text "admin@terracore.com" ∧
    (∀ u ∈ testState.db.users.rows, u.email ≠ .text "nobody@example.com") ∧
    (∀ n : Nat,
      login testLib
        { emptyRequest with
          body := fields [("email", .str "nobody@example.com"), ("password", .num (n + 1))] }
        testState = (fail 401 "Invalid email or password", testState) ∧
      login testLib
        { emptyRequest with
          body := fields [("email", .str "admin@terracore.com"), ("password", .num (n + 1))] }
        testState = (fail 500 "Failed to log in", testState)) ∧
    (∀ xs : List String,
      login testLib
        { emptyRequest with
          body := fields [("email", .str "nobody@example.com"), ("password", .arr xs)] }
        testState = (fail 401 "Invalid email or password", testState) ∧
      login testLib
        { emptyRequest with
          body := fields [("email", .str "admin@terracore.com"), ("password", .arr xs)] }
        testState = (fail 500 "Failed to log in", testState)) ∧
    (fail 401 "Invalid email or password" : Response) ≠ fail 500 "Failed to log in" := by
  have hunknown : ∀ u ∈ testState.db.users.rows,
      u.email ≠ .text (testLib.toLowerCase "nobody@example.com") := by decide
  have hknown : ∃ u ∈ testState.db.users.rows,
      u.email = .text (testLib.toLowerCase "admin@terracore.com") :=
    ⟨adminRow, by decide, by decide⟩
  refine ⟨by decide, rfl, by decide, fun n => ⟨?_, ?_⟩, fun xs => ⟨?_, ?_⟩, by decide⟩
  · exact (login_password_not_string testLib testState _ "nobody@example.com" rfl rfl
      (by decide) (by
        show (JsVal.num ((n : Int) + 1)).truthy = true
        simp only [JsVal.truthy, bne_iff_ne, ne_eq]
        omega) (fun s h => by cases h)).1 hunknown
  · exact (login_password_not_string testLib testState _ "admin@terracore.com" rfl rfl
      (by decide) (by
        show (JsVal.num ((n : Int) + 1)).truthy = true
        simp only [JsVal.truthy, bne_iff_ne, ne_eq]
        omega) (fun s h => by cases h)).2 hknown
  · exact (login_password_not_string testLib testState _ "nobody@example.com" rfl rfl
      (by decide) (by rfl) (fun s h => by cases h)).1 hunknown
  · exact (login_password_not_string testLib testState _ "admin@terracore.com" rfl rfl
      (by decide) (by rfl) (fun s h => by cases h)).2 hknown

/-- C4: on each of the six write routes of properties and materials,
`authenticateToken` answers 401 'Access token required' when no token can be
taken from the Authorization header and 403 'Invalid token' for every token
that fails verification, in both cases without running the handler and leaving
the state as it was; for a token that verifies, the route is the handler run
with `req.user` set to the decoded claims. -/
theorem authenticateToken_outcomes (lib : Lib) (now : String) (route : WriteRoute)
    (req : Request) (w : State) :
    (extractToken req.authorization = none →
      route.serve lib now req w = (fail 401 "Access token required", w)) ∧
    (∀ token, extractToken req.authorization = some token → lib.verify token = none →
      route.serve lib now req w = (fail 403 "Invalid token", w)) ∧
    (∀ token user, extractToken req.authorization = some token →
      lib.verify token = some user →
      route.serve lib now req w = route.handler lib now req user w) := by
  refine ⟨?_, ?_, ?_⟩
  · intro h
    simp only [WriteRoute.serve, authenticateToken, h]
  · intro token h hv
    simp only [WriteRoute.serve, authenticateToken, h, hv]
  · intro token user h hv
    simp only [WriteRoute.serve, authenticateToken, h, hv]

/-- Witness of C4: `DELETE /properties/1` with no header, with a token that
does not verify, and with the administrator's token. -/
theorem authenticateToken_outcomes_witness :
    WriteRoute.serve testLib "2024-02-01 00:00:00" .deleteProperty
      { emptyRequest with id := "1" } testState =
      (fail 401 "Access token required", testState) ∧
    WriteRoute.serve testLib "2024-02-01 00:00:00" .deleteProperty
      { emptyRequest with id := "1", authorization := some "Bearer forged" } testState =
      (fail 403 "Invalid token", testState) ∧
    WriteRoute.serve testLib "2024-02-01 00:00:00" .deleteProperty
      { emptyRequest with id := "1", authorization := some "Bearer admin-token" } testState =
      deleteProperty testLib { emptyRequest with id := "1", authorization := some "Bearer admin-token" }
        adminClaims testState :=
  ⟨(authenticateToken_outcomes testLib _ .deleteProperty _ testState).1 (by decide),
   (authenticateToken_outcomes testLib _ .deleteProperty _ testState).2.1 "forged" (by decide)
     (by decide),
   (authenticateToken_outcomes testLib _ .deleteProperty _ testState).2.2 "admin-token" adminClaims
     (by decide) (by decide)⟩

/-- C5 (the code departs from the claim): the contact and newsletter routes
commented "admin only" never read the Authorization header, so each answers a
request exactly as it answers the same request with the header removed; on a
store holding one contact, `GET /contact` and `GET /contact/1` without any
token are answered 200 with the row, `DELETE /contact/1` without any token
removes the row, and `GET /newsletter` and `GET /newsletter/stats` without
any token are answered 200. -/
theorem admin_only_routes_ignore_token :
    (∀ (lib : Lib) (req : Request) (w : State),
      getContacts req w = getContacts { req with authorization := none } w ∧
      getContact lib req w = getContact lib { req with authorization := none } w ∧
      patchContact lib req w = patchContact lib { req with authorization := none } w ∧
      deleteContact lib req w = deleteContact lib { req with authorization := none } w ∧
      getSubscribers req w = getSubscribers { req with authorization := none } w ∧
      getStats req w = getStats { req with authorization := none } w) ∧
    (getContacts emptyRequest testState).1 = done 200 none (.contacts [contactRow]) ∧
    (getContact testLib { emptyRequest with id := "1" } testState).1 =
      done 200 none (.contact contactRow) ∧
    (deleteContact testLib { emptyRequest with id := "1" } testState).2.db.contacts.rows = [] ∧
    (getSubscribers emptyRequest testState).1 = done 200 none (.subscribers []) ∧
    (getStats emptyRequest testState).1 = done 200 none (.stats 0) := by
  refine ⟨fun lib req w => ⟨rfl, rfl, rfl, rfl, rfl, rfl⟩, by rfl, by rfl, by rfl, by rfl, by rfl⟩

/-- C6 (the code departs from the claim): `prepare(sql).run` returns an object
whose only property is `changes`, so `result.lastInsertRowid` is `undefined`
in every create handler. `POST /contact`, `POST /properties` and
`POST /materials` answer 201 with `data.id` undefined although the store gave
the new row the id 2, and `POST /auth/register` answers 201 with a user object
and signed claims whose id is undefined. -/
theorem created_id_is_undefined :
    (∀ r : RunResult, r.lastInsertRowid = .undefined) ∧
    (createContact testLib noMail "2024-02-01 00:00:00"
      { emptyRequest with
        body := fields [("name", .str "Bo"), ("email", .str "bo@example.com"),
          ("message", .str "Hi")] } testState).1 =
      done 201 (some "Message sent successfully!") (.id .undefined) ∧
    ((createContact testLib noMail "2024-02-01 00:00:00"
      { emptyRequest with
        body := fields [("name", .str "Bo"), ("email", .str "bo@example.com"),
          ("message", .str "Hi")] } testState).2.db.contacts.rows.map ContactRow.id) = [1, 2] ∧
    (WriteRoute.serve testLib "2024-02-01 00:00:00" .createProperty
      { emptyRequest with
        authorization := some "Bearer admin-token"
        body := fields [("title", .str "Flat"), ("type", .str "flat"), ("price", .num 5),
          ("location", .str "Lagos")] } testState).1 =
      done 201 (some "Property created successfully") (.id .undefined) ∧
    ((WriteRoute.serve testLib "2024-02-01 00:00:00" .createProperty
      { emptyRequest with
        authorization := some "Bearer admin-token"
        body := fields [("title", .str "Flat"), ("type", .str "flat"), ("price", .num 5),
          ("location", .str "Lagos")] } testState).2.db.properties.rows.map PropertyRow.id) =
      [1, 2] ∧
    (WriteRoute.serve testLib "2024-02-01 00:00:00" .createMaterial
      { emptyRequest with
        authorization := some "Bearer admin-token"
        body := fields [("name", .str "Tiles"), ("category", .str "flooring")] } testState).1 =
      done 201 (some "Material created successfully") (.id .undefined) ∧
    ((WriteRoute.serve testLib "2024-02-01 00:00:00" .createMaterial
      { emptyRequest with
        authorization := some "Bearer admin-token"
        body := fields [("name", .str "Tiles"), ("category", .str "flooring")] }
      testState).2.db.materials.rows.map MaterialRow.id) = [1, 2] ∧
    (register testLib "2024-02-01 00:00:00"
      { emptyRequest with
        body := fields [("email", .str "a@b.com"), ("password", .str "pw123456"),
          ("name", .str "A")] } testState).1 =
      done 201 (some "User registered successfully")
        (.auth "user-token"
          { id := .undefined, email := .str "a@b.com", name := .str "A", role := .str "user" }) ∧
    ((register testLib "2024-02-01 00:00:00"
      { emptyRequest with
        body := fields [("email", .str "a@b.com"), ("password", .str "pw123456"),
          ("name", .str "A")] } testState).2.db.users.rows.map UserRow.id) = [1, 2] := by
  refine ⟨fun _ => rfl, by rfl, by rfl, by rfl, by rfl, by rfl, by rfl, by rfl, by rfl⟩

theorem run_changes (w : State) (stmt : Stmt) (r : RunResult) (w1 : State)
    (h : w.run stmt = .ok (r, w1)) : r.changes = 0 := by
  unfold State.run at h
  split at h
  · cases h
  · split at h
    · cases h
    · simp only [State._saveDatabase, Except.ok.injEq, Prod.mk.injEq] at h
      rw [← h.1]

/-- C9 (the code departs from the claim): `run` reads `getRowsModified()` only
after `_saveDatabase()`, whose export re-opens the database, so
`result.changes` is always 0 and no delete endpoint ever answers 200. With a
valid token `DELETE /properties/1` and `DELETE /materials/1`, and
`DELETE /contact/1`, remove the row with id 1 and answer 404 with the entity's
'not found' error. -/
theorem delete_existing_row_answers_404 :
    (∀ (lib : Lib) (req : Request) (user : Claims) (w : State),
      (deleteProperty lib req user w).1.status ≠ 200 ∧
      (deleteMaterial lib req user w).1.status ≠ 200 ∧
      (deleteContact lib req w).1.status ≠ 200) ∧
    houseRow ∈ testState.db.properties.rows ∧
    WriteRoute.serve testLib "2024-02-01 00:00:00" .deleteProperty
      { emptyRequest with id := "1", authorization := some "Bearer admin-token" } testState =
      (fail 404 "Property not found",
        { testState with
          db := { testDb with properties := { rows := [], seq := 1 } }
          file := some { testDb with properties := { rows := [], seq := 1 } } }) ∧
    doorsRow ∈ testState.db.materials.rows ∧
    WriteRoute.serve testLib "2024-02-01 00:00:00" .deleteMaterial
      { emptyRequest with id := "1", authorization := some "Bearer admin-token" } testState =
      (fail 404 "Material not found",
        { testState with
          db := { testDb with materials := { rows := [], seq := 1 } }
          file := some { testDb with materials := { rows := [], seq := 1 } } }) ∧
    contactRow ∈ testState.db.contacts.rows ∧
    deleteContact testLib { emptyRequest with id := "1" } testState =
      (fail 404 "Contact not found",
        { testState with
          db := { testDb with contacts := { rows := [], seq := 1 } }
          file := some { testDb with contacts := { rows := [], seq := 1 } } }) := by
  refine ⟨fun lib req user w => ⟨?_, ?_, ?_⟩, by decide, by rfl, by decide, by rfl, by decide,
    by rfl⟩
  · unfold deleteProperty
    split
    · simp [fail]
    · next r w1 h => simp [run_changes _ _ _ _ h, fail]
  · unfold deleteMaterial
    split
    · simp [fail]
    · next r w1 h => simp [run_changes _ _ _ _ h, fail]
  · unfold deleteContact
    split
    · simp [fail]
    · next r w1 h => simp [run_changes _ _ _ _ h, fail]

theorem property_merged_of_no_fields (lib : Lib) (now : String) (b : String → JsVal)
    (r : PropertyRow) (hb : ∀ k ∈ propertyFields, b k = .undefined) :
    r.merged lib now b = { r.asRead with updated_at := .text now } := by
  simp [PropertyRow.merged, PropertyRow.asRead, JsVal.truthy,
    hb "title" (by simp [propertyFields]),
    hb "description" (by simp [propertyFields]), hb "type" (by simp [propertyFields]),
    hb "price" (by simp [propertyFields]), hb "location" (by simp [propertyFields]),
    hb "area_sqm" (by simp [propertyFields]), hb "bedrooms" (by simp [propertyFields]),
    hb "bathrooms" (by simp [propertyFields]), hb "features" (by simp [propertyFields]),
    hb "image_url" (by simp [propertyFields]), hb "status" (by simp [propertyFields]),
    hb "featured" (by simp [propertyFields])]

theorem material_merged_of_no_fields (lib : Lib) (now : String) (b : String → JsVal)
    (r : MaterialRow) (hb : ∀ k ∈ materialFields, b k = .undefined) :
    r.merged lib now b = { r.asRead with updated_at := .text now } := by
  simp [MaterialRow.merged, MaterialRow.asRead, JsVal.truthy, hb "name" (by simp [materialFields]),
    hb "description" (by simp [materialFields]), hb "category" (by simp [materialFields]),
    hb "price_min" (by simp [materialFields]), hb "price_max" (by simp [materialFields]),
    hb "image_url" (by simp [materialFields]), hb "in_stock" (by simp [materialFields]),
    hb "status" (by simp [materialFields])]

theorem exact_small (n : Int) (h : n.natAbs < 2 ^ 53) : (SqlVal.int n).Exact := by
  intro m hm
  cases hm
  exact toDouble_small n h

theorem exact_of_not_int (v : SqlVal) (h : ∀ n, v ≠ .int n) : v.Exact :=
  fun n hn => absurd hn (h n)

theorem property_asRead_exact (r : PropertyRow) (h : r.Exact) : r.asRead = r := by
  obtain ⟨h1, h2, h3, h4, h5⟩ := h
  simp only [PropertyRow.asRead, (exact_iff _).1 h1, (exact_iff _).1 h2, (exact_iff _).1 h3,
    (exact_iff _).1 h4, (exact_iff _).1 h5]

theorem material_asRead_exact (r : MaterialRow) (h : r.Exact) : r.asRead = r := by
  obtain ⟨h1, h2, h3⟩ := h
  simp only [MaterialRow.asRead, (exact_iff _).1 h1, (exact_iff _).1 h2, (exact_iff _).1 h3]

/-- C7, as stated, fails: `POST /properties` with `bedrooms` given as the text
`9007199254740993` stores that integer in the INTEGER column; the handler of
`PUT /properties/2` with an empty body reads the row through doubles, so that
`existing.bedrooms` is 9007199254740992, answers 200 and writes that number
back: the column `bedrooms` of the row has changed although the body named no
field. -/
theorem put_without_fields_rounds_bedrooms :
    towerState = (WriteRoute.serve testLib "2024-01-05 00:00:00" .createProperty
      { emptyRequest with authorization := some "Bearer admin-token", body := towerBody }
      testState).2 ∧
    towerState.db.properties.rows.map PropertyRow.id = [1, 2] ∧
    towerState.db.properties.rows.map PropertyRow.bedrooms =
      [.int 4, .int 9007199254740993] ∧
    (∀ k ∈ propertyFields, emptyRequest.body k = .undefined) ∧
    (WriteRoute.serve testLib "2024-02-01 00:00:00" .putProperty
      { emptyRequest with id := "2", authorization := some "Bearer admin-token" }
      towerState).1 = done 200 (some "Property updated successfully") .none ∧
    (WriteRoute.serve testLib "2024-02-01 00:00:00" .putProperty
      { emptyRequest with id := "2", authorization := some "Bearer admin-token" }
      towerState).2.db.properties.rows.map PropertyRow.bedrooms =
      [.int 4, .int 9007199254740992] := by
  refine ⟨by rfl, by rfl, by rfl, fun k _ => rfl, by rfl, by rfl⟩

/-- C7, amended: on an initialised store whose ids are unique (the primary
key) and whose rows are as SQLite keeps them, an authenticated
`PUT /properties/:id` or `PUT /materials/:id` for an existing row whose body
has none of the updatable fields is answered 200 and replaces the row by the
row as the handler read it, with `updated_at` set; every other row and every
other table are as before. When the numeric columns of the row hold values
that a JavaScript number holds exactly, nothing but `updated_at` of the row
changes. Every value that is not an integer is such a value, and so is every
integer below `2 ^ 53` in magnitude; an integer that no double holds is
rewritten as the double nearest to it. -/
theorem put_without_fields_keeps_columns (lib : Lib) (now : String) (req : Request) (w : State)
    (token : String) (user : Claims)
    (hready : w.ready = true)
    (htoken : extractToken req.authorization = some token)
    (hverify : lib.verify token = some user) :
    (∀ r : PropertyRow, (w.db.properties.rows.map PropertyRow.id).Nodup →
      r ∈ w.db.properties.rows → sqlEq lib .numeric (.int r.id) (.text req.id) = true →
      r.Stored lib → (∀ k ∈ propertyFields, req.body k = .undefined) →
      (WriteRoute.serve lib now .putProperty req w).1 =
        done 200 (some "Property updated successfully") .none ∧
      (WriteRoute.serve lib now .putProperty req w).2.db =
        { w.db with properties := { w.db.properties with
          rows := w.db.properties.rows.map
            (fun x => if x.id = r.id then { r.asRead with updated_at := .text now } else x) } } ∧
      (r.Exact →
        (WriteRoute.serve lib now .putProperty req w).2.db =
          { w.db with properties := { w.db.properties with
            rows := w.db.properties.rows.map
              (fun x => if x.id = r.id then { r with updated_at := .text now } else x) } })) ∧
    (∀ r : MaterialRow, (w.db.materials.rows.map MaterialRow.id).Nodup →
      r ∈ w.db.materials.rows → sqlEq lib .numeric (.int r.id) (.text req.id) = true →
      r.Stored lib → (∀ k ∈ materialFields, req.body k = .undefined) →
      (WriteRoute.serve lib now .putMaterial req w).1 =
        done 200 (some "Material updated successfully") .none ∧
      (WriteRoute.serve lib now .putMaterial req w).2.db =
        { w.db with materials := { w.db.materials with
          rows := w.db.materials.rows.map
            (fun x => if x.id = r.id then { r.asRead with updated_at := .text now } else x) } } ∧
      (r.Exact →
        (WriteRoute.serve lib now .putMaterial req w).2.db =
          { w.db with materials := { w.db.materials with
            rows := w.db.materials.rows.map
              (fun x => if x.id = r.id then { r with updated_at := .text now } else x) } })) ∧
    (∀ v : SqlVal, (v.Exact ↔ v.asRead = v) ∧ ((∀ n, v ≠ .int n) → v.Exact)) ∧
    (∀ n : Int, (n.natAbs < 2 ^ 53 → (SqlVal.int n).Exact) ∧
      (SqlVal.int n).asRead = .int (toDouble n)) := by
  refine ⟨?_, ?_, fun v => ⟨exact_iff v, exact_of_not_int v⟩,
    fun n => ⟨exact_small n, asRead_int n⟩⟩
  · intro r hnd hmem hid hst hb
    have h : WriteRoute.serve lib now .putProperty req w =
        (done 200 (some "Property updated successfully") .none,
          (WriteRoute.serve lib now .putProperty req w).2) ∧
        (WriteRoute.serve lib now .putProperty req w).2.db =
          { w.db with properties := { w.db.properties with
            rows := w.db.properties.rows.map
              (fun x => if x.id = r.id then { r.asRead with updated_at := .text now }
                else x) } } := by
      simp only [WriteRoute.serve, authenticateToken, htoken, hverify, WriteRoute.handler,
        putProperty_eq lib now req user w r hready hnd hmem hid hst,
        property_merged_of_no_fields lib now req.body r hb, and_self]
    refine ⟨congrArg Prod.fst h.1, h.2, fun hex => ?_⟩
    rw [h.2, property_asRead_exact r hex]
  · intro r hnd hmem hid hst hb
    have h : WriteRoute.serve lib now .putMaterial req w =
        (done 200 (some "Material updated successfully") .none,
          (WriteRoute.serve lib now .putMaterial req w).2) ∧
        (WriteRoute.serve lib now .putMaterial req w).2.db =
          { w.db with materials := { w.db.materials with
            rows := w.db.materials.rows.map
              (fun x => if x.id = r.id then { r.asRead with updated_at := .text now }
                else x) } } := by
      simp only [WriteRoute.serve, authenticateToken, htoken, hverify, WriteRoute.handler,
        putMaterial_eq lib now req user w r hready hnd hmem hid hst,
        material_merged_of_no_fields lib now req.body r hb, and_self]
    refine ⟨congrArg Prod.fst h.1, h.2, fun hex => ?_⟩
    rw [h.2, material_asRead_exact r hex]

theorem houseRow_stored : houseRow.Stored testLib := by
  simp [PropertyRow.Stored, houseRow, applyAffinity]

theorem doorsRow_stored : doorsRow.Stored testLib := by
  simp [MaterialRow.Stored, doorsRow, applyAffinity]

theorem houseRow_exact : houseRow.Exact :=
  ⟨(exact_iff _).2 (by decide), (exact_iff _).2 (by decide), (exact_iff _).2 (by decide),
    (exact_iff _).2 (by decide), (exact_iff _).2 (by decide)⟩

theorem doorsRow_exact : doorsRow.Exact :=
  ⟨(exact_iff _).2 (by decide), (exact_iff _).2 (by decide), (exact_iff _).2 (by decide)⟩

/-- Witness of C7 amended: `PUT /properties/1` and `PUT /materials/1` with the
administrator's token and an empty body. -/
theorem put_without_fields_keeps_columns_witness :
    (WriteRoute.serve testLib "2024-02-01 00:00:00" .putProperty
      { emptyRequest with id := "1", authorization := some "Bearer admin-token" }
      testState).2.db.properties.rows = [{ houseRow with updated_at := .text "2024-02-01 00:00:00" }] ∧
    (WriteRoute.serve testLib "2024-02-01 00:00:00" .putMaterial
      { emptyRequest with id := "1", authorization := some "Bearer admin-token" }
      testState).2.db.materials.rows = [{ doorsRow with updated_at := .text "2024-02-01 00:00:00" }] := by
  have h := put_without_fields_keeps_columns testLib "2024-02-01 00:00:00"
    { emptyRequest with id := "1", authorization := some "Bearer admin-token" } testState
    "admin-token" adminClaims (by decide) (by decide) (by decide)
  have hp := (h.1 houseRow (by decide) (by decide) (by decide) houseRow_stored
    (by intro k _; rfl)).2.2 houseRow_exact
  have hm := (h.2.1 doorsRow (by decide) (by decide) (by decide) doorsRow_stored
    (by intro k _; rfl)).2.2 doorsRow_exact
  rw [hp, hm]
  exact ⟨by decide, by decide⟩

theorem applyAffinity_idem (lib : Lib) (a : Affinity) (v : SqlVal) :
    applyAffinity lib a (applyAffinity lib a v) = applyAffinity lib a v := by
  cases a <;> cases v <;> try rfl
  all_goals
    next s =>
      cases h : lib.numericText s with
      | none =>
        cases h2 : lib.realText s with
        | none => simp only [applyAffinity, h, h2]
        | some x => simp only [applyAffinity, h, h2]
      | some n => simp only [applyAffinity, h]

theorem kept_idem (lib : Lib) (a : Affinity) (c : Prop) [Decidable c] (v : JsVal) (e : SqlVal)
    (he : applyAffinity lib a e = e) :
    applyAffinity lib a (if c then stored lib a v else e) = if c then stored lib a v else e := by
  split
  · exact applyAffinity_idem lib a _
  · exact he

theorem kept_idem_not (lib : Lib) (a : Affinity) (c : Prop) [Decidable c] (v : JsVal) (e : SqlVal)
    (he : applyAffinity lib a e = e) :
    applyAffinity lib a (if c then e else stored lib a v) = if c then e else stored lib a v := by
  split
  · exact he
  · exact applyAffinity_idem lib a _

/-- The row `PUT /properties/:id` writes is again a row as SQLite keeps it. -/
theorem property_merged_stored (lib : Lib) (now : String) (b : String → JsVal)
    (r : PropertyRow) (hst : r.Stored lib) : (r.merged lib now b).Stored lib := by
  refine ⟨?_, ?_⟩
  · obtain ⟨⟨h1, h2, h3, h4, h5, h6, h7, h8, h9, h10, h11, h12⟩, -⟩ := hst
    simp only [PropertyRow.merged]
    exact ⟨kept_idem lib _ _ _ _ h1, kept_idem_not lib _ _ _ _ h2, kept_idem lib _ _ _ _ h3,
      kept_idem lib _ _ _ _ (asRead_kept lib _ _ h4), kept_idem lib _ _ _ _ h5,
      kept_idem_not lib _ _ _ _ (asRead_kept lib _ _ h6),
      kept_idem_not lib _ _ _ _ (asRead_kept lib _ _ h7),
      kept_idem_not lib _ _ _ _ (asRead_kept lib _ _ h8), text_kept lib _ _ _ h9,
      kept_idem_not lib _ _ _ _ h10, kept_idem lib _ _ _ _ h11,
      flag_kept lib _ _ _ (asRead_kept lib _ _ h12)⟩
  · have h := property_merged_notnull lib now b r hst
    simp only [not_or] at h
    exact h

/-- The row `PUT /materials/:id` writes is again a row as SQLite keeps it. -/
theorem material_merged_stored (lib : Lib) (now : String) (b : String → JsVal)
    (r : MaterialRow) (hst : r.Stored lib) : (r.merged lib now b).Stored lib := by
  refine ⟨?_, ?_⟩
  · obtain ⟨⟨h1, h2, h3, h4, h5, h6, h7, h8⟩, -⟩ := hst
    simp only [MaterialRow.merged]
    exact ⟨kept_idem lib _ _ _ _ h1, kept_idem_not lib _ _ _ _ h2, kept_idem lib _ _ _ _ h3,
      kept_idem_not lib _ _ _ _ (asRead_kept lib _ _ h4),
      kept_idem_not lib _ _ _ _ (asRead_kept lib _ _ h5), kept_idem_not lib _ _ _ _ h6,
      flag_kept lib _ _ _ (asRead_kept lib _ _ h7), kept_idem lib _ _ _ _ h8⟩
  · have h := material_merged_notnull lib now b r hst
    simp only [not_or] at h
    exact h

/-- C8, as stated, fails in two ways. `PUT /properties/1` with body `price: 0`
supplies the value 0 for `price`, and the row keeps its price 45000000. And on
the store in which the row 2 holds the integer 9007199254740993 in `bedrooms`,
`PUT /properties/2` with body `title: 'Sky Tower'` does not supply `bedrooms`,
and the row does not keep it: the handler read it as the double
9007199254740992 and wrote that back. -/
theorem put_price_zero_keeps_price :
    houseRow ∈ testState.db.properties.rows ∧
    fields [("price", .num 0)] "price" = .num 0 ∧
    (WriteRoute.serve testLib "2024-02-01 00:00:00" .putProperty
      { emptyRequest with
        id := "1", authorization := some "Bearer admin-token", body := fields [("price", .num 0)] }
      testState).2.db.properties.rows.map PropertyRow.price = [.int 45000000] ∧
    SqlVal.int 45000000 ≠ stored testLib .numeric (.num 0) ∧
    towerState.db.properties.rows.map PropertyRow.bedrooms =
      [.int 4, .int 9007199254740993] ∧
    fields [("title", .str "Sky Tower")] "bedrooms" = .undefined ∧
    (WriteRoute.serve testLib "2024-02-01 00:00:00" .putProperty
      { emptyRequest with
        id := "2", authorization := some "Bearer admin-token",
        body := fields [("title", .str "Sky Tower")] }
      towerState).2.db.properties.rows.map PropertyRow.bedrooms =
      [.int 4, .int 9007199254740992] := by
  refine ⟨by decide, by rfl, by rfl, by decide, by rfl, by rfl, by rfl⟩

/-- C8, amended: on an initialised store whose ids are unique and whose rows
are as SQLite keeps them, an authenticated `PUT /properties/:id` or
`PUT /materials/:id` for an existing row `r` is answered 200 and replaces `r`
by `r.merged`: `title`, `type`, `price`, `location`, `status` (for materials
`name`, `category`, `status`) hold the body's value when it is truthy and keep
their prior value when it is absent or falsy (0, the empty string, false,
null); `features` holds the JSON text of the body's value when that is truthy
and is kept otherwise; `description`, `area_sqm`, `bedrooms`, `bathrooms`,
`image_url` (for materials `description`, `price_min`, `price_max`,
`image_url`) hold whatever value the body supplies, 0, the empty string, false
and null included, and are kept when the body has none; `featured` and
`in_stock` hold 1 or 0 when the body supplies a value and are kept otherwise.
A numeric column that is kept is kept as the handler read it (`asRead`): with
the same value when a JavaScript number holds that value exactly, as every
value that is not an integer and every integer below `2 ^ 53` in magnitude is,
and else with the double nearest to the integer. Every other row is as
before. -/
theorem put_merges_fields (lib : Lib) (now : String) (req : Request) (w : State)
    (token : String) (user : Claims)
    (hready : w.ready = true)
    (htoken : extractToken req.authorization = some token)
    (hverify : lib.verify token = some user) :
    (∀ r : PropertyRow, (w.db.properties.rows.map PropertyRow.id).Nodup →
      r ∈ w.db.properties.rows → sqlEq lib .numeric (.int r.id) (.text req.id) = true →
      r.Stored lib →
      (WriteRoute.serve lib now .putProperty req w).1 =
        done 200 (some "Property updated successfully") .none ∧
      (WriteRoute.serve lib now .putProperty req w).2.db =
        { w.db with properties := { w.db.properties with
          rows := w.db.properties.rows.map
            (fun x => if x.id = r.id then r.merged lib now req.body else x) } }) ∧
    (∀ r : MaterialRow, (w.db.materials.rows.map MaterialRow.id).Nodup →
      r ∈ w.db.materials.rows → sqlEq lib .numeric (.int r.id) (.text req.id) = true →
      r.Stored lib →
      (WriteRoute.serve lib now .putMaterial req w).1 =
        done 200 (some "Material updated successfully") .none ∧
      (WriteRoute.serve lib now .putMaterial req w).2.db =
        { w.db with materials := { w.db.materials with
          rows := w.db.materials.rows.map
            (fun x => if x.id = r.id then r.merged lib now req.body else x) } }) ∧
    (∀ v : SqlVal, (v.Exact → v.asRead = v) ∧ ((∀ n, v ≠ .int n) → v.Exact)) ∧
    (∀ n : Int, (n.natAbs < 2 ^ 53 → (SqlVal.int n).Exact) ∧
      (SqlVal.int n).asRead = .int (toDouble n)) := by
  refine ⟨?_, ?_, fun v => ⟨(exact_iff v).1, exact_of_not_int v⟩,
    fun n => ⟨exact_small n, asRead_int n⟩⟩
  · intro r hnd hmem hid hst
    simp only [WriteRoute.serve, authenticateToken, htoken, hverify, WriteRoute.handler,
      putProperty_eq lib now req user w r hready hnd hmem hid hst, and_self]
  · intro r hnd hmem hid hst
    simp only [WriteRoute.serve, authenticateToken, htoken, hverify, WriteRoute.handler,
      putMaterial_eq lib now req user w r hready hnd hmem hid hst, and_self]

/-- Witness of C8 amended: `PUT /properties/1` with `area_sqm: 0, title: ''`
stores the area 0 and keeps the title, and with `area_sqm: 12.5` stores that
fraction; `PUT /materials/1` with `in_stock: false, price_min: 0` stores 0 for
both. -/
theorem put_merges_fields_witness :
    (WriteRoute.serve testLib "2024-02-01 00:00:00" .putProperty
      { emptyRequest with
        id := "1", authorization := some "Bearer admin-token",
        body := fields [("area_sqm", .num 0), ("title", .str "")] }
      testState).2.db.properties.rows =
      [{ houseRow with area_sqm := .int 0, updated_at := .text "2024-02-01 00:00:00" }] ∧
    (WriteRoute.serve testLib "2024-02-01 00:00:00" .putProperty
      { emptyRequest with
        id := "1", authorization := some "Bearer admin-token",
        body := fields [("area_sqm", .real twelveAndHalf)] }
      testState).2.db.properties.rows =
      [{ houseRow with
          area_sqm := .real twelveAndHalf, updated_at := .text "2024-02-01 00:00:00" }] ∧
    (WriteRoute.serve testLib "2024-02-01 00:00:00" .putMaterial
      { emptyRequest with
        id := "1", authorization := some "Bearer admin-token",
        body := fields [("in_stock", .bool false), ("price_min", .num 0)] }
      testState).2.db.materials.rows =
      [{ doorsRow with
          price_min := .int 0, in_stock := .int 0, updated_at := .text "2024-02-01 00:00:00" }] := by
  have hp := ((put_merges_fields testLib "2024-02-01 00:00:00"
    { emptyRequest with
      id := "1", authorization := some "Bearer admin-token",
      body := fields [("area_sqm", .num 0), ("title", .str "")] } testState
    "admin-token" adminClaims (by decide) (by decide) (by decide)).1 houseRow (by decide)
    (by decide) (by decide) houseRow_stored).2
  have hq := ((put_merges_fields testLib "2024-02-01 00:00:00"
    { emptyRequest with
      id := "1", authorization := some "Bearer admin-token",
      body := fields [("area_sqm", .real twelveAndHalf)] } testState
    "admin-token" adminClaims (by decide) (by decide) (by decide)).1 houseRow (by decide)
    (by decide) (by decide) houseRow_stored).2
  have hm := ((put_merges_fields testLib "2024-02-01 00:00:00"
    { emptyRequest with
      id := "1", authorization := some "Bearer admin-token",
      body := fields [("in_stock", .bool false), ("price_min", .num 0)] } testState
    "admin-token" adminClaims (by decide) (by decide) (by decide)).2.1 doorsRow (by decide)
    (by decide) (by decide) doorsRow_stored).2
  rw [hp, hq, hm]
  exact ⟨by decide, by decide, by decide⟩

theorem mem_orderByCreatedDesc {α : Type} (f : α → SqlVal) (rows : List α) (x : α) :
    x ∈ orderByCreatedDesc f rows ↔ x ∈ rows :=
  (List.perm_insertionSort _ rows).mem_iff

theorem sqlLimit_subset {α : Type} (n : Int) (rows : List α) (x : α)
    (h : x ∈ sqlLimit n rows) : x ∈ rows := by
  unfold sqlLimit at h
  split at h
  · exact h
  · exact List.mem_of_mem_take h

theorem paginate_subset {α : Type} (lib : Lib) (limit offset : Option String)
    (rows out : List α) (h : paginate lib limit offset rows = .ok out) (x : α) (hx : x ∈ out) :
    x ∈ rows := by
  unfold paginate at h
  split at h
  · cases h; exact hx
  · cases h
  · split at h
    · cases h; exact sqlLimit_subset _ _ _ hx
    · cases h
  · split at h
    · cases h; exact List.mem_of_mem_drop (sqlLimit_subset _ _ _ hx)
    · cases h
    · cases h

theorem parseFeatures_row (lib : Lib) (p : PropertyRow) (v : PropertyView)
    (h : parseFeatures lib p = .ok v) : v.row = p := by
  unfold parseFeatures at h
  split at h
  · split at h
    · cases h; rfl
    · cases h
  · cases h; rfl

theorem mapExcept_parseFeatures_mem (lib : Lib) (rows : List PropertyRow)
    (views : List PropertyView) (h : mapExcept (parseFeatures lib) rows = .ok views)
    (v : PropertyView) (hv : v ∈ views) : v.row ∈ rows := by
  induction rows generalizing views with
  | nil =>
    simp only [mapExcept] at h
    cases h; cases hv
  | cons a as ih =>
    simp only [mapExcept] at h
    split at h
    · cases h
    · next b hb =>
      split at h
      · cases h
      · next bs hbs =>
        cases h
        rcases List.mem_cons.1 hv with rfl | hv
        · rw [parseFeatures_row lib a _ hb]; exact List.mem_cons_self _ _
        · exact List.mem_cons_of_mem _ (ih bs hbs hv)

theorem given_none : given none = none := rfl

theorem given_some {s : String} (h : s ≠ "") : given (some s) = some s := by
  simp [given, h]

/-- The status the list queries filter on: the `status` parameter when it is
given and not empty, `'active'` otherwise. -/
theorem selectProperties_status (lib : Lib) (type status featured limit offset : Option String)
    (db : Db) (out : List PropertyRow)
    (h : selectProperties lib type status featured limit offset db = .ok out)
    (p : PropertyRow) (hp : p ∈ out) :
    p.status = .text ((given status).getD "active") := by
  unfold selectProperties at h
  have hm := paginate_subset lib limit offset _ out h p hp
  rw [mem_orderByCreatedDesc, List.mem_filter] at hm
  have h2 := hm.2
  simp only [Bool.and_eq_true] at h2
  cases hs : given status with
  | none => rw [hs] at h2; exact (sqlEq_text lib _ _).1 h2.1.2
  | some st => rw [hs] at h2; exact (sqlEq_text lib _ _).1 h2.1.2

theorem selectMaterials_status (lib : Lib) (category status inStock limit offset : Option String)
    (db : Db) (out : List MaterialRow)
    (h : selectMaterials lib category status inStock limit offset db = .ok out)
    (m : MaterialRow) (hm : m ∈ out) :
    m.status = .text ((given status).getD "active") := by
  unfold selectMaterials at h
  have hm := paginate_subset lib limit offset _ out h m hm
  rw [mem_orderByCreatedDesc, List.mem_filter] at hm
  have h2 := hm.2
  simp only [Bool.and_eq_true] at h2
  cases hs : given status with
  | none => rw [hs] at h2; exact (sqlEq_text lib _ _).1 h2.1.2
  | some st => rw [hs] at h2; exact (sqlEq_text lib _ _).1 h2.1.2

theorem getProperties_data (lib : Lib) (req : Request) (w : State) (views : List PropertyView)
    (h : (getProperties lib req w).1.data = .properties views) :
    ∃ rows, selectProperties lib (req.query "type") (req.query "status") (req.query "featured")
        (req.query "limit") (req.query "offset") w.db = .ok rows ∧
      mapExcept (parseFeatures lib) rows = .ok views := by
  unfold getProperties at h
  split at h
  · simp [fail] at h
  · next rows hall =>
    split at h
    · simp [fail] at h
    · next vs hvs =>
      simp only [done, Data.properties.injEq] at h
      subst h
      refine ⟨rows, ?_, hvs⟩
      unfold State.all at hall
      split at hall
      · cases hall
      · exact hall

theorem getMaterials_data (lib : Lib) (req : Request) (w : State) (rows : List MaterialRow)
    (h : (getMaterials lib req w).1.data = .materials rows) :
    selectMaterials lib (req.query "category") (req.query "status") (req.query "inStock")
        (req.query "limit") (req.query "offset") w.db = .ok rows := by
  unfold getMaterials at h
  split at h
  · simp [fail] at h
  · next rs hall =>
    simp only [done, Data.materials.injEq] at h
    subst h
    unfold State.all at hall
    split at hall
    · cases hall
    · exact hall

/-- C10: whatever the store and the other parameters, every row that
`GET /properties` or `GET /materials` returns has status `'active'` when the
request has no `status` parameter, and status `s` when the request has
`status=s` with `s` not empty. -/
theorem list_returns_only_requested_status (lib : Lib) (req : Request) (w : State) :
    (∀ views, (getProperties lib req w).1.data = .properties views →
      (req.query "status" = none → ∀ v ∈ views, v.row.status = .text "active") ∧
      (∀ s, req.query "status" = some s → s ≠ "" → ∀ v ∈ views, v.row.status = .text s)) ∧
    (∀ rows, (getMaterials lib req w).1.data = .materials rows →
      (req.query "status" = none → ∀ m ∈ rows, m.status = .text "active") ∧
      (∀ s, req.query "status" = some s → s ≠ "" → ∀ m ∈ rows, m.status = .text s)) := by
  constructor
  · intro views h
    obtain ⟨rows, hsel, hmap⟩ := getProperties_data lib req w views h
    have key : ∀ v ∈ views, v.row.status = .text ((given (req.query "status")).getD "active") :=
      fun v hv => selectProperties_status lib _ _ _ _ _ w.db rows hsel v.row
        (mapExcept_parseFeatures_mem lib rows views hmap v hv)
    constructor
    · intro hs v hv
      have := key v hv
      rwa [hs, given_none] at this
    · intro s hs hne v hv
      have := key v hv
      rwa [hs, given_some hne] at this
  · intro rows h
    have hsel := getMaterials_data lib req w rows h
    have key : ∀ m ∈ rows, m.status = .text ((given (req.query "status")).getD "active") :=
      fun m hm => selectMaterials_status lib _ _ _ _ _ w.db rows hsel m hm
    constructor
    · intro hs m hm
      have := key m hm
      rwa [hs, given_none] at this
    · intro s hs hne m hm
      have := key m hm
      rwa [hs, given_some hne] at this

/-- Witness of C10: on a store with an active and an inactive row in each
table, the lists without a `status` parameter and with `status=inactive`. -/
theorem list_returns_only_requested_status_witness :
    (∀ v ∈ [({ row := houseRow, features := .arr [] } : PropertyView)],
      v.row.status = .text "active") ∧
    (∀ v ∈ [({ row := flatRow, features := .arr [] } : PropertyView)],
      v.row.status = .text "inactive") ∧
    (∀ m ∈ [doorsRow], m.status = .text "active") ∧
    (∀ m ∈ [lightsRow], m.status = .text "inactive") :=
  ⟨((list_returns_only_requested_status testLib emptyRequest mixedState).1
      [{ row := houseRow, features := .arr [] }] (by rfl)).1 (by rfl),
   ((list_returns_only_requested_status testLib
      { emptyRequest with query := params [("status", "inactive")] } mixedState).1
      [{ row := flatRow, features := .arr [] }] (by rfl)).2 "inactive" (by rfl) (by decide),
   ((list_returns_only_requested_status testLib emptyRequest mixedState).2
      [doorsRow] (by rfl)).1 (by rfl),
   ((list_returns_only_requested_status testLib
      { emptyRequest with query := params [("status", "inactive")] } mixedState).2
      [lightsRow] (by rfl)).2 "inactive" (by rfl) (by decide)⟩

/-! ## Further facts about the delete routes -/

theorem filter_not_hit {α : Type} (hit : α → Bool) (rows : List α)
    (h : ∀ x ∈ rows, hit x = false) : rows.filter (fun x => !hit x) = rows := by
  rw [List.filter_eq_self]
  intro x hx
  simp [h x hx]

/-- A delete for an id that matches no row is answered 404 and leaves every
table as it was. -/
theorem delete_unknown_id (lib : Lib) (req : Request) (user : Claims) (w : State)
    (hready : w.ready = true) :
    ((∀ r ∈ w.db.properties.rows, sqlEq lib .numeric (.int r.id) (.text req.id) = false) →
      (deleteProperty lib req user w).1 = fail 404 "Property not found" ∧
      (deleteProperty lib req user w).2.db = w.db) ∧
    ((∀ r ∈ w.db.materials.rows, sqlEq lib .numeric (.int r.id) (.text req.id) = false) →
      (deleteMaterial lib req user w).1 = fail 404 "Material not found" ∧
      (deleteMaterial lib req user w).2.db = w.db) ∧
    ((∀ r ∈ w.db.contacts.rows, sqlEq lib .numeric (.int r.id) (.text req.id) = false) →
      (deleteContact lib req w).1 = fail 404 "Contact not found" ∧
      (deleteContact lib req w).2.db = w.db) := by
  refine ⟨fun h => ?_, fun h => ?_, fun h => ?_⟩
  · simp only [deleteProperty, run_ready _ hready, deletePropertyStmt, bindValue_str,
      filter_not_hit _ _ h]
    exact ⟨rfl, rfl⟩
  · simp only [deleteMaterial, run_ready _ hready, deleteMaterialStmt, bindValue_str,
      filter_not_hit _ _ h]
    exact ⟨rfl, rfl⟩
  · simp only [deleteContact, run_ready _ hready, deleteContactStmt, bindValue_str,
      filter_not_hit _ _ h]
    exact ⟨rfl, rfl⟩

/-! ## Ordering and the list and search queries -/

theorem sqlLe_total (a b : SqlVal) : sqlLe a b = true ∨ sqlLe b a = true := by
  rcases a with _ | i | s | xs | ⟨p, hp⟩ | ⟨_ | _⟩ <;>
    rcases b with _ | j | t | ys | ⟨q, hq⟩ | ⟨_ | _⟩ <;>
    simp only [sqlLe, NonInteger.le, NonInteger.leInt, NonInteger.geInt, decide_eq_true_eq,
      or_true, true_or, or_self, Bool.not_true, Bool.not_false, Bool.or_true, Bool.or_false,
      Bool.true_or, Bool.false_or] <;>
    exact le_total _ _

theorem sqlLe_trans (a b c : SqlVal) (h₁ : sqlLe a b = true) (h₂ : sqlLe b c = true) :
    sqlLe a c = true := by
  rcases a with _ | i | s | xs | ⟨p, hp⟩ | ⟨_ | _⟩ <;>
    rcases b with _ | j | t | ys | ⟨q, hq⟩ | ⟨_ | _⟩ <;>
    rcases c with _ | k | u | zs | ⟨r, hr⟩ | ⟨_ | _⟩ <;>
    simp only [sqlLe, NonInteger.le, NonInteger.leInt, NonInteger.geInt, decide_eq_true_eq,
      Bool.not_true, Bool.not_false, Bool.or_true, Bool.or_false,
      Bool.true_or, Bool.false_or] at * <;>
    first
    | trivial
    | exact le_trans h₁ h₂
    | exact_mod_cast le_trans h₁ h₂
    | exact le_trans (by exact_mod_cast h₁) h₂
    | exact le_trans h₁ (by exact_mod_cast h₂)

theorem orderByCreatedDesc_sorted {α : Type} (f : α → SqlVal) (rows : List α) :
    (orderByCreatedDesc f rows).Pairwise (fun a b => sqlLe (f b) (f a) = true) := by
  haveI : IsTotal α (fun a b => sqlLe (f b) (f a) = true) := ⟨fun a b => sqlLe_total _ _⟩
  haveI : IsTrans α (fun a b => sqlLe (f b) (f a) = true) :=
    ⟨fun a b c h₁ h₂ => sqlLe_trans _ _ _ h₂ h₁⟩
  exact List.sorted_insertionSort (fun a b => sqlLe (f b) (f a) = true) rows

theorem orderByCreatedDesc_perm {α : Type} (f : α → SqlVal) (rows : List α) :
    (orderByCreatedDesc f rows).Perm rows :=
  List.perm_insertionSort _ rows

/-- C11: on an initialised store, `GET /materials?category=c` with `c` not empty
and no other parameter is answered 200 with exactly the materials rows whose
category is `c` and whose status is `'active'` (a permutation of them, so every
such row and no other), ordered by `created_at` descending. -/
theorem materials_by_category (lib : Lib) (req : Request) (w : State) (c : String)
    (hready : w.ready = true)
    (hcategory : req.query "category" = some c) (hc : c ≠ "")
    (hstatus : req.query "status" = none) (hinStock : req.query "inStock" = none)
    (hlimit : req.query "limit" = none) (hoffset : req.query "offset" = none) :
    ∃ rows, getMaterials lib req w = (done 200 none (.materials rows), w) ∧
      rows.Perm (w.db.materials.rows.filter
        (fun m => decide (m.category = .text c ∧ m.status = .text "active"))) ∧
      rows.Pairwise (fun a b => sqlLe b.created_at a.created_at = true) := by
  refine ⟨orderByCreatedDesc MaterialRow.created_at (w.db.materials.rows.filter
    (fun m => decide (m.category = .text c ∧ m.status = .text "active"))), ?_,
    orderByCreatedDesc_perm _ _, orderByCreatedDesc_sorted _ _⟩
  have hf : (fun m : MaterialRow =>
      (sqlEq lib .text m.category (.text c) && sqlEq lib .text m.status (.text "active") && true)) =
      (fun m => decide (m.category = .text c ∧ m.status = .text "active")) := by
    funext m
    rw [Bool.eq_iff_iff]
    simp [sqlEq_text]
  simp only [getMaterials, all_ready _ hready, selectMaterials, hcategory, hstatus, hinStock,
    hlimit, hoffset, given_some hc, given_none, paginate, hf]

/-- Witness of C11: `GET /materials?category=doors` on a store with an active
doors row and an inactive lighting row. -/
theorem materials_by_category_witness :
    ∃ rows, getMaterials testLib { emptyRequest with query := params [("category", "doors")] }
        mixedState = (done 200 none (.materials rows), mixedState) ∧
      rows.Perm (mixedState.db.materials.rows.filter
        (fun m => decide (m.category = .text "doors" ∧ m.status = .text "active"))) ∧
      rows.Pairwise (fun a b => sqlLe b.created_at a.created_at = true) :=
  materials_by_category testLib _ mixedState "doors" (by decide) (by rfl) (by decide) (by rfl)
    (by rfl) (by rfl) (by rfl)

/-- With a limit that `parseInt` reads as an integer `n` which SQLite takes
for one, and an offset that is read as such a `k` or no offset, the materials
list is answered 200 with the filtered rows in order, the first `k` dropped and
at most `n` kept. -/
theorem getMaterials_paginated (lib : Lib) (req : Request) (w : State) (l : String) (n : Int)
    (hready : w.ready = true)
    (hlimit : req.query "limit" = some l) (hl : l ≠ "") (hn : mustBeInt lib l = .ok n) :
    (req.query "offset" = none →
      ∃ rows, selectMaterials lib (req.query "category") (req.query "status")
          (req.query "inStock") none none w.db = .ok rows ∧
        getMaterials lib req w = (done 200 none (.materials (sqlLimit n rows)), w)) ∧
    (∀ o k, req.query "offset" = some o → o ≠ "" → mustBeInt lib o = .ok k →
      ∃ rows, selectMaterials lib (req.query "category") (req.query "status")
          (req.query "inStock") none none w.db = .ok rows ∧
        getMaterials lib req w =
          (done 200 none (.materials (sqlLimit n (rows.drop k.toNat))), w)) := by
  constructor
  · intro ho
    refine ⟨_, rfl, ?_⟩
    simp only [getMaterials, all_ready _ hready, selectMaterials, hlimit, ho, given_some hl,
      given_none, paginate, hn]
  · intro o k ho hone hk
    refine ⟨_, rfl, ?_⟩
    simp only [getMaterials, all_ready _ hready, selectMaterials, hlimit, ho, given_some hl,
      given_some hone, given_none, paginate, hn, hk]

/-- C12 (the code departs from the claim): with an offset and no limit the list
handlers build `... ORDER BY created_at DESC OFFSET ?`, which SQLite does not
accept (`OFFSET` needs a `LIMIT` before it), so the statement fails to prepare
and the request is answered 500, whatever the store:
`GET /properties?offset=1` and `GET /materials?offset=1` never answer 200. -/
theorem offset_without_limit_answers_500 :
    (∀ (lib : Lib) (w : State),
      getProperties lib { emptyRequest with query := params [("offset", "1")] } w =
        (fail 500 "Failed to fetch properties", w) ∧
      getMaterials lib { emptyRequest with query := params [("offset", "1")] } w =
        (fail 500 "Failed to fetch materials", w)) ∧
    (getMaterials testLib { emptyRequest with query := params [("limit", "1"), ("offset", "1")] }
      mixedState).1 = done 200 none (.materials []) ∧
    (getMaterials testLib { emptyRequest with query := params [("limit", "1")] }
      mixedState).1 = done 200 none (.materials [doorsRow]) := by
  refine ⟨fun lib w => ⟨?_, ?_⟩, by rfl, by rfl⟩
  · have hsel : ∀ ty st fe db, selectProperties lib ty st fe
        (params [("offset", "1")] "limit") (params [("offset", "1")] "offset") db =
        .error "SQL error near OFFSET" := by
      intro ty st fe db
      have hl : given (params [("offset", "1")] "limit") = none := by decide
      have ho : given (params [("offset", "1")] "offset") = some "1" := by decide
      simp only [selectProperties, paginate, hl, ho]
    unfold getProperties State.all
    cases w.ready
    · rfl
    · simp only [Bool.not_true, Bool.false_eq_true, if_false]
      rw [hsel]
  · have hsel : ∀ ca st ins db, selectMaterials lib ca st ins
        (params [("offset", "1")] "limit") (params [("offset", "1")] "offset") db =
        .error "SQL error near OFFSET" := by
      intro ca st ins db
      have hl : given (params [("offset", "1")] "limit") = none := by decide
      have ho : given (params [("offset", "1")] "offset") = some "1" := by decide
      simp only [selectMaterials, paginate, hl, ho]
    unfold getMaterials State.all
    cases w.ready
    · rfl
    · simp only [Bool.not_true, Bool.false_eq_true, if_false]
      rw [hsel]

/-! ## Route dispatch -/

/-- C13 (the code departs from the claim): both routers register `GET /:id`
before `GET /search`, so with first-registered-match dispatch a GET request for
`/search` goes to the get-by-id handler with `req.params.id = 'search'`, never
to the search handler; on a store where the search handler would answer 200
with a list, the request is answered 404 'Property not found'
('Material not found'). -/
theorem search_path_goes_to_get_by_id :
    dispatch propertiesRouter .GET ["search"] = some (.getById, some "search") ∧
    dispatch materialsRouter .GET ["search"] = some (.getById, some "search") ∧
    (∀ (lib : Lib) (now : String) (req : Request) (w : State),
      serveProperties lib now .GET ["search"] req w =
        some (getProperty lib { req with id := "search" } w) ∧
      serveMaterials lib now .GET ["search"] req w =
        some (getMaterial lib { req with id := "search" } w)) ∧
    serveProperties testLib "2024-02-01 00:00:00" .GET ["search"] emptyRequest testState =
      some (fail 404 "Property not found", testState) ∧
    serveMaterials testLib "2024-02-01 00:00:00" .GET ["search"] emptyRequest testState =
      some (fail 404 "Material not found", testState) ∧
    searchProperties testLib emptyRequest testState =
      (done 200 none (.properties [{ row := houseRow, features := .arr [] }]), testState) ∧
    searchMaterials testLib emptyRequest testState =
      (done 200 none (.materials [doorsRow]), testState) := by
  refine ⟨by decide, by decide, fun lib now req w => ⟨rfl, rfl⟩, by rfl, by rfl, by rfl, by rfl⟩

/-! ## `LIKE` and the search handler -/

theorem mem_suffixes (v t : List Char) : v ∈ suffixes t ↔ v <:+ t := by
  induction t with
  | nil => simp [suffixes]
  | cons c cs ih => simp [suffixes, ih, List.suffix_cons_iff]

theorem likeMatch_percent (ps t : List Char) :
    likeMatch ('%' :: ps) t = true ↔ ∃ v, v <:+ t ∧ likeMatch ps v = true := by
  simp [likeMatch, mem_suffixes]

theorem likeMatch_percent_last (v : List Char) : likeMatch ['%'] v = true := by
  rw [likeMatch_percent]
  exact ⟨[], List.nil_suffix, rfl⟩

theorem likeMatch_literal (q rest : List Char) (hq : ∀ c ∈ q, c ≠ '%' ∧ c ≠ '_') (t : List Char) :
    likeMatch (q ++ rest) t = true ↔
      ∃ u v, t = u ++ v ∧ u.map Char.toLower = q.map Char.toLower ∧ likeMatch rest v = true := by
  induction q generalizing t with
  | nil =>
    constructor
    · intro h; exact ⟨[], t, rfl, rfl, h⟩
    · rintro ⟨u, v, rfl, hu, hv⟩
      have : u = [] := by simpa using hu
      subst this; exact hv
  | cons a q ih =>
    have ha := hq a (List.mem_cons_self _ _)
    have hq' : ∀ c ∈ q, c ≠ '%' ∧ c ≠ '_' := fun c hc => hq c (List.mem_cons_of_mem _ hc)
    cases t with
    | nil =>
      simp only [List.cons_append, likeMatch, ha.1, if_false]
      constructor
      · intro h; cases h
      · rintro ⟨u, v, huv, hu, -⟩
        have : u = [] := by
          cases u with
          | nil => rfl
          | cons x xs => cases huv
        subst this
        simp at hu
    | cons c cs =>
      simp only [List.cons_append, likeMatch, ha.1, ha.2, if_false, decide_False, Bool.false_or,
        Bool.and_eq_true, decide_eq_true_eq, List.append_eq, ih hq']
      constructor
      · rintro ⟨hac, u, v, rfl, hu, hv⟩
        exact ⟨c :: u, v, rfl, by simp [hu, hac], hv⟩
      · rintro ⟨u, v, huv, hu, hv⟩
        cases u with
        | nil => simp at hu
        | cons x xs =>
          simp only [List.cons_append, List.cons.injEq] at huv
          simp only [List.map_cons, List.cons.injEq] at hu
          obtain ⟨rfl, rfl⟩ := huv
          exact ⟨hu.1.symm, xs, v, rfl, hu.2, hv⟩

/-- For a term without `%` and `_`, `LIKE '%term%'` holds of a text exactly
when the term occurs in it as a piece, the case of ASCII letters not counting. -/
theorem likeMatch_infix (q t : List Char) (hq : ∀ c ∈ q, c ≠ '%' ∧ c ≠ '_') :
    likeMatch ('%' :: (q ++ ['%'])) t = true ↔
      ∃ u, u <:+: t ∧ u.map Char.toLower = q.map Char.toLower := by
  rw [likeMatch_percent]
  constructor
  · rintro ⟨v, ⟨pre, rfl⟩, hv⟩
    obtain ⟨u, v', rfl, hu, -⟩ := (likeMatch_literal q ['%'] hq _).1 hv
    exact ⟨u, ⟨pre, v', by simp⟩, hu⟩
  · rintro ⟨u, ⟨pre, post, rfl⟩, hu⟩
    refine ⟨u ++ post, ⟨pre, by simp⟩, ?_⟩
    exact (likeMatch_literal q ['%'] hq _).2 ⟨u, post, rfl, hu, likeMatch_percent_last _⟩

theorem searchTerm_data (q : String) : (searchTerm q).data = '%' :: (q.data ++ ['%']) := by
  simp [searchTerm, String.data_append]

theorem mapExcept_parseFeatures_rows (lib : Lib) (rows : List PropertyRow)
    (views : List PropertyView) (h : mapExcept (parseFeatures lib) rows = .ok views) :
    views.map PropertyView.row = rows := by
  induction rows generalizing views with
  | nil =>
    simp only [mapExcept] at h
    cases h; rfl
  | cons a as ih =>
    simp only [mapExcept] at h
    split at h
    · cases h
    · next b hb =>
      split at h
      · cases h
      · next bs hbs =>
        cases h
        simp [parseFeatures_row lib a _ hb, ih bs hbs]

theorem mapExcept_parseFeatures_ok (lib : Lib) (rows : List PropertyRow)
    (h : ∀ p ∈ rows, ∃ v, parseFeatures lib p = .ok v) :
    ∃ views, mapExcept (parseFeatures lib) rows = .ok views := by
  induction rows with
  | nil => exact ⟨[], rfl⟩
  | cons a as ih =>
    obtain ⟨v, hv⟩ := h a (List.mem_cons_self _ _)
    obtain ⟨vs, hvs⟩ := ih (fun p hp => h p (List.mem_cons_of_mem _ hp))
    exact ⟨v :: vs, by simp only [mapExcept, hv, hvs]⟩

/-- C14, as stated, fails in two ways. The search term `_` occurs in no title,
description or location of the store, and the search for it returns the row
all the same, because `_` in a `LIKE` pattern stands for any one character.
And the search term `CAFÉ` is the title's word `Café` in capitals, and the
search for it does not return the active row with the title `Café Enugu`,
because `LIKE` takes upper and lower case as equal for the ASCII letters
only. -/
theorem search_underscore_matches_any_text :
    searchProperties testLib { emptyRequest with query := params [("q", "_")] } testState =
      (done 200 none (.properties [{ row := houseRow, features := .arr [] }]), testState) ∧
    houseRow.title = .text "Enugu Residential House" ∧
    houseRow.description = .text "Beautiful 4-bedroom bungalow in a quiet neighborhood" ∧
    houseRow.location = .text "New Haven, Enugu" ∧
    ¬ ("_".data <:+: "Enugu Residential House".data) ∧
    ¬ ("_".data <:+: "Beautiful 4-bedroom bungalow in a quiet neighborhood".data) ∧
    ¬ ("_".data <:+: "New Haven, Enugu".data) ∧
    cafeState.db.properties.rows = [cafeRow] ∧
    cafeRow.status = .text "active" ∧
    cafeRow.title = .text "Café Enugu" ∧
    "Café".data <:+: "Café Enugu".data ∧
    "CAFÉ".data = "Café".data.map capital ∧
    searchProperties testLib { emptyRequest with query := params [("q", "CAFÉ")] } cafeState =
      (done 200 none (.properties []), cafeState) := by
  refine ⟨by rfl, rfl, rfl, rfl, by decide, by decide, by decide, rfl, rfl, rfl, by decide,
    by decide, by rfl⟩

/-- C14, amended: the properties search handler returns exactly the rows with
status `'active'` such that: when `q` is given, `'%q%'` matches title,
description or location under `LIKE`; when `minPrice`/`maxPrice` are given,
price lies within the bounds; when `location` is given, `'%location%'` matches
location under `LIKE`; when `type` is given, type equals it; ordered by
`created_at` descending; and it answers 200 with them on an initialised store
whose features all parse. Under `LIKE` a term without `%` and `_` matches a
text exactly when it occurs in it as a substring, the case of ASCII letters not
counting; in a term `%` stands for any run of characters and `_` for any one
character. The bounds are the numbers `parseFloat` reads, whole or not: a
numeric price lies within them when it is at least `minPrice` and at most
`maxPrice`, no price does when the bound reads as `NaN`, and for an infinite
bound the comparison is that with the infinity. -/
theorem search_properties_by_like (lib : Lib) (req : Request) (w : State)
    (hready : w.ready = true) :
    (∀ views, (searchProperties lib req w).1.data = .properties views →
      (∀ p, p ∈ views.map PropertyView.row ↔
        p ∈ w.db.properties.rows ∧ p.status = .text "active" ∧
        (∀ t, given (req.query "q") = some t →
          sqlLike lib p.title (searchTerm t) = true ∨
          sqlLike lib p.description (searchTerm t) = true ∨
          sqlLike lib p.location (searchTerm t) = true) ∧
        (∀ m, given (req.query "minPrice") = some m → sqlGe p.price (floatParam lib m) = true) ∧
        (∀ m, given (req.query "maxPrice") = some m → sqlLeq p.price (floatParam lib m) = true) ∧
        (∀ l, given (req.query "location") = some l →
          sqlLike lib p.location (searchTerm l) = true) ∧
        (∀ t, given (req.query "type") = some t → p.type = .text t)) ∧
      (views.map PropertyView.row).Pairwise
        (fun a b => sqlLe b.created_at a.created_at = true)) ∧
    ((∀ p ∈ w.db.properties.rows, ∃ v, parseFeatures lib p = .ok v) →
      ∃ views, searchProperties lib req w = (done 200 none (.properties views), w)) ∧
    (∀ q s : String, (∀ c ∈ q.data, c ≠ '%' ∧ c ≠ '_') →
      (sqlLike lib (.text s) (searchTerm q) = true ↔
        ∃ u, u <:+: s.data ∧ u.map Char.toLower = q.data.map Char.toLower)) ∧
    (∀ m : String,
      (∀ b : Int, lib.parseFloat m = .int b → ∀ n : Int,
        (sqlGe (.int n) (floatParam lib m) = true ↔ b ≤ n) ∧
        (sqlLeq (.int n) (floatParam lib m) = true ↔ n ≤ b)) ∧
      (∀ (q : ℚ) (hq : q.den ≠ 1), lib.parseFloat m = .real (.frac q hq) →
        (∀ n : Int,
          (sqlGe (.int n) (floatParam lib m) = true ↔ q ≤ (n : ℚ)) ∧
          (sqlLeq (.int n) (floatParam lib m) = true ↔ (n : ℚ) ≤ q)) ∧
        ∀ (p : ℚ) (hp : p.den ≠ 1),
          (sqlGe (.real (.frac p hp)) (floatParam lib m) = true ↔ q ≤ p) ∧
          (sqlLeq (.real (.frac p hp)) (floatParam lib m) = true ↔ p ≤ q)) ∧
      (∀ negative : Bool, lib.parseFloat m = .real (.inf negative) → ∀ n : Int,
        sqlGe (.int n) (floatParam lib m) = negative ∧
        sqlLeq (.int n) (floatParam lib m) = !negative) ∧
      (lib.parseFloat m = .nan → ∀ v : SqlVal,
        sqlGe v (floatParam lib m) = false ∧ sqlLeq v (floatParam lib m) = false)) := by
  refine ⟨?_, ?_, ?_, ?_⟩
  · intro views h
    simp only [searchProperties, all_ready _ hready, selectPropertiesSearch] at h
    split at h
    · simp [fail] at h
    · next vs hvs =>
      simp only [done, Data.properties.injEq] at h
      subst h
      rw [mapExcept_parseFeatures_rows lib _ _ hvs]
      refine ⟨fun p => ?_, orderByCreatedDesc_sorted _ _⟩
      rw [mem_orderByCreatedDesc, List.mem_filter]
      simp only [Bool.and_eq_true, sqlEq_text, and_assoc]
      refine and_congr_right fun _ => and_congr_right fun _ => ?_
      cases given (req.query "q") <;> cases given (req.query "minPrice") <;>
        cases given (req.query "maxPrice") <;> cases given (req.query "location") <;>
        cases given (req.query "type") <;> simp [sqlEq_text, or_assoc]
  · intro hparse
    obtain ⟨rows, hrows, hsub⟩ : ∃ rows, selectPropertiesSearch lib (req.query "q")
        (req.query "minPrice") (req.query "maxPrice") (req.query "location") (req.query "type")
        w.db = .ok rows ∧ ∀ p ∈ rows, p ∈ w.db.properties.rows :=
      ⟨_, rfl, fun p hp => by
        rw [mem_orderByCreatedDesc] at hp
        exact List.mem_of_mem_filter hp⟩
    obtain ⟨views, hv⟩ := mapExcept_parseFeatures_ok lib rows (fun p hp => hparse p (hsub p hp))
    exact ⟨views, by simp only [searchProperties, all_ready _ hready, hrows, hv]⟩
  · intro q s hq
    simp only [sqlLike, searchTerm_data]
    exact likeMatch_infix q.data s.data hq
  · intro m
    refine ⟨fun b hb n => ?_, fun q hq hm => ⟨fun n => ?_, fun p hp => ?_⟩,
      fun negative hm n => ?_, fun hm v => ?_⟩
    · simp [floatParam, hb, JsNumber.bound, sqlGe, sqlLeq, sqlLe]
    · simp [floatParam, hm, JsNumber.bound, sqlGe, sqlLeq, sqlLe, NonInteger.leInt,
        NonInteger.geInt]
    · simp [floatParam, hm, JsNumber.bound, sqlGe, sqlLeq, sqlLe, NonInteger.le]
    · cases negative <;>
        simp [floatParam, hm, JsNumber.bound, sqlGe, sqlLeq, sqlLe, NonInteger.leInt,
          NonInteger.geInt]
    · simp [floatParam, hm, JsNumber.bound, sqlGe, sqlLeq]

/-- Witness of C14 amended: the search for `enugu` on a store whose one
property is in Enugu; and on a store with a property at 12 and one at 13 the
search with `minPrice=12.5` returns the second and that with `maxPrice=12.5`
the first. -/
theorem search_properties_by_like_witness :
    (∃ views, searchProperties testLib { emptyRequest with query := params [("q", "enugu")] }
      testState = (done 200 none (.properties views), testState)) ∧
    (sqlLike testLib (.text "New Haven, Enugu") (searchTerm "enugu") = true ↔
      ∃ u, u <:+: "New Haven, Enugu".data ∧ u.map Char.toLower = "enugu".data.map Char.toLower) ∧
    searchProperties testLib { emptyRequest with query := params [("minPrice", "12.5")] }
      priceState =
      (done 200 none (.properties [{ row := dearRow, features := .arr [] }]), priceState) ∧
    searchProperties testLib { emptyRequest with query := params [("maxPrice", "12.5")] }
      priceState =
      (done 200 none (.properties [{ row := cheapRow, features := .arr [] }]), priceState) :=
  ⟨(search_properties_by_like testLib _ testState (by decide)).2.1 (by
      intro p hp
      have hp1 : p = houseRow := by simpa [testState, testDb] using hp
      subst hp1
      exact ⟨{ row := houseRow, features := .arr [] }, rfl⟩),
   (search_properties_by_like testLib emptyRequest testState (by decide)).2.2.1 "enugu"
     "New Haven, Enugu" (by decide),
   by rfl, by rfl⟩

/-! ## Newsletter -/

theorem filter_newsletter_email_eq (lib : Lib) (rows : List NewsletterRow) (r : NewsletterRow)
    (s : String) (huniq : rows.Pairwise (fun a b => a.email ≠ b.email)) (hmem : r ∈ rows)
    (hr : r.email = .text s) :
    rows.filter (fun x => sqlEq lib .text x.email (.text s)) = [r] := by
  induction rows with
  | nil => cases hmem
  | cons a as ih =>
    rw [List.pairwise_cons] at huniq
    rcases List.mem_cons.1 hmem with rfl | h
    · have : as.filter (fun x => sqlEq lib .text x.email (.text s)) = [] := by
        rw [List.filter_eq_nil_iff]
        intro x hx hxe
        exact huniq.1 x hx (hr.trans ((sqlEq_text lib _ _).1 hxe).symm)
      simp [List.filter_cons, this, (sqlEq_text lib _ _).2 hr]
    · have hne : ¬ (sqlEq lib .text a.email (.text s) = true) := by
        intro hxe
        exact huniq.1 r h (((sqlEq_text lib _ _).1 hxe).trans hr.symm)
      simp [List.filter_cons, hne, ih huniq.2 h]

/-- C15: on an initialised store whose newsletter emails are pairwise different
(the UNIQUE constraint), for a newsletter row `r` and a subscribe request whose
email is a non-empty string that passes the format check and lower-cases to
`r.email`: when `r.subscribed = 0` the request is answered 200, the table has
the same rows with `subscribed = 1` on `r` and on no other (same id, no row added)
and the other tables are as before; when `r.subscribed = 1` it is answered 400
'Email already subscribed' and the state is left as it was. -/
theorem subscribe_existing_row (lib : Lib) (now : String) (req : Request) (w : State)
    (e : String) (r : NewsletterRow)
    (hready : w.ready = true)
    (huniq : w.db.newsletter.rows.Pairwise (fun a b => a.email ≠ b.email))
    (hemail : req.body "email" = .str e) (hne : e ≠ "")
    (hformat : emailRegexTest (.str e) = true)
    (hmem : r ∈ w.db.newsletter.rows)
    (hr : r.email = .text (lib.toLowerCase e)) :
    (r.subscribed = .int 0 →
      (subscribe lib now req w).1 =
        done 200 (some "Newsletter subscription reactivated!") .none ∧
      (subscribe lib now req w).2.db =
        { w.db with newsletter := { w.db.newsletter with
          rows := w.db.newsletter.rows.map
            (fun x => if x = r then { x with subscribed := .int 1 } else x) } } ∧
      (subscribe lib now req w).2.db.newsletter.rows.length = w.db.newsletter.rows.length) ∧
    (r.subscribed = .int 1 →
      subscribe lib now req w = (fail 400 "Email already subscribed", w)) := by
  have ht : (JsVal.str e).truthy = true := (truthy_str e).2 hne
  have hfil := filter_newsletter_email_eq lib _ r _ huniq hmem hr
  constructor
  · intro hs
    have hmap : w.db.newsletter.rows.map
        (fun x => if sqlEq lib .text x.email (.text (lib.toLowerCase e)) = true then
          { x with subscribed := .int 1 } else x) =
        w.db.newsletter.rows.map
          (fun x => if x = r then { x with subscribed := .int 1 } else x) := by
      apply List.map_congr_left
      intro x hx
      by_cases hxe : x.email = .text (lib.toLowerCase e)
      · have hxr : x = r := by
          have : x ∈ w.db.newsletter.rows.filter
              (fun x => sqlEq lib .text x.email (.text (lib.toLowerCase e))) :=
            List.mem_filter.2 ⟨hx, (sqlEq_text lib _ _).2 hxe⟩
          rw [hfil] at this
          simpa using this
        subst hxr
        simp [(sqlEq_text lib _ _).2 hxe]
      · have h1 : ¬ (sqlEq lib .text x.email (.text (lib.toLowerCase e)) = true) :=
          fun h => hxe ((sqlEq_text lib _ _).1 h)
        have h2 : ¬ (x = r) := fun h => hxe (h ▸ hr)
        rw [if_neg h1, if_neg h2]
    simp only [subscribe, hemail, ht, hformat, toLowerCase, get_ready _ hready,
      selectNewsletterByEmail, bindValue_str, hfil, List.head?_cons, hs, toJs, JsVal.truthy,
      run_ready _ hready, updateSubscribed, hmap]
    simp [hne, toDouble_zero]
  · intro hs
    simp only [subscribe, hemail, ht, hformat, toLowerCase, get_ready _ hready,
      selectNewsletterByEmail, bindValue_str, hfil, List.head?_cons, hs, toJs, JsVal.truthy]
    simp [hne, toDouble_one]

/-- Witness of C15: subscribing the lapsed address again, and the active one. -/
theorem subscribe_existing_row_witness :
    (subscribe testLib "2024-02-01 00:00:00"
      { emptyRequest with body := fields [("email", .str "Old@Example.com")] }
      newsState).2.db.newsletter.rows = [{ lapsedRow with subscribed := .int 1 }, activeRow] ∧
    subscribe testLib "2024-02-01 00:00:00"
      { emptyRequest with body := fields [("email", .str "News@Example.com")] } newsState =
      (fail 400 "Email already subscribed", newsState) := by
  have h1 := ((subscribe_existing_row testLib "2024-02-01 00:00:00"
    { emptyRequest with body := fields [("email", .str "Old@Example.com")] } newsState
    "Old@Example.com" lapsedRow (by decide) (by decide) (by rfl) (by decide) (by decide)
    (by decide) (by decide)).1 (by rfl)).2.1
  have h2 := (subscribe_existing_row testLib "2024-02-01 00:00:00"
    { emptyRequest with body := fields [("email", .str "News@Example.com")] } newsState
    "News@Example.com" activeRow (by decide) (by decide) (by rfl) (by decide) (by decide)
    (by decide) (by decide)).2 (by rfl)
  rw [h1]
  exact ⟨by decide, h2⟩

/-- C16 (the code departs from the claim): `unsubscribe` reads `result.changes`,
which is 0 after every statement, so it never answers 200. For an address that
is in the table the row's flag is set to 0 and no row is deleted, but the
request is answered 404 'Email not found'. -/
theorem unsubscribe_existing_answers_404 :
    (∀ (lib : Lib) (req : Request) (w : State), (unsubscribe lib req w).1.status ≠ 200) ∧
    activeRow ∈ newsState.db.newsletter.rows ∧
    (unsubscribe testLib { emptyRequest with body := fields [("email", .str "News@Example.com")] }
      newsState).1 = fail 404 "Email not found" ∧
    (unsubscribe testLib { emptyRequest with body := fields [("email", .str "News@Example.com")] }
      newsState).2.db.newsletter.rows = [lapsedRow, { activeRow with subscribed := .int 0 }] := by
  refine ⟨fun lib req w => ?_, by decide, by rfl, by rfl⟩
  simp only [unsubscribe]
  split
  · simp [fail]
  · split
    · simp [fail]
    · split
      · simp [fail]
      · next r w1 h => simp [run_changes _ _ _ _ h, fail]

/-! ## Registration and the stored email addresses -/

theorem run_cases (w : State) (stmt : Stmt) :
    (∃ e, w.run stmt = .error e) ∨
    ∃ db1 n, stmt w.db = .ok (db1, n) ∧
      w.run stmt = .ok ({ changes := 0 }, { w with db := db1, changes := 0, file := some db1 }) := by
  unfold State.run
  split
  · exact Or.inl ⟨_, rfl⟩
  · split
    · exact Or.inl ⟨_, rfl⟩
    · next db1 n h => exact Or.inr ⟨db1, n, h, rfl⟩

theorem get_cases {α : Type} (w : State) (q : Db → Except String (List α)) :
    (∃ e, w.get q = .error e) ∨ ∃ rows, q w.db = .ok rows ∧ w.get q = .ok rows.head? := by
  unfold State.get
  split
  · exact Or.inl ⟨_, rfl⟩
  · split
    · exact Or.inl ⟨_, rfl⟩
    · next rows h => exact Or.inr ⟨rows, h, rfl⟩

theorem insertUser_ok (lib : Lib) (now : String) (s h : String) (name role : JsVal) (db db1 : Db)
    (n : Nat) (hins : insertUser lib now (.str s) (.str h) name role db = .ok (db1, n)) :
    ∃ row : UserRow, row.email = .text s ∧ row.password = .text h ∧
      row.name = stored lib .text name ∧ row.role = stored lib .text role ∧
      (∀ u ∈ db.users.rows, u.email ≠ .text s) ∧
      db1 = { db with users := { rows := db.users.rows ++ [row], seq := db.users.seq + 1 } } := by
  unfold insertUser at hins
  simp only [bindValue_str] at hins
  split at hins
  · next e p nm r he hp hn hr =>
    cases he; cases hp
    have hnm : nm = bound name := by
      cases name <;> simp_all [bindValue, bound]
    have hrr : r = bound role := by
      cases role <;> simp_all [bindValue, bound]
    subst hnm hrr
    split at hins
    · cases hins
    · split at hins
      · cases hins
      · next hnull hany =>
        simp only [Except.ok.injEq, Prod.mk.injEq] at hins
        refine ⟨_, rfl, rfl, rfl, rfl, ?_, hins.1.symm⟩
        intro u hu hue
        apply hany
        rw [List.any_eq_true]
        exact ⟨u, hu, by simpa [applyAffinity] using hue⟩
  · cases hins

theorem applyAffinity_text_text (lib : Lib) (s : String) :
    applyAffinity lib .text (.text s) = .text s := rfl

theorem register_new_eq (lib : Lib) (now : String) (req : Request) (w : State) (e p : String)
    (hready : w.ready = true)
    (hemail : req.body "email" = .str e) (hne : e ≠ "")
    (hpassword : req.body "password" = .str p) (hnp : p ≠ "")
    (hname : (req.body "name").truthy = true)
    (hnew : ∀ u ∈ w.db.users.rows, u.email ≠ .text (lib.toLowerCase e)) :
    register lib now req w =
      (done 201 (some "User registered successfully")
        (.auth
          (lib.sign { id := .undefined, email := .str (lib.toLowerCase e), name := req.body "name",
                      role := .str "user" })
          { id := .undefined, email := .str (lib.toLowerCase e), name := req.body "name",
            role := .str "user" }),
        { w with
          db := { w.db with users :=
            { rows := w.db.users.rows ++
                [{ id := w.db.users.seq + 1, email := .text (lib.toLowerCase e),
                   password := .text (lib.hashSync p), name := stored lib .text (req.body "name"),
                   role := .text "user", created_at := .text now, updated_at := .text now }],
              seq := w.db.users.seq + 1 } }
          changes := 0
          file := some { w.db with users :=
            { rows := w.db.users.rows ++
                [{ id := w.db.users.seq + 1, email := .text (lib.toLowerCase e),
                   password := .text (lib.hashSync p), name := stored lib .text (req.body "name"),
                   role := .text "user", created_at := .text now, updated_at := .text now }],
              seq := w.db.users.seq + 1 } } }) := by
  have ht : (JsVal.str e).truthy = true := (truthy_str e).2 hne
  have hp : (JsVal.str p).truthy = true := (truthy_str p).2 hnp
  have hfil : w.db.users.rows.filter
      (fun u => sqlEq lib .text u.email (.text (lib.toLowerCase e))) = [] := by
    rw [List.filter_eq_nil_iff]
    intro u hu hxe
    exact hnew u hu ((sqlEq_text lib _ _).1 hxe)
  have hany : w.db.users.rows.any (fun u => u.email == SqlVal.text (lib.toLowerCase e)) = false := by
    rw [List.any_eq_false]
    intro u hu
    simpa using hnew u hu
  have hbn : bindValue (req.body "name") = .ok (bound (req.body "name")) :=
    bindValue_of_ne (truthy_ne_undefined hname)
  have hnn : applyAffinity lib .text (bound (req.body "name")) ≠ .null :=
    applyAffinity_ne_null lib _ (bound_ne_null hname)
  simp only [register, hemail, hpassword, hname, ht, hp, toLowerCase, hashSync,
    get_ready _ hready, selectUsersByEmail, bindValue_str, hfil, List.head?_nil,
    run_ready _ hready, insertUser, hbn, applyAffinity_text_text, hany, RunResult.lastInsertRowid,
    stored]
  have hex : ¬ ∃ x ∈ w.db.users.rows, x.email = SqlVal.text (lib.toLowerCase e) :=
    fun ⟨x, hx, hxe⟩ => hnew x hx hxe
  simp [hnn, hex]

/-- C18: on an initialised store, a register request with a non-empty email,
password and name whose lower-cased email is not stored yet is answered 201;
exactly one users row is added, its role is `'user'` and its email the
lower-cased request email; the role claim of the token and of the user object
is `'user'`. Nothing in the statement depends on other fields of the body, a
`role` field included. -/
theorem register_creates_user (lib : Lib) (now : String) (req : Request) (w : State)
    (e p : String)
    (hready : w.ready = true)
    (hemail : req.body "email" = .str e) (hne : e ≠ "")
    (hpassword : req.body "password" = .str p) (hnp : p ≠ "")
    (hname : (req.body "name").truthy = true)
    (hnew : ∀ u ∈ w.db.users.rows, u.email ≠ .text (lib.toLowerCase e)) :
    ∃ (row : UserRow) (claims : Claims),
      (register lib now req w).1 =
        done 201 (some "User registered successfully") (.auth (lib.sign claims) claims) ∧
      (register lib now req w).2.db.users.rows = w.db.users.rows ++ [row] ∧
      row.role = .text "user" ∧ row.email = .text (lib.toLowerCase e) ∧
      claims.role = .str "user" ∧ claims.email = .str (lib.toLowerCase e) := by
  rw [register_new_eq lib now req w e p hready hemail hne hpassword hnp hname hnew]
  exact ⟨_, _, rfl, rfl, rfl, rfl, rfl, rfl⟩

/-- Witness of C18: a new address, with a `role` field in the body. -/
theorem register_creates_user_witness :
    ∃ (row : UserRow) (claims : Claims),
      (register testLib "2024-02-01 00:00:00"
        { emptyRequest with
          body := fields [("email", .str "Eve@Example.com"), ("password", .str "pw123456"),
            ("name", .str "Eve"), ("role", .str "admin")] } testState).1 =
        done 201 (some "User registered successfully") (.auth (testLib.sign claims) claims) ∧
      (register testLib "2024-02-01 00:00:00"
        { emptyRequest with
          body := fields [("email", .str "Eve@Example.com"), ("password", .str "pw123456"),
            ("name", .str "Eve"), ("role", .str "admin")] } testState).2.db.users.rows =
        testState.db.users.rows ++ [row] ∧
      row.role = .text "user" ∧ row.email = .text (testLib.toLowerCase "Eve@Example.com") ∧
      claims.role = .str "user" ∧ claims.email = .str (testLib.toLowerCase "Eve@Example.com") :=
  register_creates_user testLib _ _ testState "Eve@Example.com" "pw123456" (by decide) (by rfl)
    (by decide) (by rfl) (by decide) (by decide) (by decide)

theorem register_state (lib : Lib) (now : String) (req : Request) (w : State) :
    (register lib now req w).2 = w ∨
    ∃ (e : String) (row : UserRow), row.email = .text (lib.toLowerCase e) ∧
      (∀ u ∈ w.db.users.rows, u.email ≠ .text (lib.toLowerCase e)) ∧
      (register lib now req w).2.db.users.rows = w.db.users.rows ++ [row] ∧
      (register lib now req w).2.db.newsletter = w.db.newsletter := by
  simp only [register]
  split
  · exact Or.inl rfl
  · cases hemail : req.body "email" with
    | str e =>
      simp only [toLowerCase]
      rcases get_cases w (selectUsersByEmail lib (.str (lib.toLowerCase e))) with
        ⟨er, hg⟩ | ⟨rows, hq, hg⟩
      · rw [hg]; exact Or.inl rfl
      · rw [hg]
        cases hh : rows.head? with
        | some u => exact Or.inl rfl
        | none =>
          have hrows : rows = [] := List.head?_eq_none_iff.1 hh
          simp only [selectUsersByEmail, bindValue_str, Except.ok.injEq] at hq
          rw [hrows, List.filter_eq_nil_iff] at hq
          cases hpw : req.body "password" with
          | str p =>
            simp only [hashSync]
            rcases run_cases w (insertUser lib now (.str (lib.toLowerCase e))
              (.str (lib.hashSync p)) (req.body "name") (.str "user")) with
              ⟨er, hr⟩ | ⟨db1, n, hins, hr⟩
            · rw [hr]; exact Or.inl rfl
            · rw [hr]
              obtain ⟨row, hre, -, -, -, hnew, hdb⟩ := insertUser_ok lib now _ _ _ _ _ _ _ hins
              refine Or.inr ⟨e, row, hre, hnew, ?_, ?_⟩
              · simp only [hdb]
              · simp only [hdb]
          | undefined => exact Or.inl rfl
          | null => exact Or.inl rfl
          | bool b => exact Or.inl rfl
          | num n => exact Or.inl rfl
          | arr xs => exact Or.inl rfl
          | real x => exact Or.inl rfl
    | undefined => exact Or.inl rfl
    | null => exact Or.inl rfl
    | bool b => exact Or.inl rfl
    | num n => exact Or.inl rfl
    | arr xs => exact Or.inl rfl
    | real x => exact Or.inl rfl

theorem insertSubscriber_ok (lib : Lib) (now : String) (s : String) (db db1 : Db) (n : Nat)
    (hins : insertSubscriber lib now (.str s) db = .ok (db1, n)) :
    ∃ row : NewsletterRow, row.email = .text s ∧
      (∀ r ∈ db.newsletter.rows, r.email ≠ .text s) ∧
      db1 = { db with newsletter :=
        { rows := db.newsletter.rows ++ [row], seq := db.newsletter.seq + 1 } } := by
  unfold insertSubscriber at hins
  simp only [bindValue_str, applyAffinity_text_text] at hins
  split at hins
  · cases hins
  · split at hins
    · cases hins
    · next hnull hany =>
      simp only [Except.ok.injEq, Prod.mk.injEq] at hins
      refine ⟨_, rfl, ?_, hins.1.symm⟩
      intro r hr hre
      apply hany
      rw [List.any_eq_true]
      exact ⟨r, hr, by simpa using hre⟩

theorem updateSubscribed_ok (lib : Lib) (flag : Int) (s : String) (db db1 : Db) (n : Nat)
    (h : updateSubscribed lib flag (.str s) db = .ok (db1, n)) :
    db1.users = db.users ∧
    db1.newsletter.rows.map NewsletterRow.email = db.newsletter.rows.map NewsletterRow.email := by
  unfold updateSubscribed at h
  simp only [bindValue_str, Except.ok.injEq, Prod.mk.injEq] at h
  rw [← h.1]
  refine ⟨rfl, ?_⟩
  simp only [List.map_map]
  apply List.map_congr_left
  intro r _
  simp only [Function.comp]
  split <;> rfl

theorem subscribe_state (lib : Lib) (now : String) (req : Request) (w : State) :
    ((subscribe lib now req w).2.db.users = w.db.users ∧
      (subscribe lib now req w).2.db.newsletter.rows.map NewsletterRow.email =
        w.db.newsletter.rows.map NewsletterRow.email) ∨
    ∃ (e : String) (row : NewsletterRow), row.email = .text (lib.toLowerCase e) ∧
      (∀ r ∈ w.db.newsletter.rows, r.email ≠ .text (lib.toLowerCase e)) ∧
      (subscribe lib now req w).2.db.newsletter.rows = w.db.newsletter.rows ++ [row] ∧
      (subscribe lib now req w).2.db.users = w.db.users := by
  simp only [subscribe]
  split
  · exact Or.inl ⟨rfl, rfl⟩
  · split
    · exact Or.inl ⟨rfl, rfl⟩
    · cases hemail : req.body "email" with
      | str e =>
        simp only [toLowerCase]
        rcases get_cases w (selectNewsletterByEmail lib (.str (lib.toLowerCase e))) with
          ⟨er, hg⟩ | ⟨rows, hq, hg⟩
        · rw [hg]; exact Or.inl ⟨rfl, rfl⟩
        · rw [hg]
          cases hh : rows.head? with
          | some ex =>
            simp only
            split
            · exact Or.inl ⟨rfl, rfl⟩
            · rcases run_cases w (updateSubscribed lib 1 (.str (lib.toLowerCase e))) with
                ⟨er, hr⟩ | ⟨db1, n, hupd, hr⟩
              · rw [hr]; exact Or.inl ⟨rfl, rfl⟩
              · rw [hr]
                exact Or.inl (updateSubscribed_ok lib 1 _ _ _ _ hupd)
          | none =>
            simp only
            rcases run_cases w (insertSubscriber lib now (.str (lib.toLowerCase e))) with
              ⟨er, hr⟩ | ⟨db1, n, hins, hr⟩
            · rw [hr]; exact Or.inl ⟨rfl, rfl⟩
            · rw [hr]
              obtain ⟨row, hre, hnew, hdb⟩ := insertSubscriber_ok lib now _ _ _ _ hins
              refine Or.inr ⟨e, row, hre, hnew, ?_, ?_⟩
              · simp only [hdb]
              · simp only [hdb]
      | undefined => exact Or.inl ⟨rfl, rfl⟩
      | null => exact Or.inl ⟨rfl, rfl⟩
      | bool b => exact Or.inl ⟨rfl, rfl⟩
      | num n => exact Or.inl ⟨rfl, rfl⟩
      | arr xs => exact Or.inl ⟨rfl, rfl⟩
      | real x => exact Or.inl ⟨rfl, rfl⟩

theorem emailsNormal_nil (lib : Lib) : EmailsNormal lib [] :=
  ⟨fun _ h => (List.not_mem_nil _ h).elim, List.Pairwise.nil⟩

theorem emailsNormal_append (lib : Lib)
    (hidem : ∀ s, lib.toLowerCase (lib.toLowerCase s) = lib.toLowerCase s)
    (emails : List SqlVal) (e : String) (h : EmailsNormal lib emails)
    (hnew : ∀ v ∈ emails, v ≠ .text (lib.toLowerCase e)) :
    EmailsNormal lib (emails ++ [.text (lib.toLowerCase e)]) := by
  refine ⟨?_, ?_⟩
  · intro v hv
    rcases List.mem_append.1 hv with hv | hv
    · exact h.1 v hv
    · rw [List.mem_singleton] at hv
      exact ⟨_, hv, hidem e⟩
  · rw [List.pairwise_append]
    refine ⟨h.2, List.pairwise_singleton _ _, ?_⟩
    intro a ha b hb s t hs ht
    rw [List.mem_singleton] at hb
    subst hb
    cases ht
    obtain ⟨s', hs', hfix⟩ := h.1 a ha
    rw [hs] at hs'
    cases hs'
    rw [hfix, hidem]
    intro heq
    exact hnew _ ha (by rw [hs, heq])

theorem insertProperty_keeps (lib : Lib) (now : String) (ps : List JsVal) (db db1 : Db) (n : Nat)
    (h : insertProperty lib now ps db = .ok (db1, n)) :
    db1.users = db.users ∧ db1.newsletter = db.newsletter := by
  unfold insertProperty at h
  split at h
  · dsimp only at h
    split at h
    · cases h
    · simp only [Except.ok.injEq, Prod.mk.injEq] at h
      rw [← h.1]; exact ⟨rfl, rfl⟩
  · cases h
  · cases h

theorem insertMaterial_keeps (lib : Lib) (now : String) (ps : List JsVal) (db db1 : Db) (n : Nat)
    (h : insertMaterial lib now ps db = .ok (db1, n)) :
    db1.users = db.users ∧ db1.newsletter = db.newsletter := by
  unfold insertMaterial at h
  split at h
  · dsimp only at h
    split at h
    · cases h
    · simp only [Except.ok.injEq, Prod.mk.injEq] at h
      rw [← h.1]; exact ⟨rfl, rfl⟩
  · cases h
  · cases h

theorem insertTestimonial_keeps (lib : Lib) (now : String) (ps : List JsVal) (db db1 : Db)
    (n : Nat) (h : insertTestimonial lib now ps db = .ok (db1, n)) :
    db1.users = db.users ∧ db1.newsletter = db.newsletter := by
  unfold insertTestimonial at h
  split at h
  · dsimp only at h
    split at h
    · cases h
    · simp only [Except.ok.injEq, Prod.mk.injEq] at h
      rw [← h.1]; exact ⟨rfl, rfl⟩
  · cases h
  · cases h

theorem runAll_keeps (sts : List Stmt)
    (hk : ∀ st ∈ sts, ∀ db db1 n, st db = .ok (db1, n) →
      db1.users = db.users ∧ db1.newsletter = db.newsletter)
    (db db1 : Db) (h : runAll sts db = .ok db1) :
    db1.users = db.users ∧ db1.newsletter = db.newsletter := by
  induction sts generalizing db with
  | nil =>
    simp only [runAll, Except.ok.injEq] at h
    rw [← h]; exact ⟨rfl, rfl⟩
  | cons st sts ih =>
    simp only [runAll] at h
    split at h
    · cases h
    · next db2 n hst =>
      have h1 := hk st (List.mem_cons_self _ _) db db2 n hst
      have h2 := ih (fun s hs => hk s (List.mem_cons_of_mem _ hs)) db2 h
      exact ⟨h2.1.trans h1.1, h2.2.trans h1.2⟩

theorem seedIf_keeps (c : Prop) [Decidable c] (sts : List Stmt)
    (hk : ∀ st ∈ sts, ∀ db db1 n, st db = .ok (db1, n) →
      db1.users = db.users ∧ db1.newsletter = db.newsletter)
    (db db1 : Db) (h : (if c then runAll sts db else .ok db) = .ok db1) :
    db1.users = db.users ∧ db1.newsletter = db.newsletter := by
  split at h
  · exact runAll_keeps sts hk db db1 h
  · simp only [Except.ok.injEq] at h
    rw [← h]; exact ⟨rfl, rfl⟩

theorem seeded_emails (lib : Lib) (now : String) :
    ((seededState lib now).db.users.rows.map UserRow.email = [.text "admin@terracore.com"] ∨
      (seededState lib now).db.users.rows.map UserRow.email = []) ∧
    (seededState lib now).db.newsletter.rows.map NewsletterRow.email = [] := by
  unfold seededState
  cases h : _initTables lib now emptyDb with
  | error e => exact ⟨Or.inr rfl, rfl⟩
  | ok db =>
    simp only
    unfold _initTables at h
    split at h
    · cases h
    · next db1 h1 =>
      split at h
      · cases h
      · next db2 h2 =>
        split at h
        · cases h
        · next db3 h3 =>
          have k3 := seedIf_keeps _ _ (by
            intro st hst
            obtain ⟨ps, -, rfl⟩ := List.mem_map.1 hst
            exact insertTestimonial_keeps lib now ps) db3 db h
          have k2 := seedIf_keeps _ _ (by
            intro st hst
            obtain ⟨ps, -, rfl⟩ := List.mem_map.1 hst
            exact insertMaterial_keeps lib now ps) db2 db3 h3
          have k1 := seedIf_keeps _ _ (by
            intro st hst
            obtain ⟨ps, -, rfl⟩ := List.mem_map.1 hst
            exact insertProperty_keeps lib now ps) db1 db2 h2
          rw [k3.1, k3.2, k2.1, k2.2, k1.1, k1.2]
          simp only [emptyDb, List.filter_nil, List.isEmpty_nil, if_true, runAll] at h1
          split at h1
          · cases h1
          · next db0 n hins =>
            simp only [Except.ok.injEq] at h1
            subst h1
            obtain ⟨row, hre, -, -, -, -, hdb⟩ := insertUser_ok lib now _ _ _ _ _ _ _ hins
            rw [hdb]
            exact ⟨Or.inl (by simp [hre]), rfl⟩

theorem toLower_ofNat_idem (n : Nat) (h₁ : 65 ≤ n) (h₂ : n ≤ 90) :
    (Char.ofNat n).toLower.toLower = (Char.ofNat n).toLower := by
  interval_cases n <;> rfl

theorem toLower_idem (c : Char) : c.toLower.toLower = c.toLower := by
  by_cases h : 65 ≤ c.toNat ∧ c.toNat ≤ 90
  · have := toLower_ofNat_idem c.toNat h.1 h.2
    rwa [Char.ofNat_toNat] at this
  · have hc : c.toLower = c := by
      unfold Char.toLower
      simp only [ge_iff_le]
      rw [if_neg h]
    rw [hc, hc]

theorem testLib_toLowerCase_idem (s : String) :
    testLib.toLowerCase (testLib.toLowerCase s) = testLib.toLowerCase s := by
  have h : Char.toLower ∘ Char.toLower = Char.toLower := funext toLower_idem
  simp [testLib, h]

/-- C17: starting from the seeded store, after any sequence of
`POST /auth/register` and `POST /newsletter/subscribe` requests, every stored
users and newsletter email equals its own lower-cased form and no two rows of
either table have emails that are equal when compared without regard to case.
`toLowerCase` is taken to leave a lower-cased string, and the administrator's
address, as they are. -/
theorem stored_emails_stay_normal (lib : Lib)
    (hidem : ∀ s, lib.toLowerCase (lib.toLowerCase s) = lib.toLowerCase s)
    (hadmin : lib.toLowerCase "admin@terracore.com" = "admin@terracore.com")
    (now : String) (reqs : List EmailRequest) :
    EmailsNormal lib ((applyAll lib (seededState lib now) reqs).db.users.rows.map UserRow.email) ∧
    EmailsNormal lib
      ((applyAll lib (seededState lib now) reqs).db.newsletter.rows.map NewsletterRow.email) := by
  have hstep : ∀ (w : State) (r : EmailRequest),
      EmailsNormal lib (w.db.users.rows.map UserRow.email) ∧
        EmailsNormal lib (w.db.newsletter.rows.map NewsletterRow.email) →
      EmailsNormal lib ((r.apply lib w).db.users.rows.map UserRow.email) ∧
        EmailsNormal lib ((r.apply lib w).db.newsletter.rows.map NewsletterRow.email) := by
    intro w r hw
    cases r with
    | register now' req =>
      simp only [EmailRequest.apply]
      rcases register_state lib now' req w with h | ⟨e, row, hre, hnew, hrows, hnl⟩
      · rw [h]; exact hw
      · rw [hrows, hnl, List.map_append, List.map_singleton, hre]
        refine ⟨emailsNormal_append lib hidem _ e hw.1 ?_, hw.2⟩
        intro v hv
        obtain ⟨u, hu, rfl⟩ := List.mem_map.1 hv
        exact hnew u hu
    | subscribe now' req =>
      simp only [EmailRequest.apply]
      rcases subscribe_state lib now' req w with ⟨hu, hn⟩ | ⟨e, row, hre, hnew, hrows, hu⟩
      · rw [hu, hn]; exact hw
      · rw [hrows, hu, List.map_append, List.map_singleton, hre]
        refine ⟨hw.1, emailsNormal_append lib hidem _ e hw.2 ?_⟩
        intro v hv
        obtain ⟨r, hr, rfl⟩ := List.mem_map.1 hv
        exact hnew r hr
  have hall : ∀ (rs : List EmailRequest) (w : State),
      EmailsNormal lib (w.db.users.rows.map UserRow.email) ∧
        EmailsNormal lib (w.db.newsletter.rows.map NewsletterRow.email) →
      EmailsNormal lib ((applyAll lib w rs).db.users.rows.map UserRow.email) ∧
        EmailsNormal lib ((applyAll lib w rs).db.newsletter.rows.map NewsletterRow.email) := by
    intro rs
    induction rs with
    | nil => intro w hw; exact hw
    | cons r rs ih =>
      intro w hw
      simp only [applyAll, List.foldl_cons]
      exact ih _ (hstep w r hw)
  apply hall
  obtain ⟨hu, hn⟩ := seeded_emails lib now
  rw [hn]
  refine ⟨?_, emailsNormal_nil lib⟩
  rcases hu with hu | hu
  · rw [hu]
    have := emailsNormal_append lib hidem [] "admin@terracore.com" (emailsNormal_nil lib)
      (fun _ h => (List.not_mem_nil _ h).elim)
    rwa [hadmin] at this
  · rw [hu]; exact emailsNormal_nil lib

/-- Witness of C17: a registration, the same address again in capitals, and two
subscriptions of one address. -/
theorem stored_emails_stay_normal_witness :
    EmailsNormal testLib
      ((applyAll testLib (seededState testLib "2024-01-01 00:00:00")
        [ .register "2024-02-01 00:00:00"
            { emptyRequest with
              body := fields [("email", .str "Eve@Example.com"), ("password", .str "pw123456"),
                ("name", .str "Eve")] },
          .register "2024-02-02 00:00:00"
            { emptyRequest with
              body := fields [("email", .str "EVE@EXAMPLE.COM"), ("password", .str "pw123456"),
                ("name", .str "Eve")] },
          .subscribe "2024-02-03 00:00:00"
            { emptyRequest with body := fields [("email", .str "Eve@Example.com")] },
          .subscribe "2024-02-04 00:00:00"
            { emptyRequest with body := fields [("email", .str "eve@example.com")] }
        ]).db.users.rows.map UserRow.email) ∧
    EmailsNormal testLib
      ((applyAll testLib (seededState testLib "2024-01-01 00:00:00")
        [ .register "2024-02-01 00:00:00"
            { emptyRequest with
              body := fields [("email", .str "Eve@Example.com"), ("password", .str "pw123456"),
                ("name", .str "Eve")] },
          .register "2024-02-02 00:00:00"
            { emptyRequest with
              body := fields [("email", .str "EVE@EXAMPLE.COM"), ("password", .str "pw123456"),
                ("name", .str "Eve")] },
          .subscribe "2024-02-03 00:00:00"
            { emptyRequest with body := fields [("email", .str "Eve@Example.com")] },
          .subscribe "2024-02-04 00:00:00"
            { emptyRequest with body := fields [("email", .str "eve@example.com")] }
        ]).db.newsletter.rows.map NewsletterRow.email) :=
  stored_emails_stay_normal testLib testLib_toLowerCase_idem (by decide) _ _

/-! ## The routes of `auth.js` behind a token -/

/-- C19: on an initialised store `GET /auth/users` is answered 200 with the user
list exactly when the request carries a token that verifies and whose role
claim is `'admin'`; a token that verifies with another role gets 403 'Admin
access required', a token that fails verification 403 'Invalid token', and a
request without a token 401 'Access token required'. In the three refusals the
state is left as it was, and so it is in the answer 200. -/
theorem users_list_needs_admin (lib : Lib) (req : Request) (w : State)
    (hready : w.ready = true) :
    (extractToken req.authorization = none →
      getUsers lib req w = (fail 401 "Access token required", w)) ∧
    (∀ token, extractToken req.authorization = some token → lib.verify token = none →
      getUsers lib req w = (fail 403 "Invalid token", w)) ∧
    (∀ token user, extractToken req.authorization = some token →
      lib.verify token = some user → user.role ≠ .str "admin" →
      getUsers lib req w = (fail 403 "Admin access required", w)) ∧
    (∀ token user, extractToken req.authorization = some token →
      lib.verify token = some user → user.role = .str "admin" →
      getUsers lib req w =
        (done 200 none (.users
          ((orderByCreatedDesc UserRow.created_at w.db.users.rows).map UserRow.profile)), w)) ∧
    ((getUsers lib req w).1.status = 200 ↔
      ∃ token user, extractToken req.authorization = some token ∧
        lib.verify token = some user ∧ user.role = .str "admin") := by
  have h401 : extractToken req.authorization = none →
      getUsers lib req w = (fail 401 "Access token required", w) := by
    intro h; simp only [getUsers, h]
  have h403 : ∀ token, extractToken req.authorization = some token → lib.verify token = none →
      getUsers lib req w = (fail 403 "Invalid token", w) := by
    intro token h hv; simp only [getUsers, h, hv]
  have hrole : ∀ token user, extractToken req.authorization = some token →
      lib.verify token = some user → user.role ≠ .str "admin" →
      getUsers lib req w = (fail 403 "Admin access required", w) := by
    intro token user h hv hr; simp only [getUsers, h, hv, hr, ne_eq, not_false_eq_true, if_true]
  have h200 : ∀ token user, extractToken req.authorization = some token →
      lib.verify token = some user → user.role = .str "admin" →
      getUsers lib req w =
        (done 200 none (.users
          ((orderByCreatedDesc UserRow.created_at w.db.users.rows).map UserRow.profile)), w) := by
    intro token user h hv hr
    simp only [getUsers, h, hv, hr, ne_eq, not_true_eq_false, if_false, all_ready _ hready]
  refine ⟨h401, h403, hrole, h200, ?_⟩
  constructor
  · intro hs
    cases ht : extractToken req.authorization with
    | none => rw [h401 ht] at hs; simp [fail] at hs
    | some token =>
      cases hv : lib.verify token with
      | none => rw [h403 token ht hv] at hs; simp [fail] at hs
      | some user =>
        by_cases hr : user.role = .str "admin"
        · exact ⟨token, user, rfl, hv, hr⟩
        · rw [hrole token user ht hv hr] at hs; simp [fail] at hs
  · rintro ⟨token, user, ht, hv, hr⟩
    rw [h200 token user ht hv hr]
    rfl

/-- Witness of C19: the administrator's token, an ordinary user's token, a
forged token and no token. -/
theorem users_list_needs_admin_witness :
    (getUsers testLib { emptyRequest with authorization := some "Bearer admin-token" }
      testState).1 = done 200 none (.users [adminRow.profile]) ∧
    (getUsers testLib { emptyRequest with authorization := some "Bearer user-token" }
      testState).1 = fail 403 "Admin access required" ∧
    (getUsers testLib { emptyRequest with authorization := some "Bearer forged" }
      testState).1 = fail 403 "Invalid token" ∧
    (getUsers testLib emptyRequest testState).1 = fail 401 "Access token required" := by
  have h1 := (users_list_needs_admin testLib
    { emptyRequest with authorization := some "Bearer admin-token" } testState (by decide)).2.2.2.1
    "admin-token" adminClaims (by decide) (by decide) (by decide)
  have h2 := (users_list_needs_admin testLib
    { emptyRequest with authorization := some "Bearer user-token" } testState (by decide)).2.2.1
    "user-token" userClaims (by decide) (by decide) (by decide)
  have h3 := (users_list_needs_admin testLib
    { emptyRequest with authorization := some "Bearer forged" } testState (by decide)).2.1
    "forged" (by decide) (by decide)
  have h4 := (users_list_needs_admin testLib emptyRequest testState (by decide)).1 (by decide)
  rw [h1, h2, h3, h4]
  exact ⟨by rfl, rfl, rfl, rfl⟩

theorem sqlEq_id_param (lib : Lib) (i : Int) (p : SqlVal)
    (h : sqlEq lib .numeric (.int i) p = true) (j : Int) :
    sqlEq lib .numeric (.int j) p = decide (j = i) := by
  unfold sqlEq at h ⊢
  simp only [Bool.and_eq_true, bne_iff_ne, ne_eq, beq_iff_eq] at h
  rw [← h.2, Bool.eq_iff_iff]
  simp

theorem filter_hit_param {α : Type} (lib : Lib) (id : α → Int) (rows : List α) (r : α)
    (p : SqlVal) (hnd : (rows.map id).Nodup) (hmem : r ∈ rows)
    (hid : sqlEq lib .numeric (.int (id r)) p = true) :
    rows.filter (fun x => sqlEq lib .numeric (.int (id x)) p) = [r] := by
  simp only [sqlEq_id_param lib (id r) p hid]
  exact filter_id_eq id rows r hnd hmem

/-- C20: on an initialised store with unique user ids, for a change-password
request with a token that verifies, a users row `r` whose id the token's id
claim matches, and non-empty `currentPassword` and `newPassword`: when
`currentPassword` does not verify against the stored hash, the request is
answered 401 'Current password is incorrect' and the state is left as it was;
when it verifies, the request is answered 200, the row of that user holds the
hash of `newPassword` (which verifies `newPassword`, `compareSync` accepting
what `hashSync` makes) and the time of the change, and every other users row
and every other table are as before. -/
theorem change_password_outcomes (lib : Lib) (now : String) (req : Request) (w : State)
    (token : String) (user : Claims) (cur new : String) (r : UserRow) (p : SqlVal)
    (hready : w.ready = true)
    (hnd : (w.db.users.rows.map UserRow.id).Nodup)
    (htoken : extractToken req.authorization = some token)
    (hverify : lib.verify token = some user)
    (hcur : req.body "currentPassword" = .str cur) (hcne : cur ≠ "")
    (hnew : req.body "newPassword" = .str new) (hnne : new ≠ "")
    (hmem : r ∈ w.db.users.rows)
    (hp : bindValue user.id = .ok p)
    (hid : sqlEq lib .numeric (.int r.id) p = true) :
    (compareSync lib (.str cur) (toJs r.password) = .ok false →
      changePassword lib now req w = (fail 401 "Current password is incorrect", w)) ∧
    (compareSync lib (.str cur) (toJs r.password) = .ok true →
      (changePassword lib now req w).1 = done 200 (some "Password changed successfully") .none ∧
      (changePassword lib now req w).2.db =
        { w.db with users := { w.db.users with
          rows := w.db.users.rows.map (fun x =>
            if x.id = r.id then
              { r with password := .text (lib.hashSync new), updated_at := .text now }
            else x) } } ∧
      ((∀ s, lib.compareSync s (lib.hashSync s) = true) →
        ∀ x ∈ (changePassword lib now req w).2.db.users.rows, x.id = r.id →
          compareSync lib (.str new) (toJs x.password) = .ok true)) := by
  have hc : (JsVal.str cur).truthy = true := (truthy_str cur).2 hcne
  have hn : (JsVal.str new).truthy = true := (truthy_str new).2 hnne
  have hfil := filter_hit_param lib UserRow.id _ r p hnd hmem hid
  have huniq : ∀ x ∈ w.db.users.rows, x.id = r.id → x = r :=
    fun x hx he => List.inj_on_of_nodup_map hnd hx hmem he
  constructor
  · intro hwrong
    simp only [changePassword, htoken, hverify, hcur, hnew, hc, hn, get_ready _ hready,
      selectUserById, hp, hfil, List.head?_cons, hwrong]
    simp
  · intro hright
    have hmap : w.db.users.rows.map (fun u =>
          if sqlEq lib .numeric (.int u.id) p = true then
            { u with password := .text (lib.hashSync new), updated_at := .text now }
          else u) =
        w.db.users.rows.map (fun x =>
          if x.id = r.id then
            { r with password := .text (lib.hashSync new), updated_at := .text now }
          else x) := by
      apply List.map_congr_left
      intro x hx
      rw [sqlEq_id_param lib r.id p hid]
      by_cases he : x.id = r.id
      · simp [he, huniq x hx he]
      · simp [he]
    have hres : changePassword lib now req w =
        (done 200 (some "Password changed successfully") .none,
          { w with
            db := { w.db with users := { w.db.users with
              rows := w.db.users.rows.map (fun x =>
                if x.id = r.id then
                  { r with password := .text (lib.hashSync new), updated_at := .text now }
                else x) } }
            changes := 0
            file := some { w.db with users := { w.db.users with
              rows := w.db.users.rows.map (fun x =>
                if x.id = r.id then
                  { r with password := .text (lib.hashSync new), updated_at := .text now }
                else x) } } }) := by
      simp only [changePassword, htoken, hverify, hcur, hnew, hc, hn, get_ready _ hready,
        selectUserById, hp, hfil, List.head?_cons, hright, hashSync, run_ready _ hready,
        updatePassword, bindValue_str, applyAffinity_text_text, hmap]
      simp
    rw [hres]
    refine ⟨rfl, rfl, ?_⟩
    intro hhash x hx hxid
    simp only [List.mem_map] at hx
    obtain ⟨y, hy, hyx⟩ := hx
    by_cases he : y.id = r.id
    · rw [if_pos he] at hyx
      subst hyx
      simp [toJs, compareSync, hhash]
    · rw [if_neg he] at hyx
      subst hyx
      exact absurd hxid he

/-- Witness of C20: the administrator changes the password, once with a wrong
and once with the right current password. -/
theorem change_password_outcomes_witness :
    changePassword testLib "2024-02-01 00:00:00"
      { emptyRequest with
        authorization := some "Bearer admin-token",
        body := fields [("currentPassword", .str "wrong"), ("newPassword", .str "newpass1")] }
      testState = (fail 401 "Current password is incorrect", testState) ∧
    (changePassword testLib "2024-02-01 00:00:00"
      { emptyRequest with
        authorization := some "Bearer admin-token",
        body := fields [("currentPassword", .str "admin123"), ("newPassword", .str "newpass1")] }
      testState).2.db.users.rows =
      [{ adminRow with
          password := .text "hash:newpass1", updated_at := .text "2024-02-01 00:00:00" }] ∧
    (∀ x ∈ (changePassword testLib "2024-02-01 00:00:00"
      { emptyRequest with
        authorization := some "Bearer admin-token",
        body := fields [("currentPassword", .str "admin123"), ("newPassword", .str "newpass1")] }
      testState).2.db.users.rows, x.id = adminRow.id →
        compareSync testLib (.str "newpass1") (toJs x.password) = .ok true) := by
  have h3 := ((change_password_outcomes testLib "2024-02-01 00:00:00"
    { emptyRequest with
      authorization := some "Bearer admin-token",
      body := fields [("currentPassword", .str "admin123"), ("newPassword", .str "newpass1")] }
    testState "admin-token" adminClaims "admin123" "newpass1" adminRow (.int 1) (by decide)
    (by decide) (by decide) (by decide) (by rfl) (by decide) (by rfl) (by decide) (by decide)
    (by rfl) (by decide)).2 (by rfl)).2.2 (by intro s; simp [testLib])
  have h1 := (change_password_outcomes testLib "2024-02-01 00:00:00"
    { emptyRequest with
      authorization := some "Bearer admin-token",
      body := fields [("currentPassword", .str "wrong"), ("newPassword", .str "newpass1")] }
    testState "admin-token" adminClaims "wrong" "newpass1" adminRow (.int 1) (by decide)
    (by decide) (by decide) (by decide) (by rfl) (by decide) (by rfl) (by decide) (by decide)
    (by rfl) (by decide)).1 (by rfl)
  have h2 := ((change_password_outcomes testLib "2024-02-01 00:00:00"
    { emptyRequest with
      authorization := some "Bearer admin-token",
      body := fields [("currentPassword", .str "admin123"), ("newPassword", .str "newpass1")] }
    testState "admin-token" adminClaims "admin123" "newpass1" adminRow (.int 1) (by decide)
    (by decide) (by decide) (by decide) (by rfl) (by decide) (by rfl) (by decide) (by decide)
    (by rfl) (by decide)).2 (by rfl)).2.1
  refine ⟨h1, ?_, h3⟩
  rw [h2]
  decide

/-! ## The create handlers, `PATCH /contact/:id` and the wrapper before it is ready -/

theorem run_ok (w : State) (h : w.ready = true) (stmt : Stmt) (db1 : Db) (n : Nat)
    (hs : stmt w.db = .ok (db1, n)) :
    w.run stmt = .ok ({ changes := 0 }, w.saved db1) := by
  rw [run_ready w h, hs]; rfl

theorem or_ne_undefined (a b : JsVal) (hb : b ≠ .undefined) : a.or b ≠ .undefined := by
  unfold JsVal.or
  split
  · next h => exact truthy_ne_undefined h
  · exact hb

theorem flag_ne_undefined (a : JsVal) : a.flag ≠ .undefined := by
  unfold JsVal.flag; split <;> simp

theorem insertProperty_ok (lib : Lib) (now : String) (b : String → JsVal) (createdBy : JsVal)
    (db : Db)
    (ht : (b "title").truthy = true) (hy : (b "type").truthy = true)
    (hp : (b "price").truthy = true) (hl : (b "location").truthy = true)
    (hid : createdBy ≠ .undefined) :
    insertProperty lib now
      [ b "title",
        (b "description").or .null,
        b "type",
        b "price",
        b "location",
        (b "area_sqm").or .null,
        (b "bedrooms").or .null,
        (b "bathrooms").or .null,
        if (b "features").truthy then .str (lib.stringify (b "features")) else .null,
        (b "image_url").or .null,
        (b "status").or (.str "active"),
        (b "featured").flag,
        createdBy ] db =
      .ok ({ db with properties :=
        { rows := db.properties.rows ++
            [PropertyRow.created lib now b createdBy (db.properties.seq + 1)],
          seq := db.properties.seq + 1 } }, 1) := by
  have hfe : (if (b "features").truthy then JsVal.str (lib.stringify (b "features")) else .null)
      ≠ .undefined := by split <;> simp
  simp only [insertProperty, bindAll, bindValue_of_ne (truthy_ne_undefined ht),
    bindValue_of_ne (truthy_ne_undefined hy), bindValue_of_ne (truthy_ne_undefined hp),
    bindValue_of_ne (truthy_ne_undefined hl), bindValue_of_ne hid,
    bindValue_of_ne (or_ne_undefined _ _ (by simp : JsVal.null ≠ .undefined)),
    bindValue_of_ne (or_ne_undefined _ _ (by simp : JsVal.str "active" ≠ .undefined)),
    bindValue_of_ne (flag_ne_undefined _), bindValue_of_ne hfe]
  rw [if_neg]
  · rfl
  · have h1 := applyAffinity_ne_null lib .text (bound_ne_null ht)
    have h2 := applyAffinity_ne_null lib .text (bound_ne_null hy)
    have h3 := applyAffinity_ne_null lib .real (bound_ne_null hp)
    have h4 := applyAffinity_ne_null lib .text (bound_ne_null hl)
    simp [h1, h2, h3, h4]

theorem createProperty_ok (lib : Lib) (now : String) (req : Request) (user : Claims) (w : State)
    (hready : w.ready = true)
    (ht : (req.body "title").truthy = true) (hy : (req.body "type").truthy = true)
    (hp : (req.body "price").truthy = true) (hl : (req.body "location").truthy = true)
    (hid : user.id ≠ .undefined) :
    createProperty lib now req user w =
      (done 201 (some "Property created successfully") (.id .undefined),
        w.saved { w.db with properties :=
          { rows := w.db.properties.rows ++
              [PropertyRow.created lib now req.body user.id (w.db.properties.seq + 1)],
            seq := w.db.properties.seq + 1 } }) := by
  simp only [createProperty, ht, hy, hp, hl]
  rw [run_ok w hready _ _ _ (insertProperty_ok lib now req.body user.id w.db ht hy hp hl hid)]
  rfl

theorem insertContact_ok (lib : Lib) (now : String) (b : String → JsVal) (db : Db)
    (hn : (b "name").truthy = true) (he : (b "email").truthy = true)
    (hm : (b "message").truthy = true) :
    insertContact lib now
      [b "name", b "email", (b "phone").or .null, (b "subject").or .null, b "message"] db =
      .ok ({ db with contacts :=
        { rows := db.contacts.rows ++ [ContactRow.created lib now b (db.contacts.seq + 1)],
          seq := db.contacts.seq + 1 } }, 1) := by
  simp only [insertContact, bindAll, bindValue_of_ne (truthy_ne_undefined hn),
    bindValue_of_ne (truthy_ne_undefined he), bindValue_of_ne (truthy_ne_undefined hm),
    bindValue_of_ne (or_ne_undefined _ _ (by simp : JsVal.null ≠ .undefined))]
  rw [if_neg]
  · rfl
  · have h1 := applyAffinity_ne_null lib .text (bound_ne_null hn)
    have h2 := applyAffinity_ne_null lib .text (bound_ne_null he)
    have h3 := applyAffinity_ne_null lib .text (bound_ne_null hm)
    simp [h1, h2, h3]

theorem updateContactStatus_throws (lib : Lib) (status id : JsVal) (w : State) :
    ∃ e, w.run (updateContactStatus lib status id) = .error e := by
  rcases run_cases w (updateContactStatus lib status id) with h | ⟨db1, n, hs, _⟩
  · exact h
  · simp [updateContactStatus] at hs

/-- C21 (the code departs from the claim): the statement `PATCH /contact/:id`
runs names the column `updated_at`, which the `contacts` table of the schema
does not have, so the statement throws on every store and the handler never
answers 200 and never changes a row. For the contact with id 1 and the status
'read' the response is 500 'Failed to update contact' and the store, with the
row's status 'unread', is as before. -/
theorem patch_contact_answers_500 :
    (∀ (lib : Lib) (req : Request) (w : State),
      (patchContact lib req w).1.status ≠ 200 ∧ (patchContact lib req w).2 = w) ∧
    testState.db.contacts.rows = [contactRow] ∧
    contactRow.id = 1 ∧ contactRow.status = .text "unread" ∧
    patchContact testLib
      { emptyRequest with id := "1", body := fields [("status", .str "read")] } testState =
      (fail 500 "Failed to update contact", testState) := by
  refine ⟨fun lib req w => ?_, rfl, rfl, rfl, by rfl⟩
  unfold patchContact
  by_cases hs : (req.body "status").truthy = true
  · obtain ⟨e, he⟩ := updateContactStatus_throws lib (req.body "status") (.str req.id) w
    simp [hs, he, fail]
  · simp [hs, fail]

/-- C22: on a ready store, `POST /contact` with a truthy name, email and
message answers 201 with success true whatever the mail settings are and
whatever `sendMail` does, the store then holding the old contacts followed by
the new row; when the handler calls `sendMail` it does so in the state that
already holds the new row. A request in which one of the three fields is
falsy is answered 400, the store is unchanged and no mail is attempted. -/
theorem contact_saved_before_mail (lib : Lib) (mail : Mailer) (now : String) (req : Request)
    (w : State) :
    (w.ready = true → (req.body "name").truthy = true → (req.body "email").truthy = true →
      (req.body "message").truthy = true →
      createContact lib mail now req w =
        (done 201 (some "Message sent successfully!") (.id .undefined),
          w.saved { w.db with contacts :=
            { rows := w.db.contacts.rows ++
                [ContactRow.created lib now req.body (w.db.contacts.seq + 1)],
              seq := w.db.contacts.seq + 1 } }) ∧
      (createContact lib mail now req w).1.success = true ∧
      (mail.smtpHost = true →
        createContactMail lib mail now req w =
          some ((createContact lib mail now req w).2,
            [req.body "name", req.body "email", req.body "phone", req.body "subject",
              req.body "message"])) ∧
      ∀ s msg, createContactMail lib mail now req w = some (s, msg) →
        s.db.contacts.rows = w.db.contacts.rows ++
          [ContactRow.created lib now req.body (w.db.contacts.seq + 1)]) ∧
    (¬((req.body "name").truthy = true ∧ (req.body "email").truthy = true ∧
        (req.body "message").truthy = true) →
      createContact lib mail now req w = (fail 400 "Name, email, and message are required", w) ∧
      createContactMail lib mail now req w = none) := by
  constructor
  · intro hready hn he hm
    have hrun := run_ok w hready _ _ _ (insertContact_ok lib now req.body w.db hn he hm)
    have h1 : createContact lib mail now req w =
        (done 201 (some "Message sent successfully!") (.id .undefined),
          w.saved { w.db with contacts :=
            { rows := w.db.contacts.rows ++
                [ContactRow.created lib now req.body (w.db.contacts.seq + 1)],
              seq := w.db.contacts.seq + 1 } }) := by
      simp only [createContact, hn, he, hm]
      rw [hrun]
      rfl
    have h2 : createContactMail lib mail now req w =
        if mail.smtpHost then
          some (w.saved { w.db with contacts :=
            { rows := w.db.contacts.rows ++
                [ContactRow.created lib now req.body (w.db.contacts.seq + 1)],
              seq := w.db.contacts.seq + 1 } },
            [req.body "name", req.body "email", req.body "phone", req.body "subject",
              req.body "message"])
        else none := by
      simp only [createContactMail, hn, he, hm]
      rw [hrun]
      rfl
    refine ⟨h1, ?_, ?_, ?_⟩
    · rw [h1]; rfl
    · intro hs
      rw [h2, h1, if_pos hs]
    · intro s msg hsm
      rw [h2] at hsm
      split at hsm
      · cases hsm; rfl
      · cases hsm
  · intro hno
    have hc : (!(req.body "name").truthy || !(req.body "email").truthy ||
        !(req.body "message").truthy) = true := by
      by_contra hcon
      apply hno
      simpa [and_assoc] using hcon
    constructor
    · simp only [createContact, hc]; rfl
    · simp only [createContactMail, hc]; rfl

theorem contact_saved_before_mail_witness :
    (createContact testLib brokenMail "2024-02-01 00:00:00"
      { emptyRequest with
        body := fields [("name", .str "Bo"), ("email", .str "bo@example.com"),
          ("message", .str "Hi")] } testState).1.success = true ∧
    (createContact testLib goodMail "2024-02-01 00:00:00"
      { emptyRequest with
        body := fields [("name", .str "Bo"), ("email", .str "bo@example.com"),
          ("message", .str "Hi")] } testState).1.success = true ∧
    createContact testLib brokenMail "2024-02-01 00:00:00"
      { emptyRequest with
        body := fields [("name", .str "Bo"), ("email", .str "bo@example.com")] } testState =
      (fail 400 "Name, email, and message are required", testState) :=
  ⟨((contact_saved_before_mail testLib brokenMail "2024-02-01 00:00:00"
      { emptyRequest with
        body := fields [("name", .str "Bo"), ("email", .str "bo@example.com"),
          ("message", .str "Hi")] } testState).1 rfl rfl rfl rfl).2.1,
   ((contact_saved_before_mail testLib goodMail "2024-02-01 00:00:00"
      { emptyRequest with
        body := fields [("name", .str "Bo"), ("email", .str "bo@example.com"),
          ("message", .str "Hi")] } testState).1 rfl rfl rfl rfl).2.1,
   ((contact_saved_before_mail testLib brokenMail "2024-02-01 00:00:00"
      { emptyRequest with
        body := fields [("name", .str "Bo"), ("email", .str "bo@example.com")] } testState).2
      (by decide)).1⟩

/-- C26: while `ready` is false, `prepare(sql).run`, `prepare(sql).get`,
`prepare(sql).all` and `exec` throw 'Database not ready' whatever the
statement is, none of them giving a new state of the wrapper; a handler that
calls one of them answers from its `catch` with the wrapper, its database, its
file and `pendingOps` as they were. -/
theorem not_ready_throws (w : State) (hcold : w.ready = false) :
    (∀ stmt : Stmt, w.run stmt = .error "Database not ready") ∧
    (∀ (α : Type) (q : Db → Except String (List α)), w.get q = .error "Database not ready") ∧
    (∀ (α : Type) (q : Db → Except String (List α)), w.all q = .error "Database not ready") ∧
    (∀ stmt : Stmt, w.exec stmt = .error "Database not ready") ∧
    (∀ (lib : Lib) (req : Request),
      deleteContact lib req w = (fail 500 "Failed to delete contact", w)) ∧
    (∀ req : Request, getContacts req w = (fail 500 "Failed to fetch contacts", w)) := by
  refine ⟨fun stmt => ?_, fun α q => ?_, fun α q => ?_, fun stmt => ?_, fun lib req => ?_,
    fun req => ?_⟩
  · simp [State.run, hcold]
  · simp [State.get, hcold]
  · simp [State.all, hcold]
  · simp [State.exec, hcold]
  · simp [deleteContact, State.run, hcold]
  · simp [getContacts, State.all, hcold]

theorem not_ready_throws_witness :
    coldState.ready = false ∧
    (∀ stmt : Stmt, coldState.run stmt = .error "Database not ready") ∧
    (∀ stmt : Stmt, coldState.exec stmt = .error "Database not ready") :=
  ⟨rfl, (not_ready_throws coldState rfl).1, (not_ready_throws coldState rfl).2.2.2.1⟩

theorem serve_verified (lib : Lib) (now : String) (r : WriteRoute) (req : Request) (w : State)
    (token : String) (user : Claims)
    (htoken : extractToken req.authorization = some token)
    (hverify : lib.verify token = some user) :
    WriteRoute.serve lib now r req w = r.handler lib now req user w := by
  simp only [WriteRoute.serve, authenticateToken, htoken, hverify]

/-- C24: a request whose token verifies passes `authenticateToken` on each of
the six write routes whatever the role claim of the token is: the route runs
its handler with the decoded claims. With the four required fields truthy, a
ready store and an id claim in the token, `POST /properties` then answers 201
and the table holds the old rows followed by the new one, whose `created_by`
is the id claim of the token. -/
theorem token_role_is_not_checked (lib : Lib) (now : String) (req : Request) (w : State)
    (token : String) (user : Claims)
    (htoken : extractToken req.authorization = some token)
    (hverify : lib.verify token = some user) :
    (∀ r : WriteRoute, WriteRoute.serve lib now r req w = r.handler lib now req user w) ∧
    (w.ready = true → (req.body "title").truthy = true → (req.body "type").truthy = true →
      (req.body "price").truthy = true → (req.body "location").truthy = true →
      user.id ≠ .undefined →
      (WriteRoute.serve lib now .createProperty req w).1 =
        done 201 (some "Property created successfully") (.id .undefined) ∧
      (WriteRoute.serve lib now .createProperty req w).2.db.properties.rows =
        w.db.properties.rows ++
          [PropertyRow.created lib now req.body user.id (w.db.properties.seq + 1)] ∧
      (PropertyRow.created lib now req.body user.id (w.db.properties.seq + 1)).created_by =
        stored lib .numeric user.id ∧
      ∀ n : Int, user.id = .num n →
        (PropertyRow.created lib now req.body user.id (w.db.properties.seq + 1)).created_by =
          .int n) := by
  refine ⟨fun r => serve_verified lib now r req w token user htoken hverify, ?_⟩
  intro hready ht hy hp hl hid
  rw [serve_verified lib now .createProperty req w token user htoken hverify]
  have h := createProperty_ok lib now req user w hready ht hy hp hl hid
  refine ⟨?_, ?_, rfl, ?_⟩
  · exact congrArg Prod.fst h
  · exact congrArg (fun x => x.2.db.properties.rows) h
  · intro n hn
    simp only [PropertyRow.created, hn]
    rfl

theorem token_role_is_not_checked_witness :
    userClaims.role ≠ .str "admin" ∧
    (WriteRoute.serve testLib "2024-02-01 00:00:00" .createProperty
      { emptyRequest with
        authorization := some "Bearer user-token"
        body := fields [("title", .str "Flat"), ("type", .str "flat"), ("price", .num 5),
          ("location", .str "Lagos")] } testState).1 =
      done 201 (some "Property created successfully") (.id .undefined) ∧
    ((WriteRoute.serve testLib "2024-02-01 00:00:00" .createProperty
      { emptyRequest with
        authorization := some "Bearer user-token"
        body := fields [("title", .str "Flat"), ("type", .str "flat"), ("price", .num 5),
          ("location", .str "Lagos")] } testState).2.db.properties.rows.map
        PropertyRow.created_by) = [.null, .int 2] :=
  ⟨by decide,
   ((token_role_is_not_checked testLib "2024-02-01 00:00:00"
      { emptyRequest with
        authorization := some "Bearer user-token"
        body := fields [("title", .str "Flat"), ("type", .str "flat"), ("price", .num 5),
          ("location", .str "Lagos")] } testState "user-token" userClaims rfl rfl).2
      rfl rfl rfl rfl rfl (by decide)).1,
   by
    rw [((token_role_is_not_checked testLib "2024-02-01 00:00:00"
      { emptyRequest with
        authorization := some "Bearer user-token"
        body := fields [("title", .str "Flat"), ("type", .str "flat"), ("price", .num 5),
          ("location", .str "Lagos")] } testState "user-token" userClaims rfl rfl).2
      rfl rfl rfl rfl rfl (by decide)).2.1]
    rfl⟩

theorem createProperty_not_400 (lib : Lib) (now : String) (req : Request) (user : Claims)
    (w : State)
    (ht : (req.body "title").truthy = true) (hy : (req.body "type").truthy = true)
    (hp : (req.body "price").truthy = true) (hl : (req.body "location").truthy = true) :
    (createProperty lib now req user w).1.status ≠ 400 := by
  simp only [createProperty, ht, hy, hp, hl]
  rw [if_neg (by decide)]
  split <;> simp [fail, done]

theorem createProperty_400 (lib : Lib) (now : String) (req : Request) (user : Claims)
    (w : State)
    (h : ¬((req.body "title").truthy = true ∧ (req.body "type").truthy = true ∧
      (req.body "price").truthy = true ∧ (req.body "location").truthy = true)) :
    createProperty lib now req user w =
      (fail 400 "Title, type, price, and location are required", w) := by
  have hc : (!(req.body "title").truthy || !(req.body "type").truthy ||
      !(req.body "price").truthy || !(req.body "location").truthy) = true := by
    by_contra hcon
    apply h
    simpa [and_assoc] using hcon
  simp only [createProperty, hc]
  rfl

/-- C29: behind a token that verifies, `POST /properties` answers 400 'Title,
type, price, and location are required' exactly when one of the four fields is
missing or falsy, and then the store is unchanged. A price of 0 is falsy and is
answered so. With a negative price, the other three fields truthy, a ready
store and an id claim in the token, the answer is 201 and the new row holds
that price. -/
theorem create_property_required_fields (lib : Lib) (now : String) (req : Request) (w : State)
    (token : String) (user : Claims)
    (htoken : extractToken req.authorization = some token)
    (hverify : lib.verify token = some user) :
    ((WriteRoute.serve lib now .createProperty req w).1 =
        fail 400 "Title, type, price, and location are required" ↔
      ¬((req.body "title").truthy = true ∧ (req.body "type").truthy = true ∧
        (req.body "price").truthy = true ∧ (req.body "location").truthy = true)) ∧
    (¬((req.body "title").truthy = true ∧ (req.body "type").truthy = true ∧
        (req.body "price").truthy = true ∧ (req.body "location").truthy = true) →
      (WriteRoute.serve lib now .createProperty req w).2 = w) ∧
    (req.body "price" = .num 0 →
      WriteRoute.serve lib now .createProperty req w =
        (fail 400 "Title, type, price, and location are required", w)) ∧
    (∀ n : Int, n < 0 → req.body "price" = .num n → w.ready = true →
      (req.body "title").truthy = true → (req.body "type").truthy = true →
      (req.body "location").truthy = true → user.id ≠ .undefined →
      (WriteRoute.serve lib now .createProperty req w).1 =
        done 201 (some "Property created successfully") (.id .undefined) ∧
      ∃ p : PropertyRow,
        (WriteRoute.serve lib now .createProperty req w).2.db.properties.rows =
          w.db.properties.rows ++ [p] ∧ p.price = .int n) := by
  rw [serve_verified lib now .createProperty req w token user htoken hverify]
  refine ⟨⟨?_, ?_⟩, ?_, ?_, ?_⟩
  · intro h hall
    have h4 := createProperty_not_400 lib now req user w hall.1 hall.2.1 hall.2.2.1 hall.2.2.2
    apply h4
    show (createProperty lib now req user w).1.status = 400
    rw [show (WriteRoute.createProperty.handler lib now req user w).1 =
      (createProperty lib now req user w).1 from rfl] at h
    rw [h]
    rfl
  · intro h
    exact congrArg Prod.fst (createProperty_400 lib now req user w h)
  · intro h
    exact congrArg Prod.snd (createProperty_400 lib now req user w h)
  · intro h0
    apply createProperty_400
    intro hall
    have := hall.2.2.1
    rw [h0] at this
    simp [JsVal.truthy] at this
  · intro n hn hprice hready ht hy hl hid
    have hp : (req.body "price").truthy = true := by
      rw [hprice]
      simp [JsVal.truthy]
      omega
    have h := createProperty_ok lib now req user w hready ht hy hp hl hid
    refine ⟨congrArg Prod.fst h, _, congrArg (fun x => x.2.db.properties.rows) h, ?_⟩
    simp only [PropertyRow.created, hprice]
    rfl

theorem create_property_required_fields_witness :
    WriteRoute.serve testLib "2024-02-01 00:00:00" .createProperty
      { emptyRequest with
        authorization := some "Bearer admin-token"
        body := fields [("title", .str "Flat"), ("type", .str "flat"), ("price", .num 0),
          ("location", .str "Lagos")] } testState =
      (fail 400 "Title, type, price, and location are required", testState) ∧
    (WriteRoute.serve testLib "2024-02-01 00:00:00" .createProperty
      { emptyRequest with
        authorization := some "Bearer admin-token"
        body := fields [("title", .str "Flat"), ("type", .str "flat"), ("price", .num (-5)),
          ("location", .str "Lagos")] } testState).1 =
      done 201 (some "Property created successfully") (.id .undefined) :=
  ⟨(create_property_required_fields testLib "2024-02-01 00:00:00"
      { emptyRequest with
        authorization := some "Bearer admin-token"
        body := fields [("title", .str "Flat"), ("type", .str "flat"), ("price", .num 0),
          ("location", .str "Lagos")] } testState "admin-token" adminClaims rfl rfl).2.2.1 rfl,
   ((create_property_required_fields testLib "2024-02-01 00:00:00"
      { emptyRequest with
        authorization := some "Bearer admin-token"
        body := fields [("title", .str "Flat"), ("type", .str "flat"), ("price", .num (-5)),
          ("location", .str "Lagos")] } testState "admin-token" adminClaims rfl rfl).2.2.2
      (-5) (by decide) rfl rfl rfl rfl rfl (by decide)).1⟩

theorem mapExcept_ok_iff {α β : Type} (f : α → Except String β) (rows : List α)
    (views : List β) (h : mapExcept f rows = .ok views) :
    (∀ r ∈ rows, ∃ v ∈ views, f r = .ok v) ∧ (∀ v ∈ views, ∃ r ∈ rows, f r = .ok v) := by
  induction rows generalizing views with
  | nil =>
    simp only [mapExcept] at h
    cases h
    exact ⟨fun r hr => (List.not_mem_nil _ hr).elim, fun v hv => (List.not_mem_nil _ hv).elim⟩
  | cons a as ih =>
    simp only [mapExcept] at h
    cases ha : f a with
    | error e => rw [ha] at h; cases h
    | ok b =>
      rw [ha] at h
      cases has : mapExcept f as with
      | error e => rw [has] at h; cases h
      | ok bs =>
        rw [has] at h
        cases h
        obtain ⟨ih1, ih2⟩ := ih bs has
        constructor
        · intro r hr
          rcases List.mem_cons.1 hr with rfl | hr
          · exact ⟨b, List.mem_cons_self _ _, ha⟩
          · obtain ⟨v, hv, hf⟩ := ih1 r hr
            exact ⟨v, List.mem_cons_of_mem _ hv, hf⟩
        · intro v hv
          rcases List.mem_cons.1 hv with rfl | hv
          · exact ⟨a, List.mem_cons_self _ _, ha⟩
          · obtain ⟨r, hr, hf⟩ := ih2 v hv
            exact ⟨r, List.mem_cons_of_mem _ hr, hf⟩

theorem parseFeatures_list (lib : Lib) (L : List String) (p : PropertyRow)
    (hjson : lib.parse (lib.stringify (.arr L)) = some (.arr L))
    (hempty : lib.parse "" = none)
    (hp : p.features = .text (lib.stringify (.arr L))) :
    parseFeatures lib p = .ok { row := p, features := .arr L } := by
  have hne : lib.stringify (.arr L) ≠ "" := by
    intro h
    rw [h, hempty] at hjson
    cases hjson
  have ht : (toJs p.features).truthy = true := by
    rw [hp]
    exact (truthy_str _).2 hne
  simp only [parseFeatures, ht]
  rw [hp]
  simp only [toJs, jsonParse, hjson]
  rfl

theorem parseFeatures_none (lib : Lib) (p : PropertyRow)
    (hp : p.features = .null ∨ p.features = .text "") :
    parseFeatures lib p = .ok { row := p, features := .arr [] } := by
  have ht : (toJs p.features).truthy = false := by
    rcases hp with h | h <;> rw [h] <;> rfl
  simp [parseFeatures, ht]


theorem getProperties_views (lib : Lib) (req : Request) (w : State) (views : List PropertyView)
    (h : (getProperties lib req w).1.data = .properties views) :
    ∀ v ∈ views, parseFeatures lib v.row = .ok v := by
  obtain ⟨rows, _, hm⟩ := getProperties_data lib req w views h
  intro v hv
  obtain ⟨r, _, hr⟩ := (mapExcept_ok_iff _ rows views hm).2 v hv
  rw [parseFeatures_row lib r v hr]
  exact hr

theorem searchProperties_views (lib : Lib) (req : Request) (w : State)
    (views : List PropertyView)
    (h : (searchProperties lib req w).1.data = .properties views) :
    ∀ v ∈ views, parseFeatures lib v.row = .ok v := by
  unfold searchProperties at h
  split at h
  · simp [fail] at h
  · next rows hall =>
    split at h
    · simp [fail] at h
    · next vs hvs =>
      simp only [done, Data.properties.injEq] at h
      subst h
      intro v hv
      obtain ⟨r, _, hr⟩ := (mapExcept_ok_iff _ rows vs hvs).2 v hv
      rw [parseFeatures_row lib r v hr]
      exact hr

theorem views_of_rows (lib : Lib) (rows : List PropertyRow) (p : PropertyRow)
    (v : PropertyView) (hall : ∀ r ∈ rows, ∃ u, parseFeatures lib r = .ok u)
    (hp : p ∈ rows) (hv : parseFeatures lib p = .ok v) :
    ∃ views, mapExcept (parseFeatures lib) rows = .ok views ∧ v ∈ views := by
  obtain ⟨views, hviews⟩ := mapExcept_parseFeatures_ok lib rows hall
  refine ⟨views, hviews, ?_⟩
  obtain ⟨u, hu, hpu⟩ := (mapExcept_ok_iff _ rows views hviews).1 p hp
  rw [hv] at hpu
  cases hpu
  exact hu

/-- C23: let a JSON codec give back the list `L` from its own text of `L` and
refuse the empty text. On a ready store, `POST /properties` with the four
required fields, `features = L` and a token with an id claim adds one row `p`;
`GET /properties/:id` with the id of that row answers 200 with `features = L`;
whenever the list or the search handler returns that row, it does so with
`features = L`, and both return it when the row was stored with the default
status, the request has no query parameter and the older rows hold JSON. A row
whose `features` column is NULL or the empty text is read with `features = []`. -/
theorem features_round_trip (lib : Lib) (L : List String) (now : String) (req : Request)
    (user : Claims) (w w1 : State) (p : PropertyRow)
    (hjson : lib.parse (lib.stringify (.arr L)) = some (.arr L))
    (hempty : lib.parse "" = none)
    (hready : w.ready = true)
    (hfeat : req.body "features" = .arr L)
    (ht : (req.body "title").truthy = true) (hy : (req.body "type").truthy = true)
    (hpr : (req.body "price").truthy = true) (hl : (req.body "location").truthy = true)
    (hid : user.id ≠ .undefined)
    (hp : p = PropertyRow.created lib now req.body user.id (w.db.properties.seq + 1))
    (hw1 : w1 = (createProperty lib now req user w).2) :
    w1.db.properties.rows = w.db.properties.rows ++ [p] ∧
    p.features = .text (lib.stringify (.arr L)) ∧
    ((∀ r ∈ w.db.properties.rows, r.id ≤ w.db.properties.seq) →
      ∀ req2 : Request, lib.numericText req2.id = some (w.db.properties.seq + 1) →
        getProperty lib req2 w1 =
          (done 200 none (.property { row := p, features := .arr L }), w1)) ∧
    (∀ (req2 : Request) (vs : List PropertyView),
      (getProperties lib req2 w1).1.data = .properties vs →
      ∀ v ∈ vs, v.row = p → v.features = .arr L) ∧
    (∀ (req2 : Request) (vs : List PropertyView),
      (searchProperties lib req2 w1).1.data = .properties vs →
      ∀ v ∈ vs, v.row = p → v.features = .arr L) ∧
    ((req.body "status").truthy = false →
      (∀ r ∈ w.db.properties.rows, ∃ v, parseFeatures lib r = .ok v) →
      ∀ req2 : Request, (∀ k, req2.query k = none) →
        (∃ vs, getProperties lib req2 w1 = (done 200 none (.properties vs), w1) ∧
          { row := p, features := .arr L } ∈ vs) ∧
        ∃ vs, searchProperties lib req2 w1 = (done 200 none (.properties vs), w1) ∧
          { row := p, features := .arr L } ∈ vs) ∧
    (∀ q : PropertyRow, q.features = .null ∨ q.features = .text "" →
      parseFeatures lib q = .ok { row := q, features := .arr [] }) := by
  have hcreate := createProperty_ok lib now req user w hready ht hy hpr hl hid
  rw [hcreate] at hw1
  simp only at hw1
  have hrows1 : w1.db.properties.rows = w.db.properties.rows ++ [p] := by
    rw [hw1, hp]; rfl
  have hready1 : w1.ready = true := by
    rw [hw1]; exact hready
  have hpf : p.features = .text (lib.stringify (.arr L)) := by
    rw [hp]
    simp only [PropertyRow.created, hfeat]
    rfl
  have hparse : parseFeatures lib p = .ok { row := p, features := .arr L } :=
    parseFeatures_list lib L p hjson hempty hpf
  have hpid : p.id = w.db.properties.seq + 1 := by rw [hp]; rfl
  refine ⟨hrows1, hpf, ?_, ?_, ?_, ?_, fun q hq => parseFeatures_none lib q hq⟩
  · intro hids req2 hreq2
    have hfil : w1.db.properties.rows.filter
        (fun r => sqlEq lib .numeric (.int r.id) (.text req2.id)) = [p] := by
      rw [hrows1, List.filter_append]
      have h1 : w.db.properties.rows.filter
          (fun r => sqlEq lib .numeric (.int r.id) (.text req2.id)) = [] := by
        rw [List.filter_eq_nil_iff]
        intro r hr hhit
        have := (sqlEq_id lib r.id req2.id).1 hhit
        rw [hreq2] at this
        have hle := hids r hr
        have : w.db.properties.seq + 1 = r.id := Option.some.inj this
        omega
      have h2 : sqlEq lib .numeric (.int p.id) (.text req2.id) = true := by
        rw [sqlEq_id, hreq2, hpid]
      rw [h1]
      simp [List.filter, h2]
    simp only [getProperty]
    rw [get_ready w1 hready1]
    simp only [selectPropertyById, bindValue_str, hfil, List.head?, hparse]
  · intro req2 vs hvs v hv hvp
    have := getProperties_views lib req2 w1 vs hvs v hv
    rw [hvp, hparse] at this
    cases this
    rfl
  · intro req2 vs hvs v hv hvp
    have := searchProperties_views lib req2 w1 vs hvs v hv
    rw [hvp, hparse] at this
    cases this
    rfl
  · intro hstatus hold req2 hq
    have hpst : p.status = .text "active" := by
      rw [hp]
      simp only [PropertyRow.created, JsVal.or, hstatus]
      rfl
    have hact : sqlEq lib .text p.status (.text "active") = true := (sqlEq_text lib _ _).2 hpst
    have hall1 : ∀ r ∈ w1.db.properties.rows, ∃ u, parseFeatures lib r = .ok u := by
      intro r hr
      rw [hrows1, List.mem_append] at hr
      rcases hr with hr | hr
      · exact hold r hr
      · rw [List.mem_singleton] at hr
        rw [hr]
        exact ⟨_, hparse⟩
    have hpm : p ∈ w1.db.properties.rows := by
      rw [hrows1]; simp
    constructor
    · have hsel : selectProperties lib (req2.query "type") (req2.query "status")
          (req2.query "featured") (req2.query "limit") (req2.query "offset") w1.db =
          .ok (orderByCreatedDesc PropertyRow.created_at (w1.db.properties.rows.filter
            (fun r => sqlEq lib .text r.status (.text "active")))) := by
        simp [selectProperties, hq, given, paginate]
      obtain ⟨vs, hvs, hmem⟩ := views_of_rows lib
        (orderByCreatedDesc PropertyRow.created_at (w1.db.properties.rows.filter
            (fun r => sqlEq lib .text r.status (.text "active")))) p _
        (fun r hr => hall1 r (List.mem_of_mem_filter ((mem_orderByCreatedDesc _ _ _).1 hr)))
        ((mem_orderByCreatedDesc _ _ _).2 (List.mem_filter.2 ⟨hpm, hact⟩)) hparse
      refine ⟨vs, ?_, hmem⟩
      simp only [getProperties]
      rw [all_ready w1 hready1, hsel]
      simp only [hvs]
    · have hsel : selectPropertiesSearch lib (req2.query "q") (req2.query "minPrice")
          (req2.query "maxPrice") (req2.query "location") (req2.query "type") w1.db =
          .ok (orderByCreatedDesc PropertyRow.created_at (w1.db.properties.rows.filter
            (fun r => sqlEq lib .text r.status (.text "active")))) := by
        simp [selectPropertiesSearch, hq, given]
      obtain ⟨vs, hvs, hmem⟩ := views_of_rows lib
        (orderByCreatedDesc PropertyRow.created_at (w1.db.properties.rows.filter
            (fun r => sqlEq lib .text r.status (.text "active")))) p _
        (fun r hr => hall1 r (List.mem_of_mem_filter ((mem_orderByCreatedDesc _ _ _).1 hr)))
        ((mem_orderByCreatedDesc _ _ _).2 (List.mem_filter.2 ⟨hpm, hact⟩)) hparse
      refine ⟨vs, ?_, hmem⟩
      simp only [searchProperties]
      rw [all_ready w1 hready1, hsel]
      simp only [hvs]


theorem features_round_trip_witness :
    getProperty jsonLib { emptyRequest with id := "2" }
      (createProperty jsonLib "2024-02-01 00:00:00"
        { emptyRequest with
          body := fields [("title", .str "Flat"), ("type", .str "flat"), ("price", .num 5),
            ("location", .str "Lagos"), ("features", .arr ["Garden", "Garage"])] }
        userClaims testState).2 =
      (done 200 none (.property
        { row := PropertyRow.created jsonLib "2024-02-01 00:00:00"
            (fields [("title", .str "Flat"), ("type", .str "flat"), ("price", .num 5),
              ("location", .str "Lagos"), ("features", .arr ["Garden", "Garage"])])
            (.num 2) 2
          features := .arr ["Garden", "Garage"] }),
        (createProperty jsonLib "2024-02-01 00:00:00"
          { emptyRequest with
            body := fields [("title", .str "Flat"), ("type", .str "flat"), ("price", .num 5),
              ("location", .str "Lagos"), ("features", .arr ["Garden", "Garage"])] }
          userClaims testState).2) :=
  (features_round_trip jsonLib ["Garden", "Garage"] "2024-02-01 00:00:00"
    { emptyRequest with
      body := fields [("title", .str "Flat"), ("type", .str "flat"), ("price", .num 5),
        ("location", .str "Lagos"), ("features", .arr ["Garden", "Garage"])] }
    userClaims testState _ _ rfl rfl rfl rfl rfl rfl rfl rfl (by decide) rfl rfl).2.2.1
    (by decide) { emptyRequest with id := "2" } rfl

/-- C25: on the empty store `_initTables` succeeds and leaves one users row,
the administrator `admin@terracore.com` with role 'admin', three properties,
three materials and three testimonials; run again on that store, at any later
time, it succeeds and returns the same store. -/
theorem initTables_seeds_once (lib : Lib) (now later : String) :
    ∃ db : Db, _initTables lib now emptyDb = .ok db ∧
      db.users.rows.map (fun u => (u.email, u.role)) =
        [(.text "admin@terracore.com", .text "admin")] ∧
      db.properties.rows.length = 3 ∧ db.materials.rows.length = 3 ∧
      db.testimonials.rows.length = 3 ∧
      _initTables lib later db = .ok db :=
  ⟨_, rfl, rfl, rfl, rfl, rfl, rfl⟩

theorem placeholders_append (a b : String) :
    placeholders (a ++ b) = placeholders a + placeholders b := by
  simp [placeholders, String.data_append, List.count_append]

theorem balanced_add (b : Built) (clause : String) (values : List SqlVal)
    (hb : b.Balanced) (hc : placeholders clause = values.length) :
    (b.add clause values).Balanced := by
  unfold Built.Balanced at hb ⊢
  simp only [Built.add, placeholders_append, List.length_append, hb, hc]

theorem balanced_lockstep (steps : List (Option (String × List SqlVal))) (base : Built)
    (hb : base.Balanced)
    (hs : ∀ st ∈ steps, ∀ c vs, st = some (c, vs) → placeholders c = vs.length) :
    (lockstep base steps).Balanced := by
  induction steps generalizing base with
  | nil => exact hb
  | cons st sts ih =>
    show (lockstep _ sts).Balanced
    apply ih
    · cases st with
      | none => exact hb
      | some cv =>
        obtain ⟨c, vs⟩ := cv
        exact balanced_add base c vs hb (hs _ (List.mem_cons_self _ _) c vs rfl)
    · intro s hmem
      exact hs s (List.mem_cons_of_mem _ hmem)

theorem balanced_prefixes (steps : List (Option (String × List SqlVal))) (base : Built)
    (hb : base.Balanced)
    (hs : ∀ st ∈ steps, ∀ c vs, st = some (c, vs) → placeholders c = vs.length) (n : Nat) :
    (lockstep base (steps.take n)).Balanced :=
  balanced_lockstep _ base hb (fun st hst => hs st (List.mem_of_mem_take hst))

theorem map_step_balanced (o : Option String) (f : String → String × List SqlVal)
    (hf : ∀ t, placeholders (f t).1 = (f t).2.length) (c : String) (vs : List SqlVal)
    (h : o.map f = some (c, vs)) : placeholders c = vs.length := by
  cases o with
  | none => cases h
  | some t =>
    have ht := hf t
    simp only [Option.map_some', Option.some.injEq] at h
    rw [h] at ht
    exact ht

theorem propertiesListSteps_balanced (lib : Lib)
    (type status featured limit offset : Option String) :
    ∀ st ∈ propertiesListSteps lib type status featured limit offset,
      ∀ c vs, st = some (c, vs) → placeholders c = vs.length := by
  intro st hst c vs heq
  simp only [propertiesListSteps, List.mem_cons, List.mem_singleton, List.not_mem_nil,
    or_false] at hst
  rcases hst with h | h | h | h | h | h <;> rw [h] at heq <;>
    first
    | (refine map_step_balanced _ _ ?_ c vs heq; intro t; rfl)
    | (cases heq; rfl)

theorem materialsListSteps_balanced (lib : Lib)
    (category status inStock limit offset : Option String) :
    ∀ st ∈ materialsListSteps lib category status inStock limit offset,
      ∀ c vs, st = some (c, vs) → placeholders c = vs.length := by
  intro st hst c vs heq
  simp only [materialsListSteps, List.mem_cons, List.mem_singleton, List.not_mem_nil,
    or_false] at hst
  rcases hst with h | h | h | h | h | h <;> rw [h] at heq <;>
    first
    | (refine map_step_balanced _ _ ?_ c vs heq; intro t; rfl)
    | (cases heq; rfl)

theorem propertiesSearchSteps_balanced (lib : Lib)
    (q minPrice maxPrice location type : Option String) :
    ∀ st ∈ propertiesSearchSteps lib q minPrice maxPrice location type,
      ∀ c vs, st = some (c, vs) → placeholders c = vs.length := by
  intro st hst c vs heq
  simp only [propertiesSearchSteps, List.mem_cons, List.mem_singleton, List.not_mem_nil,
    or_false] at hst
  rcases hst with h | h | h | h | h | h <;> rw [h] at heq <;>
    first
    | (refine map_step_balanced _ _ ?_ c vs heq; intro t; rfl)
    | (cases heq; rfl)

theorem materialsSearchSteps_balanced (lib : Lib) (q category minPrice maxPrice : Option String) :
    ∀ st ∈ materialsSearchSteps lib q category minPrice maxPrice,
      ∀ c vs, st = some (c, vs) → placeholders c = vs.length := by
  intro st hst c vs heq
  simp only [materialsSearchSteps, List.mem_cons, List.mem_singleton, List.not_mem_nil,
    or_false] at hst
  rcases hst with h | h | h | h | h <;> rw [h] at heq <;>
    first
    | (refine map_step_balanced _ _ ?_ c vs heq; intro t; rfl)
    | (cases heq; rfl)

theorem propertiesListQuery_eq (lib : Lib) (type status featured limit offset : Option String) :
    propertiesListQuery lib type status featured limit offset =
      lockstep { query := "SELECT * FROM properties WHERE 1=1", params := [] }
        (propertiesListSteps lib type status featured limit offset) := by
  unfold propertiesListQuery propertiesListSteps
  cases given type <;> cases given status <;> cases given featured <;> cases given limit <;>
    cases given offset <;> rfl

theorem materialsListQuery_eq (lib : Lib) (category status inStock limit offset : Option String) :
    materialsListQuery lib category status inStock limit offset =
      lockstep { query := "SELECT * FROM materials WHERE 1=1", params := [] }
        (materialsListSteps lib category status inStock limit offset) := by
  unfold materialsListQuery materialsListSteps
  cases given category <;> cases given status <;> cases inStock <;> cases given limit <;>
    cases given offset <;> rfl

theorem propertiesSearchQuery_eq (lib : Lib) (q minPrice maxPrice location type : Option String) :
    propertiesSearchQuery lib q minPrice maxPrice location type =
      lockstep
        { query := "SELECT * FROM properties WHERE status = ?", params := [.text "active"] }
        (propertiesSearchSteps lib q minPrice maxPrice location type) := by
  unfold propertiesSearchQuery propertiesSearchSteps
  cases given q <;> cases given minPrice <;> cases given maxPrice <;> cases given location <;>
    cases given type <;> rfl

theorem materialsSearchQuery_eq (lib : Lib) (q category minPrice maxPrice : Option String) :
    materialsSearchQuery lib q category minPrice maxPrice =
      lockstep
        { query := "SELECT * FROM materials WHERE status = ?", params := [.text "active"] }
        (materialsSearchSteps lib q category minPrice maxPrice) := by
  unfold materialsSearchQuery materialsSearchSteps
  cases given q <;> cases given category <;> cases given minPrice <;> cases given maxPrice <;>
    rfl

/-- C27: each of the four handlers that build their SQL text builds it in
lockstep with its `params` array: the text and the array are those of the
steps of the source taken in order (the filters first, then LIMIT, then
OFFSET), each step appending one clause and pushing the values of that clause.
After every step, and so at the end, the text has exactly as many `?`
placeholders as the array has elements, for every combination of query
parameters. -/
theorem placeholders_match_params (lib : Lib) :
    (∀ type status featured limit offset : Option String,
      propertiesListQuery lib type status featured limit offset =
        lockstep { query := "SELECT * FROM properties WHERE 1=1", params := [] }
          (propertiesListSteps lib type status featured limit offset) ∧
      (∀ n, (lockstep { query := "SELECT * FROM properties WHERE 1=1", params := [] }
          ((propertiesListSteps lib type status featured limit offset).take n)).Balanced) ∧
      placeholders (propertiesListQuery lib type status featured limit offset).query =
        (propertiesListQuery lib type status featured limit offset).params.length) ∧
    (∀ category status inStock limit offset : Option String,
      materialsListQuery lib category status inStock limit offset =
        lockstep { query := "SELECT * FROM materials WHERE 1=1", params := [] }
          (materialsListSteps lib category status inStock limit offset) ∧
      (∀ n, (lockstep { query := "SELECT * FROM materials WHERE 1=1", params := [] }
          ((materialsListSteps lib category status inStock limit offset).take n)).Balanced) ∧
      placeholders (materialsListQuery lib category status inStock limit offset).query =
        (materialsListQuery lib category status inStock limit offset).params.length) ∧
    (∀ q minPrice maxPrice location type : Option String,
      propertiesSearchQuery lib q minPrice maxPrice location type =
        lockstep
          { query := "SELECT * FROM properties WHERE status = ?", params := [.text "active"] }
          (propertiesSearchSteps lib q minPrice maxPrice location type) ∧
      (∀ n, (lockstep
          { query := "SELECT * FROM properties WHERE status = ?", params := [.text "active"] }
          ((propertiesSearchSteps lib q minPrice maxPrice location type).take n)).Balanced) ∧
      placeholders (propertiesSearchQuery lib q minPrice maxPrice location type).query =
        (propertiesSearchQuery lib q minPrice maxPrice location type).params.length) ∧
    (∀ q category minPrice maxPrice : Option String,
      materialsSearchQuery lib q category minPrice maxPrice =
        lockstep
          { query := "SELECT * FROM materials WHERE status = ?", params := [.text "active"] }
          (materialsSearchSteps lib q category minPrice maxPrice) ∧
      (∀ n, (lockstep
          { query := "SELECT * FROM materials WHERE status = ?", params := [.text "active"] }
          ((materialsSearchSteps lib q category minPrice maxPrice).take n)).Balanced) ∧
      placeholders (materialsSearchQuery lib q category minPrice maxPrice).query =
        (materialsSearchQuery lib q category minPrice maxPrice).params.length) := by
  refine ⟨fun type status featured limit offset => ⟨propertiesListQuery_eq lib _ _ _ _ _,
      fun n => balanced_prefixes _ _ (by unfold Built.Balanced; rfl) (propertiesListSteps_balanced lib _ _ _ _ _) n, ?_⟩,
    fun category status inStock limit offset => ⟨materialsListQuery_eq lib _ _ _ _ _,
      fun n => balanced_prefixes _ _ (by unfold Built.Balanced; rfl) (materialsListSteps_balanced lib _ _ _ _ _) n, ?_⟩,
    fun q minPrice maxPrice location type => ⟨propertiesSearchQuery_eq lib _ _ _ _ _,
      fun n => balanced_prefixes _ _ (by unfold Built.Balanced; rfl) (propertiesSearchSteps_balanced lib _ _ _ _ _) n, ?_⟩,
    fun q category minPrice maxPrice => ⟨materialsSearchQuery_eq lib _ _ _ _,
      fun n => balanced_prefixes _ _ (by unfold Built.Balanced; rfl) (materialsSearchSteps_balanced lib _ _ _ _) n, ?_⟩⟩
  · rw [propertiesListQuery_eq]
    exact balanced_lockstep _ _ (by unfold Built.Balanced; rfl) (propertiesListSteps_balanced lib _ _ _ _ _)
  · rw [materialsListQuery_eq]
    exact balanced_lockstep _ _ (by unfold Built.Balanced; rfl) (materialsListSteps_balanced lib _ _ _ _ _)
  · rw [propertiesSearchQuery_eq]
    exact balanced_lockstep _ _ (by unfold Built.Balanced; rfl) (propertiesSearchSteps_balanced lib _ _ _ _ _)
  · rw [materialsSearchQuery_eq]
    exact balanced_lockstep _ _ (by unfold Built.Balanced; rfl) (materialsSearchSteps_balanced lib _ _ _ _)

theorem fail_data (code : Nat) (msg : String) : (fail code msg).data = .none := rfl

theorem get_mem {α : Type} (w : State) (q : Db → Except String (List α)) (x : α)
    (h : w.get q = .ok (some x)) : ∃ rows, q w.db = .ok rows ∧ x ∈ rows := by
  rcases get_cases w q with ⟨e, he⟩ | ⟨rows, hq, hg⟩
  · rw [he] at h; cases h
  · rw [hg] at h
    refine ⟨rows, hq, ?_⟩
    cases rows with
    | nil => cases h
    | cons a as =>
      simp only [List.head?, Except.ok.injEq, Option.some.injEq] at h
      rw [h]
      exact List.mem_cons_self _ _

theorem selectUsersByEmail_mem (lib : Lib) (email : JsVal) (db : Db) (rows : List UserRow)
    (h : selectUsersByEmail lib email db = .ok rows) : ∀ u ∈ rows, u ∈ db.users.rows := by
  unfold selectUsersByEmail at h
  split at h
  · cases h
  · cases h
    intro u hu
    exact List.mem_of_mem_filter hu

theorem selectProfileById_mem (lib : Lib) (id : JsVal) (db : Db) (rows : List UserProfile)
    (h : selectProfileById lib id db = .ok rows) :
    ∀ p ∈ rows, ∃ u ∈ db.users.rows, p = u.profile := by
  unfold selectProfileById at h
  split at h
  · cases h
  · cases h
    intro p hp
    obtain ⟨u, hu, rfl⟩ := List.mem_map.1 hp
    exact ⟨u, List.mem_of_mem_filter hu, rfl⟩

theorem selectProfileById_eq (lib : Lib) (id : JsVal) (db : Db) :
    selectProfileById lib id db =
      match bindValue id with
      | .error e => .error e
      | .ok p =>
        .ok ((db.users.rows.map UserRow.profile).filter
          (fun q => sqlEq lib .numeric (.int q.id) p)) := by
  unfold selectProfileById
  cases bindValue id with
  | error e => rfl
  | ok p =>
    simp only [List.filter_map]
    rfl

theorem profiles_sorted (rows : List UserRow) :
    (orderByCreatedDesc UserRow.created_at rows).map UserRow.profile =
      orderByCreatedDesc UserProfile.created_at (rows.map UserRow.profile) := by
  unfold orderByCreatedDesc
  exact List.map_insertionSort
    (fun a b : UserRow => sqlLe (UserRow.created_at b) (UserRow.created_at a) = true)
    (fun a b : UserProfile => sqlLe (UserProfile.created_at b) (UserProfile.created_at a) = true)
    UserRow.profile rows (fun a _ b _ => Iff.rfl)

theorem getMe_of_profiles (lib : Lib) (req : Request) (w w2 : State)
    (hr : w2.ready = w.ready)
    (hp : w2.db.users.rows.map UserRow.profile = w.db.users.rows.map UserRow.profile) :
    (getMe lib req w2).1 = (getMe lib req w).1 := by
  have hget : ∀ id, w2.get (selectProfileById lib id) = w.get (selectProfileById lib id) := by
    intro id
    simp only [State.get, hr, selectProfileById_eq, hp]
  unfold getMe
  split
  · rfl
  · split
    · rfl
    · rw [hget]
      split <;> rfl

theorem getUsers_of_profiles (lib : Lib) (req : Request) (w w2 : State)
    (hr : w2.ready = w.ready)
    (hp : w2.db.users.rows.map UserRow.profile = w.db.users.rows.map UserRow.profile) :
    (getUsers lib req w2).1 = (getUsers lib req w).1 := by
  have hall : w2.all (fun db => Except.ok
        ((orderByCreatedDesc UserRow.created_at db.users.rows).map UserRow.profile)) =
      w.all (fun db => Except.ok
        ((orderByCreatedDesc UserRow.created_at db.users.rows).map UserRow.profile)) := by
    simp only [State.all, hr, profiles_sorted, hp]
  unfold getUsers
  split
  · rfl
  · split
    · rfl
    · split
      · rfl
      · rw [hall]
        split <;> rfl

/-- C28: whatever the store and the request are, the `data` of a response of
`POST /auth/register`, `POST /auth/login`, `GET /auth/me` and `GET /auth/users`
is absent or has one of these forms. Register: a token signed over the claims
id, email, name and role, and those claims, all taken from the request. Login:
a token signed over the id, email, name and role of one users row, and those
four values. Me: the id, email, name, role and created_at of one users row.
Users: those five columns of the users rows. The responses of me and users
are the same on two stores whose users rows agree on those five columns,
whatever the password columns hold. -/
theorem auth_responses_carry_no_password (lib : Lib) (now : String) (req : Request)
    (w : State) :
    ((register lib now req w).1.data = .none ∨
      ∃ lower, toLowerCase lib (req.body "email") = .ok lower ∧
        (register lib now req w).1.data =
          .auth
            (lib.sign
              { id := .undefined, email := lower, name := req.body "name", role := .str "user" })
            { id := .undefined, email := lower, name := req.body "name", role := .str "user" }) ∧
    ((login lib req w).1.data = .none ∨
      ∃ u ∈ w.db.users.rows,
        (login lib req w).1.data =
          .auth
            (lib.sign
              { id := .num u.id, email := toJs u.email, name := toJs u.name,
                role := toJs u.role })
            { id := .num u.id, email := toJs u.email, name := toJs u.name,
              role := toJs u.role }) ∧
    ((getMe lib req w).1.data = .none ∨
      ∃ u ∈ w.db.users.rows, (getMe lib req w).1.data = .user u.profile) ∧
    ((getUsers lib req w).1.data = .none ∨
      (getUsers lib req w).1.data =
        .users ((orderByCreatedDesc UserRow.created_at w.db.users.rows).map UserRow.profile)) ∧
    (∀ w2 : State, w2.ready = w.ready →
      w2.db.users.rows.map UserRow.profile = w.db.users.rows.map UserRow.profile →
      (getMe lib req w2).1 = (getMe lib req w).1 ∧
      (getUsers lib req w2).1 = (getUsers lib req w).1) := by
  refine ⟨?_, ?_, ?_, ?_, fun w2 hr hp =>
    ⟨getMe_of_profiles lib req w w2 hr hp, getUsers_of_profiles lib req w w2 hr hp⟩⟩
  · unfold register
    simp only
    split
    · exact Or.inl rfl
    · split
      · exact Or.inl rfl
      · next lower hlower =>
        split
        · exact Or.inl rfl
        · exact Or.inl rfl
        · split
          · exact Or.inl rfl
          · split
            · exact Or.inl rfl
            · exact Or.inr ⟨lower, hlower, rfl⟩
  · unfold login
    simp only
    split
    · exact Or.inl rfl
    · split
      · exact Or.inl rfl
      · split
        · exact Or.inl rfl
        · exact Or.inl rfl
        · next user hget =>
          obtain ⟨rows, hq, hmem⟩ := get_mem w _ user hget
          have hu := selectUsersByEmail_mem lib _ w.db rows hq user hmem
          split
          · exact Or.inl rfl
          · exact Or.inl rfl
          · exact Or.inr ⟨user, hu, rfl⟩
  · unfold getMe
    split
    · exact Or.inl rfl
    · split
      · exact Or.inl rfl
      · split
        · exact Or.inl rfl
        · exact Or.inl rfl
        · next dbUser hget =>
          obtain ⟨rows, hq, hmem⟩ := get_mem w _ dbUser hget
          obtain ⟨u, hu, rfl⟩ := selectProfileById_mem lib _ w.db rows hq dbUser hmem
          exact Or.inr ⟨u, hu, rfl⟩
  · unfold getUsers
    split
    · exact Or.inl rfl
    · split
      · exact Or.inl rfl
      · split
        · exact Or.inl rfl
        · split
          · exact Or.inl rfl
          · next users hall =>
            right
            unfold State.all at hall
            split at hall
            · cases hall
            · cases hall
              rfl

theorem auth_responses_carry_no_password_witness :
    (getMe testLib { emptyRequest with authorization := some "Bearer admin-token" }
      { testState with
        db := { testDb with
          users := { rows := [{ adminRow with password := .text "hash:changed" }], seq := 1 } } }).1 =
      (getMe testLib { emptyRequest with authorization := some "Bearer admin-token" }
        testState).1 ∧
    (getMe testLib { emptyRequest with authorization := some "Bearer admin-token" }
      testState).1 = done 200 none (.user adminRow.profile) :=
  ⟨((auth_responses_carry_no_password testLib "2024-02-01 00:00:00"
      { emptyRequest with authorization := some "Bearer admin-token" } testState).2.2.2.2
      { testState with
        db := { testDb with
          users := { rows := [{ adminRow with password := .text "hash:changed" }], seq := 1 } } }
      rfl rfl).1,
   by rfl⟩

theorem mem_inner_iff (x : Char) (d : List Char) :
    x ∈ (d.drop 1).dropLast ↔ ∃ b c, d = b ++ x :: c ∧ b ≠ [] ∧ c ≠ [] := by
  constructor
  · intro h
    cases d with
    | nil => simp at h
    | cons hd t =>
      simp only [List.drop_succ_cons, List.drop_zero] at h
      have ht : t ≠ [] := by
        rintro rfl
        simp at h
      obtain ⟨u, v, huv⟩ := List.append_of_mem h
      obtain ⟨l, hl⟩ : ∃ l, t = t.dropLast ++ [l] :=
        ⟨t.getLast ht, (List.dropLast_append_getLast ht).symm⟩
      have e : t = u ++ x :: v ++ [l] := by rw [← huv]; exact hl
      refine ⟨hd :: u, v ++ [l], ?_, by simp, by simp⟩
      rw [e]
      simp
  · rintro ⟨b, c, rfl, hb, hc⟩
    cases b with
    | nil => exact absurd rfl hb
    | cons hd b1 =>
      simp only [List.cons_append, List.drop_succ_cons, List.drop_zero]
      rw [List.dropLast_append_of_ne_nil _ (by simp), List.dropLast_cons_of_ne_nil hc]
      simp

theorem takeWhile_dropWhile_split (p : Char → Bool) (a d : List Char) (y : Char)
    (ha : ∀ x ∈ a, p x = true) (hy : p y = false) :
    (a ++ y :: d).takeWhile p = a ∧ (a ++ y :: d).dropWhile p = y :: d := by
  induction a with
  | nil => simp [List.takeWhile, List.dropWhile, hy]
  | cons x xs ih =>
    have hx : p x = true := ha x (List.mem_cons_self _ _)
    obtain ⟨h1, h2⟩ := ih (fun z hz => ha z (List.mem_cons_of_mem _ hz))
    simp [List.takeWhile, List.dropWhile, hx, h1, h2]

theorem plainChar_iff (c : Char) : plainChar c = true ↔ isSpace c = false ∧ c ≠ '@' := by
  simp [plainChar]

theorem isSpace_at : isSpace '@' = false := by decide

theorem contains_iff_mem (l : List Char) (a : Char) : l.contains a = true ↔ a ∈ l := by
  simp

theorem emailMatch_true (s d : List Char) (hd : s.dropWhile plainChar = '@' :: d) :
    emailMatch s = true ↔
      s.takeWhile plainChar ≠ [] ∧ (∀ x ∈ d, plainChar x = true) ∧
        '.' ∈ (d.drop 1).dropLast := by
  simp only [emailMatch, hd, domainMatch, Bool.and_eq_true, Bool.not_eq_true',
    List.isEmpty_eq_false, List.all_eq_true, contains_iff_mem]

theorem emailMatch_iff (s : List Char) : emailMatch s = true ↔ emailShape s := by
  constructor
  · intro h
    have hsplit := List.takeWhile_append_dropWhile plainChar s
    cases hdrop : s.dropWhile plainChar with
    | nil =>
      unfold emailMatch at h
      rw [hdrop] at h
      cases h
    | cons y d =>
      by_cases hy : y = '@'
      · subst hy
        obtain ⟨ha, hdp, hdot⟩ := (emailMatch_true s d hdrop).1 h
        rw [hdrop] at hsplit
        have hap : ∀ x ∈ s.takeWhile plainChar, plainChar x = true :=
          fun x hx => List.mem_takeWhile_imp hx
        refine ⟨?_, ?_, s.takeWhile plainChar, d, hsplit.symm, ha, (mem_inner_iff '.' d).1 hdot⟩
        · intro c hc
          rw [← hsplit, List.mem_append, List.mem_cons] at hc
          rcases hc with hc | rfl | hc
          · exact ((plainChar_iff c).1 (hap c hc)).1
          · exact isSpace_at
          · exact ((plainChar_iff c).1 (hdp c hc)).1
        · rw [← hsplit, List.count_append, List.count_cons_self]
          have h1 : List.count '@' (s.takeWhile plainChar) = 0 := by
            rw [List.count_eq_zero]
            intro hm
            exact ((plainChar_iff _).1 (hap _ hm)).2 rfl
          have h2 : List.count '@' d = 0 := by
            rw [List.count_eq_zero]
            intro hm
            exact ((plainChar_iff _).1 (hdp _ hm)).2 rfl
          rw [h1, h2]
      · unfold emailMatch at h
        rw [hdrop] at h
        split at h
        · next d2 heq =>
          cases heq
          exact absurd rfl hy
        · cases h
  · rintro ⟨hws, hcount, a, d, rfl, ha, b, c, rfl, hb, hc⟩
    rw [List.count_append, List.count_cons_self] at hcount
    have h1 : List.count '@' a = 0 := by omega
    have h2 : List.count '@' (b ++ '.' :: c) = 0 := by omega
    rw [List.count_eq_zero] at h1 h2
    have hap : ∀ x ∈ a, plainChar x = true := by
      intro x hx
      refine (plainChar_iff x).2 ⟨hws x (List.mem_append_left _ hx), ?_⟩
      rintro rfl
      exact h1 hx
    have hdp : ∀ x ∈ b ++ '.' :: c, plainChar x = true := by
      intro x hx
      refine (plainChar_iff x).2
        ⟨hws x (List.mem_append_right _ (List.mem_cons_of_mem _ hx)), ?_⟩
      rintro rfl
      exact h2 hx
    obtain ⟨ht, hdw⟩ := takeWhile_dropWhile_split plainChar a (b ++ '.' :: c) '@' hap
      (by decide)
    rw [emailMatch_true _ _ hdw, ht]
    exact ⟨ha, hdp, (mem_inner_iff '.' _).2 ⟨b, c, rfl, hb, hc⟩⟩

/-- C30 (the claim as stated fails): the empty string has no `@`, so it is not
of the shape the claim describes, and `POST /newsletter/subscribe` rejects it
with 400 'Email is required', not with 'Invalid email format': the test
`!email` comes before the format check. -/
theorem empty_email_is_required_not_invalid :
    ¬emailShape ("" : String).data ∧
    subscribe testLib "2024-02-01 00:00:00"
      { emptyRequest with body := fields [("email", .str "")] } testState =
      (fail 400 "Email is required", testState) ∧
    (fail 400 "Email is required" : Response) ≠ fail 400 "Invalid email format" := by
  refine ⟨?_, by rfl, by decide⟩
  rintro ⟨_, hcount, _⟩
  simp at hcount

/-- C30 (amended): for an email that is a string, the format check of `POST
/newsletter/subscribe` passes exactly when the string has no whitespace
character, exactly one `@`, at least one character before it and, after it, a
dot with at least one character on each side; a request that is answered with
success has such an email. Every non-empty string that is not of this shape is
rejected with 400 'Invalid email format' and the store is unchanged; the empty
string is rejected with 400 'Email is required', the store unchanged. -/
theorem subscribe_format_check (lib : Lib) (now : String) (req : Request) (w : State)
    (s : String) (hemail : req.body "email" = .str s) :
    (emailRegexTest (req.body "email") = true ↔ emailShape s.data) ∧
    ((subscribe lib now req w).1.success = true → emailShape s.data) ∧
    (s ≠ "" → ¬emailShape s.data →
      subscribe lib now req w = (fail 400 "Invalid email format", w)) ∧
    (s = "" → subscribe lib now req w = (fail 400 "Email is required", w)) := by
  have hiff : emailRegexTest (req.body "email") = true ↔ emailShape s.data := by
    rw [hemail]
    exact emailMatch_iff s.data
  refine ⟨hiff, ?_, ?_, ?_⟩
  · intro hs
    by_contra hno
    have hreg : emailRegexTest (req.body "email") = false := by
      rw [← Bool.not_eq_true]
      exact fun h => hno (hiff.1 h)
    unfold subscribe at hs
    simp only [hreg] at hs
    split at hs
    · simp [fail] at hs
    · simp [fail] at hs
  · intro hne hno
    have hreg : emailRegexTest (req.body "email") = false := by
      rw [← Bool.not_eq_true]
      exact fun h => hno (hiff.1 h)
    have ht : (req.body "email").truthy = true := by
      rw [hemail]
      exact (truthy_str s).2 hne
    simp [subscribe, ht, hreg]
  · intro he
    have ht : (req.body "email").truthy = false := by
      rw [hemail, he]
      rfl
    simp [subscribe, ht]

theorem subscribe_format_check_witness :
    subscribe testLib "2024-02-01 00:00:00"
      { emptyRequest with body := fields [("email", .str "ada@example")] } testState =
      (fail 400 "Invalid email format", testState) :=
  (subscribe_format_check testLib "2024-02-01 00:00:00"
    { emptyRequest with body := fields [("email", .str "ada@example")] } testState
    "ada@example" rfl).2.2.1 (by decide) (mt (emailMatch_iff _).2 (by decide))

end TerraCore
